import Mathlib

/-!
# ecommerce-backend: authorization gate, redaction and lifecycle handlers

A shallow embedding of `src/routes/router.js`, `src/models/*.js` and `src/config.js`.

Conventions of the embedding
* Object ids, path parameters and token subject ids are strings; a missing value
  (`undefined`) is `none`.  A stored object id is held as it prints, the hex digits in lower
  case; a path parameter is held as it is written.  A store query casts the string it is
  handed to an object id (`castId`), whereas the JavaScript `==` between a stored id and a path
  parameter, and the name of a directory, take the parameter as it is written.
* The document store is one list of records per collection; the asset store is the list of
  paths that exist.  `fse.removeSync` resolves the path it is handed (`resolvePath`).
* A route handler is a function from the request and the stores to a response and the new
  stores.  Everything the source does not determine (whether express-validator reported
  errors, whether a store call handed `err` to its callback, the id the store gives to a new
  document, whether a file-system call throws) is read from an explicit `Oracle` argument.
* Timestamps (`created_at`, `updated_at`) are not modelled.
-/

namespace Ecommerce

/-! ## Configuration (`src/config.js`) -/

namespace config

def file_server_root : String := "/usr/local"

def upload_root_dir : String := "/usr/local/uploads"

def max_product_image_gallery_size : Nat := 5

def version : String := "0.6.0"

end config

/-! ## Data model (`src/models`) -/

/-- The `account` sub-document of a vendor.  `role = none` means that the object has no
`role` key. -/
structure Account where
  username : String
  password : String
  role : Option String
deriving DecidableEq

/-- The keys an account object has. -/
def Account.keys (a : Account) : List String :=
  ["username", "password"] ++ (if a.role.isSome then ["role"] else [])

/-- The `contact` sub-document of a vendor; every field defaults to `null`. -/
structure Contact where
  name : Option String := none
  lastname : Option String := none
  shopname : Option String := none
  address : Option String := none
  phone : Option String := none
  city : Option String := none
  state : Option String := none
  country : Option String := none
  postcode : Option String := none
  email : Option String := none
  site : Option String := none
deriving DecidableEq

/-- A document of the `Vendor` collection. -/
structure Vendor where
  _id : String
  account : Account
  contact : Contact := {}
  announcements : List String := []
  products : List String := []
  requests : List String := []
deriving DecidableEq

/-- A document of the `Product` collection.  `price` is kept as the decimal text of the
number. -/
structure Product where
  _id : String
  vendor_id : String
  category : Option String := none
  name : Option String := none
  description : Option String := none
  price : String := "0"
  image : Option String := none
  gallery : List String := []
  featured : Bool := false
  enabled : Bool := true
  sale : Option String := none
  keywords : List String := []
deriving DecidableEq

/-- A document of the `Announcement` collection. -/
structure Announcement where
  _id : String
  vendor_id : String
  announcement_text : String := ""
  image : Option String := none
  featured : Bool := false
deriving DecidableEq

/-- A document of the `Request` collection. -/
structure Request where
  _id : String
  vendor_id : String
  product : String
  name : Option String := none
  email : Option String := none
  phone : Option String := none
  notes : Option String := none
  status : String := "pending"
deriving DecidableEq

/-! ## Requests and responses -/

/-- The payload a response carries. -/
inductive Body where
  | message (m : String)
  | validationErrors
  | storeError
  | ident (id : String)
  | session (id : String) (token : String)
  | version (v : String)
  | vendors (l : List Vendor)
  | products (l : List Product)
  | announcements (l : List Announcement)
  | requests (l : List Request)
  | vendor (v : Vendor)
  | account (a : Account)
  | contact (c : Contact)
  | product (p : Product)
  | announcement (a : Announcement)
  | request (r : Request)
deriving DecidableEq

/-- What `res.status(..).send(..)` hands back to the caller. -/
structure Response where
  status : Nat
  body : Body
deriving DecidableEq

/-- The decoded token: `req.decoded`.  A request without a token is `{ role: 'guest' }`. -/
structure Decoded where
  id : Option String
  role : String
deriving DecidableEq

/-- The part of an express request that the gate and the handlers read. -/
structure Req where
  decoded : Decoded
  params : List (String × String)
deriving DecidableEq

/-- Mirrors `req.params.hasOwnProperty(k)`. -/
def Req.hasParam (req : Req) (k : String) : Bool :=
  (req.params.lookup k).isSome

/-- Mirrors `req.params.k` (`none` is `undefined`). -/
def Req.param (req : Req) (k : String) : Option String :=
  req.params.lookup k

/-- Mirrors `req.params.k` where the route pattern declares `:k`. -/
def Req.paramD (req : Req) (k : String) : String :=
  (req.params.lookup k).getD ""

/-! ## `requireRole` (router.js 166-198) -/

def forbidden : Response := { status := 403, body := .message "forbidden" }

/-- What a middleware does: hand over to the next handler, or answer itself. -/
inductive Gate where
  | next
  | respond (r : Response)
deriving DecidableEq

/-- The middleware returned by `requireRole(roles)`. -/
def requireRole (roles : List String) (req : Req) : Gate :=
  if req.decoded.role ∈ roles then
    if req.decoded.role = "user" then
      if req.hasParam "vendor_id" = true ∧ req.param "vendor_id" = req.decoded.id then
        .next
      else
        .respond forbidden
    else
      .next
  else
    .respond forbidden

/-- A route registered as `.verb(requireRole(roles), handler)`: express calls the handler
only when the middleware calls `next`. -/
def guarded {σ : Type} (roles : List String) (handler : Req → σ → Response × σ)
    (req : Req) (st : σ) : Response × σ :=
  match requireRole roles req with
  | .next => handler req st
  | .respond r => (r, st)


/-! ## Outcomes the source does not determine -/

/-- The results of the calls one request makes into express-validator, the document store,
bcrypt, multer and the file system, as far as the source does not fix them. -/
structure Oracle where
  /-- The value of `req.validationErrors()` is not null. -/
  validationErrors : Bool := false
  /-- A query on the `Vendor` collection hands `err` to its callback. -/
  vendorFindErr : Bool := false
  /-- The write of `vendor.save` hands `err` to its callback. -/
  vendorSaveErr : Bool := false
  /-- The call `Vendor.findByIdAndRemove` hands `err` to its callback. -/
  vendorRemoveErr : Bool := false
  /-- A query on a child collection hands `err` to its callback. -/
  childFindErr : Bool := false
  /-- The write of `product.save`, `announcement.save` or `request.save` hands `err`. -/
  childSaveErr : Bool := false
  /-- The call `Model.remove` on a child collection hands `err` to its callback. -/
  childRemoveErr : Bool := false
  /-- The `_id` a document created with `new Model()` receives. -/
  newId : String := "new"
  /-- The call `bcrypt.genSalt` hands `err`. -/
  genSaltErr : Bool := false
  /-- The call `bcrypt.hash` hands `err`. -/
  hashErr : Bool := false
  /-- The hash `bcrypt.hash` computes with the generated salt. -/
  bcryptHash : String → String := fun pw => "$2$" ++ pw
  /-- The call `fse.removeSync(path)` throws. -/
  removeSyncThrows : String → Bool := fun _ => false
  /-- The call `fse.mkdirsSync(path)` throws. -/
  mkdirsSyncThrows : String → Bool := fun _ => false
  /-- The multer upload reports an error of its own (limits, disk). -/
  uploadErr : Bool := false
  /-- The result of `bcrypt.compare(candidate, hash)`: `none` is `err`. -/
  bcryptCompare : String → String → Option Bool := fun pw h => some (decide (h = "$2$" ++ pw))
  /-- The token `jwt.sign` makes of the payload `id`, `role`. -/
  jwtSign : String → Option String → String := fun id _ => "jwt." ++ id
  /-- The result of `jwt.verify(token, secret)`: the decoded payload, `none` is `err`. -/
  jwtVerify : String → Option Decoded := fun _ => none
  /-- The call `queryProcessor(req.query, ...)` of query-params-mongo throws. -/
  queryErr : Bool := false
  /-- The call `transporter.sendMail` hands `err` to its callback. -/
  mailErr : Bool := false

/-! ## The stores -/

/-- The Resource Store (one list per collection) and the Asset Store (the paths that
exist). -/
structure State where
  vendors : List Vendor := []
  products : List Product := []
  announcements : List Announcement := []
  requests : List Request := []
  files : List String := []
deriving DecidableEq

/-- Mirrors `s.toLowerCase()`, character by character. -/
def toLowerCase (s : String) : String :=
  String.mk (s.data.map Char.toLower)

/-- The cast of a string to an `ObjectId`, which mongoose applies to an id handed to a
query, given as the id prints: the hex digits in lower case.  A stored `_id` is held as it
prints. -/
def castId (s : String) : String :=
  toLowerCase s

/-- Mirrors `Vendor.findById(id, cb)`: the document handed to the callback; the query casts
`id`. -/
def State.findVendor (st : State) (id : String) : Option Vendor :=
  st.vendors.find? (fun v => v._id = castId id)

/-- Mirrors `Product.findById(id, cb)`. -/
def State.findProduct (st : State) (id : String) : Option Product :=
  st.products.find? (fun p => p._id = castId id)

/-- Mirrors `Announcement.findById(id, cb)`. -/
def State.findAnnouncement (st : State) (id : String) : Option Announcement :=
  st.announcements.find? (fun a => a._id = castId id)

/-- Mirrors `Request.findById(id, cb)`. -/
def State.findRequest (st : State) (id : String) : Option Request :=
  st.requests.find? (fun r => r._id = castId id)

/-! ## `VendorSchema.methods.applyPermission` (vendor.js 75-96) -/

/-- The method `vendor.applyPermission(accessorRole)`. -/
def applyPermission (vendor : Vendor) (accessorRole : String) : Vendor :=
  if accessorRole = "user" then
    { vendor with
      account :=
        { username := vendor.account.username
          password := vendor.account.password
          role := none } }
  else
    vendor

/-- The value of the account `password` key a response body carries, if it has one. -/
def Body.passwordField : Body → Option String
  | .vendor v => some v.account.password
  | .account a => some a.password
  | _ => none

/-! ## `GET /vendor/:vendor_id` and `GET /vendor/:vendor_id/account` -/

/-- The handler of `GET /vendor/:vendor_id` (router.js 460-491). -/
def getVendor (o : Oracle) (req : Req) (st : State) : Response × State :=
  if o.validationErrors then (⟨400, .validationErrors⟩, st)
  else if o.vendorFindErr then (⟨500, .storeError⟩, st)
  else
    match st.findVendor (req.paramD "vendor_id") with
    | none => (⟨404, .message "vendor not found"⟩, st)
    | some vendor => (⟨200, .vendor (applyPermission vendor req.decoded.role)⟩, st)

/-- The handler of `GET /vendor/:vendor_id/account` (router.js 551-585). -/
def getAccount (o : Oracle) (req : Req) (st : State) : Response × State :=
  if o.validationErrors then (⟨400, .validationErrors⟩, st)
  else if o.vendorFindErr then (⟨500, .storeError⟩, st)
  else
    match st.findVendor (req.paramD "vendor_id") with
    | none => (⟨404, .message "vendor not found"⟩, st)
    | some vendor => (⟨200, .account (applyPermission vendor req.decoded.role).account⟩, st)

/-- The route `.get(requireRole(['admin', 'user']), ...)` on `/vendor/:vendor_id`. -/
def getVendorRoute (o : Oracle) : Req → State → Response × State :=
  guarded ["admin", "user"] (getVendor o)

/-- The route `.get(requireRole(['admin', 'user']), ...)` on `/vendor/:vendor_id/account`. -/
def getAccountRoute (o : Oracle) : Req → State → Response × State :=
  guarded ["admin", "user"] (getAccount o)

/-! ## Paths and the Asset Store -/

/-- The segments of a character list between the `/` characters, as `split('/')` gives
them. -/
def splitOnSlash : List Char → List (List Char)
  | [] => [[]]
  | c :: cs =>
    match splitOnSlash cs with
    | [] => [[]]
    | seg :: rest => if c = '/' then [] :: seg :: rest else (c :: seg) :: rest

/-- Mirrors `s.split('/')`. -/
def splitPath (s : String) : List String :=
  (splitOnSlash s.data).map String.mk

/-- Mirrors `segments.join('/')`. -/
def joinPath (segments : List String) : String :=
  "/".intercalate segments

/-- The function `getRelativePath(fullPath, pathToStrip)` (router.js 156-163):
`_.difference` keeps the segments of `fullPath` that are not a segment of `pathToStrip`. -/
def getRelativePath (fullPath pathToStrip : String) : String :=
  joinPath ((splitPath fullPath).filter (fun seg => seg ∉ splitPath pathToStrip))

/-- The names a path walks through, as the file system resolves it: an empty segment and
`.` stay where they are, `..` leaves the directory entered last, every other segment is
entered.  `acc` holds the names entered so far, the last one first.  A `..` step is taken
as it is when the directory it leaves exists. -/
def resolveSegments : List String → List String → List String
  | acc, [] => acc.reverse
  | acc, seg :: rest =>
    if seg = "" ∨ seg = "." then resolveSegments acc rest
    else if seg = ".." then resolveSegments acc.tail rest
    else resolveSegments (seg :: acc) rest

/-- The place a path names: `/usr/local/uploads/`, `/usr/local//uploads` and
`/usr/local/x/../uploads` name the place of `/usr/local/uploads`. -/
def resolvePath (p : String) : List String :=
  resolveSegments [] (splitPath p)

/-- Whether the names `a` lead to the place of the names `b` or to a directory above it. -/
def leadsTo : List String → List String → Bool
  | [], _ => true
  | _ :: _, [] => false
  | x :: a, y :: b => decide (x = y) && leadsTo a b

/-- Whether the path `q` names the place of `p` or a place beneath the directory `p`. -/
def isUnder (p q : String) : Bool :=
  leadsTo (resolvePath p) (resolvePath q)

/-- Mirrors `fse.removeSync(p)`: what `p` names and everything beneath it is gone.  The
file system resolves `p`, so `p` need not be written as the stored paths are. -/
def removeSync (p : String) (files : List String) : List String :=
  files.filter (fun q => !isUnder p q)

/-- The path `p` and the directories above it, outermost first. -/
def ancestors (p : String) : List String :=
  (((splitPath p).inits.map joinPath).filter (fun q => q ≠ ""))

/-- Mirrors `fse.mkdirsSync(p)`: `p` and the missing directories above it are created. -/
def mkdirsSync (p : String) (files : List String) : List String :=
  files ++ ((ancestors p).filter (fun q => q ∉ files))

/-- The directory `upload_root_dir/<vendor_id>`. -/
def vendorDir (vendor_id : String) : String :=
  config.upload_root_dir ++ "/" ++ vendor_id

/-- The directory `upload_root_dir/<vendor_id>/<kind>`. -/
def kindDir (vendor_id kind : String) : String :=
  config.upload_root_dir ++ "/" ++ vendor_id ++ "/" ++ kind

/-- The directory `upload_root_dir/<vendor_id>/<kind>/<item_id>`. -/
def itemDir (vendor_id kind item_id : String) : String :=
  kindDir vendor_id kind ++ "/" ++ item_id

/-! ## The vendor document and its `pre('save')` hook (vendor.js 39-64) -/

/-- The paths of a vendor document that mongoose tracks as modified. -/
inductive VendorPath where
  | account
  | accountUsername
  | accountPassword
  | accountRole
  | contact
  | announcements
  | products
  | requests
deriving DecidableEq

/-- A vendor document in memory: the record, `isNew`, and the paths set since it was
loaded. -/
structure VendorDoc where
  doc : Vendor
  isNew : Bool := false
  modified : List VendorPath := []

/-- Mirrors `vendor.isModified('account.password')`: the path itself or the enclosing
`account` object was set. -/
def VendorDoc.isModifiedPassword (d : VendorDoc) : Bool :=
  decide (VendorPath.accountPassword ∈ d.modified) || decide (VendorPath.account ∈ d.modified)

/-- The `pre('save')` middleware: `none` when it calls `next(err)`. -/
def preSave (o : Oracle) (d : VendorDoc) : Option VendorDoc :=
  if (!d.isModifiedPassword) && !d.isNew then
    some d
  else if o.genSaltErr then none
  else if o.hashErr then none
  else
    some { d with
      doc := { d.doc with
        account := { d.doc.account with password := o.bcryptHash d.doc.account.password } } }

/-- Mirrors `vendor.save(cb)`: the hook runs, then a new document is inserted (a duplicate
`_id` is an error) and a loaded document is written back.  `none` is `err`. -/
def saveVendor (o : Oracle) (d : VendorDoc) (st : State) : Option (Vendor × State) :=
  match preSave o d with
  | none => none
  | some d1 =>
    if o.vendorSaveErr then none
    else if d1.isNew then
      if st.vendors.any (fun w => w._id = d1.doc._id) then none
      else some (d1.doc, { st with vendors := st.vendors ++ [d1.doc] })
    else
      some (d1.doc,
        { st with vendors := st.vendors.map (fun w => if w._id = d1.doc._id then d1.doc else w) })

/-! ## Child documents -/

/-- Inserts a new product: `product.save(cb)` on a document made with `new Product()`. -/
def insertProduct (o : Oracle) (p : Product) (st : State) : Option State :=
  if o.childSaveErr then none
  else if st.products.any (fun q => q._id = p._id) then none
  else some { st with products := st.products ++ [p] }

/-- Writes back a loaded product: `product.save(cb)`. -/
def updateStoredProduct (o : Oracle) (p : Product) (st : State) : Option State :=
  if o.childSaveErr then none
  else some { st with products := st.products.map (fun q => if q._id = p._id then p else q) }

/-- Inserts a new announcement. -/
def insertAnnouncement (o : Oracle) (a : Announcement) (st : State) : Option State :=
  if o.childSaveErr then none
  else if st.announcements.any (fun q => q._id = a._id) then none
  else some { st with announcements := st.announcements ++ [a] }

/-- Writes back a loaded announcement. -/
def updateStoredAnnouncement (o : Oracle) (a : Announcement) (st : State) : Option State :=
  if o.childSaveErr then none
  else some { st with
    announcements := st.announcements.map (fun q => if q._id = a._id then a else q) }

/-- Inserts a new request. -/
def insertRequest (o : Oracle) (r : Request) (st : State) : Option State :=
  if o.childSaveErr then none
  else if st.requests.any (fun q => q._id = r._id) then none
  else some { st with requests := st.requests ++ [r] }

/-- Writes back a loaded request. -/
def updateStoredRequest (o : Oracle) (r : Request) (st : State) : Option State :=
  if o.childSaveErr then none
  else some { st with requests := st.requests.map (fun q => if q._id = r._id then r else q) }

/-! ## The multer upload (router.js 34-132) -/

/-- The file part of a multipart request. -/
structure UploadFile where
  originalname : String
  mimetype : String
deriving DecidableEq

/-- Mirrors `s.indexOf(sub) >= 0`, and `/sub/.test(s)` for a literal pattern. -/
def hasSubstr (s sub : String) : Bool :=
  s.data.tails.any (fun t => sub.data.isPrefixOf t)

/-- Mirrors `path.extname(name)`: from the last `.` of the last portion of the path to its
end; empty when that portion has no `.`, starts with its only `.`, or is `..`. -/
def extname (name : String) : String :=
  let base := (((splitOnSlash name.data).filter (fun seg => seg ≠ [])).getLast?).getD []
  let ext := (base.reverse.takeWhile (fun c => c ≠ '.')).reverse
  if ext.length = base.length then ""
  else if base.length - ext.length - 1 = 0 then ""
  else if base = ['.', '.'] then ""
  else String.mk ('.' :: ext)

/-- Mirrors `/jpeg|jpg/.test(s)`. -/
def filetypesTest (s : String) : Bool :=
  hasSubstr s "jpeg" || hasSubstr s "jpg"

/-- The `fileFilter` of `multer_upload` (router.js 89-105): `true` accepts the file,
`false` is the error `invalid file format`. -/
def fileFilter (file : UploadFile) : Bool :=
  filetypesTest file.mimetype && filetypesTest (toLowerCase (extname file.originalname))

/-- The `destination` of the disk storage (router.js 37-63); `none` when it throws. -/
def storageDestination (routePath : String) (req : Req) : Option String :=
  if hasSubstr routePath "products" then
    some (itemDir (req.paramD "vendor_id") "products" (req.paramD "product_id"))
  else if hasSubstr routePath "announcements" then
    some (itemDir (req.paramD "vendor_id") "announcements" (req.paramD "announcement_id"))
  else none

/-- The `filename` of the disk storage (router.js 66-82). -/
def storageFilename (routePath : String) (file : UploadFile) : String :=
  if hasSubstr routePath "products" && hasSubstr routePath "gallery" then
    "gallery-image-" ++ file.originalname
  else file.originalname

/-- The upload `multer_upload.single(field)` of a request that carries the file part:
the filter, then the write of the file at `destination/filename`.  The result is
`req.file.path` and the new Asset Store, or `none` for an error. -/
def doUpload (o : Oracle) (routePath : String) (file : UploadFile) (req : Req)
    (st : State) : Option (String × State) :=
  if !fileFilter file then none
  else if o.uploadErr then none
  else
    match storageDestination routePath req with
    | none => none
    | some dest =>
      let path := dest ++ "/" ++ storageFilename routePath file
      some (path, { st with files := if path ∈ st.files then st.files else st.files ++ [path] })

/-! ## Vendor routes -/

/-- The handler of `POST /vendor` (router.js 342-411); `body` is `req.body`. -/
def createVendor (o : Oracle) (body : Account) (_req : Req) (st : State) : Response × State :=
  if o.validationErrors then (⟨400, .validationErrors⟩, st)
  else if o.vendorFindErr then (⟨200, .storeError⟩, st)
  else if (st.vendors.filter (fun w => w.account.username = body.username)).length > 0 then
    (⟨400, .message "username already exists"⟩, st)
  else
    let vendor : VendorDoc :=
      { doc := { _id := o.newId, account := body }, isNew := true, modified := [.account] }
    match saveVendor o vendor st with
    | none => (⟨500, .storeError⟩, st)
    | some (saved, st1) =>
      let root := vendorDir saved._id
      if o.mkdirsSyncThrows (root ++ "/" ++ "products") then (⟨500, .storeError⟩, st1)
      else
        let st2 := { st1 with files := mkdirsSync (root ++ "/" ++ "products") st1.files }
        if o.mkdirsSyncThrows (root ++ "/" ++ "announcements") then (⟨500, .storeError⟩, st2)
        else
          (⟨200, .ident saved._id⟩,
            { st2 with files := mkdirsSync (root ++ "/" ++ "announcements") st2.files })

/-- The handler of `DELETE /vendor/:vendor_id` (router.js 496-541). -/
def deleteVendor (o : Oracle) (req : Req) (st : State) : Response × State :=
  if o.validationErrors then (⟨400, .validationErrors⟩, st)
  else if o.vendorRemoveErr then (⟨500, .storeError⟩, st)
  else
    match st.findVendor (req.paramD "vendor_id") with
    | none => (⟨404, .message "vendor not found"⟩, st)
    | some vendor =>
      let st1 := { st with vendors := st.vendors.filter (fun w => w._id ≠ vendor._id) }
      if o.removeSyncThrows (vendorDir vendor._id) then (⟨500, .storeError⟩, st1)
      else
        (⟨200, .message "vendor deleted"⟩,
          { st1 with files := removeSync (vendorDir vendor._id) st1.files })

/-- The setters `lowercase: true` of `contact.email` and `contact.site` (vendor.js 27-28). -/
def Contact.lowercased (c : Contact) : Contact :=
  { c with
    email := c.email.map (fun e => e.map Char.toLower)
    site := c.site.map (fun e => e.map Char.toLower) }

/-- The handler of `PUT /vendor/:vendor_id/contact` (router.js 687-740); `body` is
`req.body`. -/
def updateContact (o : Oracle) (body : Contact) (req : Req) (st : State) : Response × State :=
  if o.validationErrors then (⟨400, .validationErrors⟩, st)
  else if o.vendorFindErr then (⟨500, .storeError⟩, st)
  else
    match st.findVendor (req.paramD "vendor_id") with
    | none => (⟨404, .message "vendor not found"⟩, st)
    | some vendor =>
      let doc : VendorDoc :=
        { doc := { vendor with contact := body.lowercased }, isNew := false,
          modified := [.contact] }
      match saveVendor o doc st with
      | none => (⟨500, .storeError⟩, st)
      | some (_, st1) => (⟨200, .message "contact updated"⟩, st1)

/-! ## Product routes -/

/-- The keys of `req.body` that the product schema knows; `none` is an absent key. -/
structure ProductBody where
  _id : Option String := none
  vendor_id : Option String := none
  category : Option String := none
  name : Option String := none
  description : Option String := none
  price : Option String := none
  image : Option String := none
  gallery : Option (List String) := none
  featured : Option Bool := none
  enabled : Option Bool := none
  sale : Option String := none
  keywords : Option (List String) := none
deriving DecidableEq

/-- The loop `for (var param in req.body) product[param] = req.body[param]`. -/
def Product.assign (p : Product) (b : ProductBody) : Product :=
  { _id := b._id.getD p._id
    vendor_id := b.vendor_id.getD p.vendor_id
    category := if b.category.isSome then b.category else p.category
    name := if b.name.isSome then b.name else p.name
    description := if b.description.isSome then b.description else p.description
    price := b.price.getD p.price
    image := if b.image.isSome then b.image else p.image
    gallery := b.gallery.getD p.gallery
    featured := b.featured.getD p.featured
    enabled := b.enabled.getD p.enabled
    sale := if b.sale.isSome then b.sale else p.sale
    keywords := b.keywords.getD p.keywords }

/-- Mirrors `_.omit(req.body, ['_id', 'vendor_id', 'image', 'gallery'])`. -/
def ProductBody.omitted (b : ProductBody) : ProductBody :=
  { b with _id := none, vendor_id := none, image := none, gallery := none }

/-- The handler of `POST /vendor/:vendor_id/products` (router.js 818-914). -/
def createProduct (o : Oracle) (body : ProductBody) (req : Req) (st : State) :
    Response × State :=
  if o.validationErrors then (⟨400, .validationErrors⟩, st)
  else if o.vendorFindErr then (⟨500, .storeError⟩, st)
  else
    match st.findVendor (req.paramD "vendor_id") with
    | none => (⟨404, .message "vendor not found"⟩, st)
    | some vendor =>
      let product : Product :=
        { Product.assign { _id := o.newId, vendor_id := "" } body with
          vendor_id := req.paramD "vendor_id" }
      match insertProduct o product st with
      | none => (⟨500, .storeError⟩, st)
      | some st1 =>
        let doc : VendorDoc :=
          { doc := { vendor with products := vendor.products ++ [product._id] },
            isNew := false, modified := [.products] }
        match saveVendor o doc st1 with
        | none => (⟨500, .storeError⟩, st1)
        | some (_, st2) =>
          let dir := itemDir (req.paramD "vendor_id") "products" product._id
          if o.mkdirsSyncThrows dir then (⟨500, .storeError⟩, st2)
          else (⟨200, .ident product._id⟩, { st2 with files := mkdirsSync dir st2.files })

/-- The handler of `DELETE /vendor/:vendor_id/products` (router.js 919-994). -/
def deleteAllProducts (o : Oracle) (req : Req) (st : State) : Response × State :=
  if o.validationErrors then (⟨400, .validationErrors⟩, st)
  else if o.vendorFindErr then (⟨500, .storeError⟩, st)
  else
    match st.findVendor (req.paramD "vendor_id") with
    | none => (⟨404, .message "vendor not found"⟩, st)
    | some vendor =>
      if o.childRemoveErr then (⟨500, .storeError⟩, st)
      else
        let st1 := { st with products := st.products.filter (fun q => q.vendor_id ≠ vendor._id) }
        let doc : VendorDoc :=
          { doc := { vendor with products := [] }, isNew := false, modified := [.products] }
        match saveVendor o doc st1 with
        | none => (⟨500, .storeError⟩, st1)
        | some (_, st2) =>
          let dir := kindDir (req.paramD "vendor_id") "products"
          if o.removeSyncThrows dir then (⟨500, .storeError⟩, st2)
          else
            let st3 := { st2 with files := removeSync dir st2.files }
            if o.mkdirsSyncThrows dir then (⟨500, .storeError⟩, st3)
            else (⟨200, .message "products empty"⟩, { st3 with files := mkdirsSync dir st3.files })

/-- The handler of `PUT /vendor/:vendor_id/products/:product_id` (router.js 1058-1136). -/
def updateProduct (o : Oracle) (body : ProductBody) (req : Req) (st : State) :
    Response × State :=
  if o.validationErrors then (⟨400, .validationErrors⟩, st)
  else
    let body1 := body.omitted
    if o.vendorFindErr then (⟨500, .storeError⟩, st)
    else
      match st.findVendor (req.paramD "vendor_id") with
      | none => (⟨404, .message "vendor not found"⟩, st)
      | some _ =>
        if o.childFindErr then (⟨500, .storeError⟩, st)
        else
          match st.findProduct (req.paramD "product_id") with
          | none => (⟨404, .message "product not found"⟩, st)
          | some product =>
            match updateStoredProduct o (product.assign body1) st with
            | none => (⟨500, .storeError⟩, st)
            | some st1 => (⟨200, .message "product updated"⟩, st1)

/-- The handler of `DELETE /vendor/:vendor_id/products/:product_id`
(router.js 1141-1220). -/
def deleteProduct (o : Oracle) (req : Req) (st : State) : Response × State :=
  if o.validationErrors then (⟨400, .validationErrors⟩, st)
  else if o.vendorFindErr then (⟨500, .storeError⟩, st)
  else
    match st.findVendor (req.paramD "vendor_id") with
    | none => (⟨404, .message "vendor not found"⟩, st)
    | some vendor =>
      if o.childRemoveErr then (⟨500, .storeError⟩, st)
      else
        let st1 :=
          { st with
            products := st.products.filter
              (fun q => ¬ (q._id = castId (req.paramD "product_id") ∧ q.vendor_id = vendor._id)) }
        let doc : VendorDoc :=
          { doc := { vendor with
              products := vendor.products.filter (fun p_id => ¬ p_id = req.paramD "product_id") },
            isNew := false, modified := [.products] }
        match saveVendor o doc st1 with
        | none => (⟨500, .storeError⟩, st1)
        | some (_, st2) =>
          let dir := itemDir (req.paramD "vendor_id") "products" (req.paramD "product_id")
          if o.removeSyncThrows dir then (⟨500, .storeError⟩, st2)
          else (⟨200, .message "product deleted"⟩, { st2 with files := removeSync dir st2.files })

/-- The route pattern of the gallery routes. -/
def galleryRoutePath : String := "/vendor/:vendor_id/products/:product_id/gallery"

/-- The handler of `POST /vendor/:vendor_id/products/:product_id/gallery`
(router.js 1411-1498); `file` is the file part of the request. -/
def appendGallery (o : Oracle) (file : UploadFile) (req : Req) (st : State) :
    Response × State :=
  if o.validationErrors then (⟨400, .validationErrors⟩, st)
  else if o.vendorFindErr then (⟨500, .storeError⟩, st)
  else
    match st.findVendor (req.paramD "vendor_id") with
    | none => (⟨404, .message "vendor not found"⟩, st)
    | some _ =>
      if o.childFindErr then (⟨500, .storeError⟩, st)
      else
        match st.findProduct (req.paramD "product_id") with
        | none => (⟨404, .message "product not found"⟩, st)
        | some product =>
          if product.gallery.length ≥ config.max_product_image_gallery_size then
            (⟨403, .message "no room left for gallery images"⟩, st)
          else
            match doUpload o galleryRoutePath file req st with
            | none => (⟨500, .storeError⟩, st)
            | some (path, st1) =>
              let product1 :=
                { product with
                  gallery := product.gallery ++ [getRelativePath path config.file_server_root] }
              match updateStoredProduct o product1 st1 with
              | none => (⟨500, .storeError⟩, st1)
              | some st2 => (⟨200, .message "product gallery image saved"⟩, st2)

/-! ## Announcement routes -/

/-- The keys of `req.body` that the announcement schema knows. -/
structure AnnouncementBody where
  _id : Option String := none
  vendor_id : Option String := none
  announcement_text : Option String := none
  image : Option String := none
  featured : Option Bool := none
deriving DecidableEq

/-- The loop `for (var param in req.body) announcement[param] = req.body[param]`. -/
def Announcement.assign (a : Announcement) (b : AnnouncementBody) : Announcement :=
  { _id := b._id.getD a._id
    vendor_id := b.vendor_id.getD a.vendor_id
    announcement_text := b.announcement_text.getD a.announcement_text
    image := if b.image.isSome then b.image else a.image
    featured := b.featured.getD a.featured }

/-- Mirrors `_.omit(req.body, ['_id', 'vendor_id', 'product', 'image'])`. -/
def AnnouncementBody.omitted (b : AnnouncementBody) : AnnouncementBody :=
  { b with _id := none, vendor_id := none, image := none }

/-- The handler of `POST /vendor/:vendor_id/announcements` (router.js 1656-1744). -/
def createAnnouncement (o : Oracle) (body : AnnouncementBody) (req : Req) (st : State) :
    Response × State :=
  if o.validationErrors then (⟨400, .validationErrors⟩, st)
  else if o.vendorFindErr then (⟨500, .storeError⟩, st)
  else
    match st.findVendor (req.paramD "vendor_id") with
    | none => (⟨404, .message "vendor not found"⟩, st)
    | some vendor =>
      let announcement : Announcement :=
        { Announcement.assign { _id := o.newId, vendor_id := "" } body with
          vendor_id := req.paramD "vendor_id" }
      match insertAnnouncement o announcement st with
      | none => (⟨500, .storeError⟩, st)
      | some st1 =>
        let doc : VendorDoc :=
          { doc := { vendor with announcements := vendor.announcements ++ [announcement._id] },
            isNew := false, modified := [.announcements] }
        match saveVendor o doc st1 with
        | none => (⟨500, .storeError⟩, st1)
        | some (_, st2) =>
          let dir := itemDir (req.paramD "vendor_id") "announcements" announcement._id
          if o.mkdirsSyncThrows dir then (⟨500, .storeError⟩, st2)
          else (⟨200, .ident announcement._id⟩, { st2 with files := mkdirsSync dir st2.files })

/-- The handler of `DELETE /vendor/:vendor_id/announcements` (router.js 1749-1824). -/
def deleteAllAnnouncements (o : Oracle) (req : Req) (st : State) : Response × State :=
  if o.validationErrors then (⟨400, .validationErrors⟩, st)
  else if o.vendorFindErr then (⟨500, .storeError⟩, st)
  else
    match st.findVendor (req.paramD "vendor_id") with
    | none => (⟨404, .message "vendor not found"⟩, st)
    | some vendor =>
      if o.childRemoveErr then (⟨500, .storeError⟩, st)
      else
        let st1 :=
          { st with announcements := st.announcements.filter (fun q => q.vendor_id ≠ vendor._id) }
        let doc : VendorDoc :=
          { doc := { vendor with announcements := [] }, isNew := false,
            modified := [.announcements] }
        match saveVendor o doc st1 with
        | none => (⟨500, .storeError⟩, st1)
        | some (_, st2) =>
          let dir := kindDir (req.paramD "vendor_id") "announcements"
          if o.removeSyncThrows dir then (⟨500, .storeError⟩, st2)
          else
            let st3 := { st2 with files := removeSync dir st2.files }
            if o.mkdirsSyncThrows dir then (⟨500, .storeError⟩, st3)
            else
              (⟨200, .message "announcements empty"⟩,
                { st3 with files := mkdirsSync dir st3.files })

/-- The handler of `PUT /vendor/:vendor_id/announcements/:announcement_id`
(router.js 1889-1962). -/
def updateAnnouncement (o : Oracle) (body : AnnouncementBody) (req : Req) (st : State) :
    Response × State :=
  if o.validationErrors then (⟨400, .validationErrors⟩, st)
  else
    let body1 := body.omitted
    if o.vendorFindErr then (⟨500, .storeError⟩, st)
    else
      match st.findVendor (req.paramD "vendor_id") with
      | none => (⟨404, .message "vendor not found"⟩, st)
      | some _ =>
        if o.childFindErr then (⟨500, .storeError⟩, st)
        else
          match st.findAnnouncement (req.paramD "announcement_id") with
          | none => (⟨404, .message "announcement not found"⟩, st)
          | some announcement =>
            match updateStoredAnnouncement o (announcement.assign body1) st with
            | none => (⟨500, .storeError⟩, st)
            | some st1 => (⟨200, .message "announcement updated"⟩, st1)

/-- The handler of `DELETE /vendor/:vendor_id/announcements/:announcement_id`
(router.js 1967-2046). -/
def deleteAnnouncement (o : Oracle) (req : Req) (st : State) : Response × State :=
  if o.validationErrors then (⟨400, .validationErrors⟩, st)
  else if o.vendorFindErr then (⟨500, .storeError⟩, st)
  else
    match st.findVendor (req.paramD "vendor_id") with
    | none => (⟨404, .message "vendor not found"⟩, st)
    | some vendor =>
      if o.childRemoveErr then (⟨500, .storeError⟩, st)
      else
        let st1 :=
          { st with
            announcements := st.announcements.filter
              (fun q => ¬ (q._id = castId (req.paramD "announcement_id") ∧ q.vendor_id = vendor._id)) }
        let doc : VendorDoc :=
          { doc := { vendor with
              announcements :=
                vendor.announcements.filter (fun a_id => ¬ a_id = req.paramD "announcement_id") },
            isNew := false, modified := [.announcements] }
        match saveVendor o doc st1 with
        | none => (⟨500, .storeError⟩, st1)
        | some (_, st2) =>
          let dir :=
            itemDir (req.paramD "vendor_id") "announcements" (req.paramD "announcement_id")
          if o.removeSyncThrows dir then (⟨500, .storeError⟩, st2)
          else
            (⟨200, .message "announcement deleted"⟩,
              { st2 with files := removeSync dir st2.files })

/-! ## Request routes -/

/-- The keys of `req.body` that the request schema knows. -/
structure RequestBody where
  _id : Option String := none
  vendor_id : Option String := none
  product : Option String := none
  name : Option String := none
  email : Option String := none
  phone : Option String := none
  notes : Option String := none
  status : Option String := none
deriving DecidableEq

/-- The loop `for (var param in req.body) request[param] = req.body[param]`. -/
def Request.assign (r : Request) (b : RequestBody) : Request :=
  { _id := b._id.getD r._id
    vendor_id := b.vendor_id.getD r.vendor_id
    product := b.product.getD r.product
    name := if b.name.isSome then b.name else r.name
    email := if b.email.isSome then b.email else r.email
    phone := if b.phone.isSome then b.phone else r.phone
    notes := if b.notes.isSome then b.notes else r.notes
    status := b.status.getD r.status }

/-- Mirrors `_.omit(req.body, ['_id', 'vendor_id', 'product'])`. -/
def RequestBody.omitted (b : RequestBody) : RequestBody :=
  { b with _id := none, vendor_id := none, product := none }

/-- The value of `!x` when `x` is an array: an array is truthy, also when it is empty. -/
def notArray {α : Type} (_x : List α) : Bool := false

/-- The handler of `POST /vendor/:vendor_id/requests` (router.js 2307-2394). -/
def createRequest (o : Oracle) (body : RequestBody) (req : Req) (st : State) :
    Response × State :=
  if o.validationErrors then (⟨400, .validationErrors⟩, st)
  else if o.vendorFindErr then (⟨500, .storeError⟩, st)
  else
    match st.findVendor (req.paramD "vendor_id") with
    | none => (⟨404, .message "vendor not found"⟩, st)
    | some vendor =>
      if o.childFindErr then (⟨500, .storeError⟩, st)
      else
        let vendor_product :=
          st.products.filter
            (fun q => q.vendor_id = castId (req.paramD "vendor_id") ∧
              some q._id = body.product.map castId)
        if notArray vendor_product then (⟨404, .message "product not found"⟩, st)
        else
          let request : Request :=
            { Request.assign { _id := o.newId, vendor_id := "", product := "" } body with
              vendor_id := req.paramD "vendor_id" }
          match insertRequest o request st with
          | none => (⟨500, .storeError⟩, st)
          | some st1 =>
            let doc : VendorDoc :=
              { doc := { vendor with requests := vendor.requests ++ [request._id] },
                isNew := false, modified := [.requests] }
            match saveVendor o doc st1 with
            | none => (⟨500, .storeError⟩, st1)
            | some (_, st2) => (⟨200, .ident request._id⟩, st2)

/-- The handler of `DELETE /vendor/:vendor_id/requests` (router.js 2399-2455). -/
def deleteAllRequests (o : Oracle) (req : Req) (st : State) : Response × State :=
  if o.validationErrors then (⟨400, .validationErrors⟩, st)
  else if o.vendorFindErr then (⟨500, .storeError⟩, st)
  else
    match st.findVendor (req.paramD "vendor_id") with
    | none => (⟨404, .message "vendor not found"⟩, st)
    | some vendor =>
      if o.childRemoveErr then (⟨500, .storeError⟩, st)
      else
        let st1 := { st with requests := st.requests.filter (fun q => q.vendor_id ≠ vendor._id) }
        let doc : VendorDoc :=
          { doc := { vendor with requests := [] }, isNew := false, modified := [.requests] }
        match saveVendor o doc st1 with
        | none => (⟨500, .storeError⟩, st1)
        | some (_, st2) => (⟨200, .message "requests empty"⟩, st2)

/-- The handler of `PUT /vendor/:vendor_id/requests/:request_id` (router.js 2522-2595). -/
def updateRequest (o : Oracle) (body : RequestBody) (req : Req) (st : State) :
    Response × State :=
  if o.validationErrors then (⟨400, .validationErrors⟩, st)
  else
    let body1 := body.omitted
    if o.vendorFindErr then (⟨500, .storeError⟩, st)
    else
      match st.findVendor (req.paramD "vendor_id") with
      | none => (⟨404, .message "vendor not found"⟩, st)
      | some _ =>
        if o.childFindErr then (⟨500, .storeError⟩, st)
        else
          match st.findRequest (req.paramD "request_id") with
          | none => (⟨404, .message "request not found"⟩, st)
          | some request =>
            match updateStoredRequest o (request.assign body1) st with
            | none => (⟨500, .storeError⟩, st)
            | some st1 => (⟨200, .message "request updated"⟩, st1)

/-- The handler of `DELETE /vendor/:vendor_id/requests/:request_id`
(router.js 2600-2661). -/
def deleteRequest (o : Oracle) (req : Req) (st : State) : Response × State :=
  if o.validationErrors then (⟨400, .validationErrors⟩, st)
  else if o.vendorFindErr then (⟨500, .storeError⟩, st)
  else
    match st.findVendor (req.paramD "vendor_id") with
    | none => (⟨404, .message "vendor not found"⟩, st)
    | some vendor =>
      if o.childRemoveErr then (⟨500, .storeError⟩, st)
      else
        let st1 :=
          { st with
            requests := st.requests.filter
              (fun q => ¬ (q._id = castId (req.paramD "request_id") ∧ q.vendor_id = vendor._id)) }
        let doc : VendorDoc :=
          { doc := { vendor with
              requests := vendor.requests.filter (fun r_id => ¬ r_id = req.paramD "request_id") },
            isNew := false, modified := [.requests] }
        match saveVendor o doc st1 with
        | none => (⟨500, .storeError⟩, st1)
        | some (_, st2) => (⟨200, .message "request deleted"⟩, st2)

/-! ## The routes as a transition system -/

/-- A request to one of the state-changing routes, with its body. -/
inductive Action where
  | createVendor (body : Account)
  | deleteVendor
  | updateContact (body : Contact)
  | createProduct (body : ProductBody)
  | deleteAllProducts
  | updateProduct (body : ProductBody)
  | deleteProduct
  | appendGallery (file : UploadFile)
  | createAnnouncement (body : AnnouncementBody)
  | deleteAllAnnouncements
  | updateAnnouncement (body : AnnouncementBody)
  | deleteAnnouncement
  | createRequest (body : RequestBody)
  | deleteAllRequests
  | updateRequest (body : RequestBody)
  | deleteRequest

/-- The role list the route is registered with. -/
def Action.roles : Action → List String
  | .createVendor _ => ["admin"]
  | .deleteVendor => ["admin"]
  | .createRequest _ => ["admin", "user", "guest"]
  | _ => ["admin", "user"]

/-- The handler the route is registered with. -/
def Action.handler (o : Oracle) : Action → Req → State → Response × State
  | .createVendor body => Ecommerce.createVendor o body
  | .deleteVendor => Ecommerce.deleteVendor o
  | .updateContact body => Ecommerce.updateContact o body
  | .createProduct body => Ecommerce.createProduct o body
  | .deleteAllProducts => Ecommerce.deleteAllProducts o
  | .updateProduct body => Ecommerce.updateProduct o body
  | .deleteProduct => Ecommerce.deleteProduct o
  | .appendGallery file => Ecommerce.appendGallery o file
  | .createAnnouncement body => Ecommerce.createAnnouncement o body
  | .deleteAllAnnouncements => Ecommerce.deleteAllAnnouncements o
  | .updateAnnouncement body => Ecommerce.updateAnnouncement o body
  | .deleteAnnouncement => Ecommerce.deleteAnnouncement o
  | .createRequest body => Ecommerce.createRequest o body
  | .deleteAllRequests => Ecommerce.deleteAllRequests o
  | .updateRequest body => Ecommerce.updateRequest o body
  | .deleteRequest => Ecommerce.deleteRequest o

/-- One request served by the router: the gate, then the handler. -/
def serve (o : Oracle) (a : Action) (req : Req) (st : State) : Response × State :=
  guarded a.roles (a.handler o) req st

/-- The states reachable from empty stores by requests that are answered with status 200,
whatever the oracle, the caller and the body of each request are. -/
inductive Reachable : State → Prop where
  | empty : Reachable {}
  | step (o : Oracle) (a : Action) (req : Req) (st : State) :
      Reachable st → (serve o a req st).1.status = 200 → Reachable (serve o a req st).2

/-- The path of the request spells its vendor id and its product id as the store prints
them. -/
def SameSpelling (req : Req) : Prop :=
  castId (req.paramD "vendor_id") = req.paramD "vendor_id" ∧
    castId (req.paramD "product_id") = req.paramD "product_id"

/-- The states reachable from empty stores by requests that are answered 200 and whose
paths spell the ids as the store prints them. -/
inductive ReachableSameSpelling : State → Prop where
  | empty : ReachableSameSpelling {}
  | step (o : Oracle) (a : Action) (req : Req) (st : State) :
      SameSpelling req → ReachableSameSpelling st → (serve o a req st).1.status = 200 →
      ReachableSameSpelling (serve o a req st).2

/-- Every id in the `products` list of the vendor is the `_id` of a stored product whose
`vendor_id` is the `_id` of the vendor. -/
def OwnsListed (products : List Product) (v : Vendor) : Prop :=
  ∀ x ∈ v.products, ∃ p ∈ products, p._id = x ∧ p.vendor_id = v._id

/-- The parent-child invariant of the `products` lists. -/
def ProductsListed (st : State) : Prop :=
  ∀ v ∈ st.vendors, OwnsListed st.products v

/-- The `_id` index of the `Product` collection: no two stored products share an `_id`. -/
def UniqueProductIds (st : State) : Prop :=
  (st.products.map (fun p => p._id)).Nodup

instance (products : List Product) (v : Vendor) : Decidable (OwnsListed products v) :=
  inferInstanceAs (Decidable (∀ x ∈ v.products, ∃ p ∈ products, p._id = x ∧ p.vendor_id = v._id))

instance (st : State) : Decidable (ProductsListed st) :=
  inferInstanceAs (Decidable (∀ v ∈ st.vendors, OwnsListed st.products v))

instance (st : State) : Decidable (UniqueProductIds st) :=
  inferInstanceAs (Decidable ((st.products.map (fun (p : Product) => p._id)).Nodup))

/-- The invariant carried through every request: the `_id` index of the products and the
parent-child property of the `products` lists. -/
def Inv (st : State) : Prop := UniqueProductIds st ∧ ProductsListed st

/-- A request leaves the products alone: the Product collection is the same and every
vendor has an empty `products` list or the `_id` and `products` list of an earlier
vendor. -/
def ProdFrame (st st1 : State) : Prop :=
  st1.products = st.products ∧
    ∀ w ∈ st1.vendors, w.products = [] ∨ ∃ w0 ∈ st.vendors, w0._id = w._id ∧ w0.products = w.products

/-- A handler keeps the invariant when it answers 200. -/
def Keeps (st : State) (r : Response × State) : Prop :=
  Inv st → r.1.status = 200 → Inv r.2

/-! ## `POST /authenticate` and the token middleware (router.js 233-332) -/

/-- The body of `POST /authenticate`. -/
structure Credentials where
  username : String
  password : String
deriving DecidableEq

/-- The answer of `POST /authenticate` to a wrong username and to a wrong password. -/
def wrongCredentials : Response :=
  { status := 403, body := .message "wrong username or password" }

/-- The handler of `POST /authenticate` (router.js 233-292); the route is registered before
the token middleware and without `requireRole`. -/
def authenticate (o : Oracle) (body : Credentials) (st : State) : Response × State :=
  if o.validationErrors then (⟨400, .validationErrors⟩, st)
  else if o.vendorFindErr then (⟨500, .storeError⟩, st)
  else
    match st.vendors.find? (fun v => v.account.username = body.username) with
    | none => (wrongCredentials, st)
    | some vendor =>
      match o.bcryptCompare body.password vendor.account.password with
      | none => (⟨500, .storeError⟩, st)
      | some isMatch =>
        if !isMatch then (wrongCredentials, st)
        else (⟨200, .session vendor._id (o.jwtSign vendor._id vendor.account.role)⟩, st)

/-- The three places a request can carry a token: `req.body.token`, `req.query.token` and
`req.headers['x-access-token']`; `none` is `undefined`. -/
structure TokenSources where
  body : Option String := none
  query : Option String := none
  header : Option String := none
deriving DecidableEq

/-- Whether a string-or-undefined value is truthy: it is defined and not the empty string. -/
def truthy : Option String → Bool
  | some s => decide (s ≠ "")
  | none => false

/-- The value of `a || b`. -/
def jsOr (a b : Option String) : Option String :=
  if truthy a then a else b

/-- The value of `req.body.token || req.query.token || req.headers['x-access-token']`. -/
def pickToken (t : TokenSources) : Option String :=
  jsOr (jsOr t.body t.query) t.header

/-- What the token middleware does: answer itself, or set `req.decoded` and call `next`. -/
inductive TokenGate where
  | respond (r : Response)
  | next (decoded : Decoded)
deriving DecidableEq

/-- The middleware that verifies tokens (router.js 297-332). -/
def verifyToken (o : Oracle) (t : TokenSources) : TokenGate :=
  if truthy (pickToken t) then
    match o.jwtVerify ((pickToken t).getD "") with
    | none => .respond ⟨403, .message "bad token"⟩
    | some decoded => .next decoded
  else
    .next { id := none, role := "guest" }

/-! ## Image and gallery routes -/

/-- The route pattern of the product wallpaper image routes. -/
def productImageRoutePath : String := "/vendor/:vendor_id/products/:product_id/image"

/-- The route pattern of the announcement image routes. -/
def announcementImageRoutePath : String :=
  "/vendor/:vendor_id/announcements/:announcement_id/image"

/-- The path `config.file_server_root + '/' + ref` that the purge code removes. -/
def assetPath (ref : String) : String :=
  config.file_server_root ++ "/" ++ ref

/-- The handler of `POST /vendor/:vendor_id/products/:product_id/image`
(router.js 1230-1321); `file` is the file part of the request. -/
def setProductImage (o : Oracle) (file : UploadFile) (req : Req) (st : State) :
    Response × State :=
  if o.validationErrors then (⟨400, .validationErrors⟩, st)
  else if o.vendorFindErr then (⟨500, .storeError⟩, st)
  else
    match st.findVendor (req.paramD "vendor_id") with
    | none => (⟨404, .message "vendor not found"⟩, st)
    | some _ =>
      if o.childFindErr then (⟨500, .storeError⟩, st)
      else
        match st.findProduct (req.paramD "product_id") with
        | none => (⟨404, .message "product not found"⟩, st)
        | some product =>
          if truthy product.image ∧ o.removeSyncThrows (assetPath (product.image.getD "")) then
            (⟨500, .storeError⟩, st)
          else
            let st0 :=
              if truthy product.image then
                { st with files := removeSync (assetPath (product.image.getD "")) st.files }
              else st
            match doUpload o productImageRoutePath file req st0 with
            | none => (⟨500, .storeError⟩, st0)
            | some (path, st1) =>
              let product1 :=
                { product with image := some (getRelativePath path config.file_server_root) }
              match updateStoredProduct o product1 st1 with
              | none => (⟨500, .storeError⟩, st1)
              | some st2 => (⟨200, .message "product image saved"⟩, st2)

/-- The handler of `DELETE /vendor/:vendor_id/products/:product_id/image`
(router.js 1326-1401). -/
def deleteProductImage (o : Oracle) (req : Req) (st : State) : Response × State :=
  if o.validationErrors then (⟨400, .validationErrors⟩, st)
  else if o.vendorFindErr then (⟨500, .storeError⟩, st)
  else
    match st.findVendor (req.paramD "vendor_id") with
    | none => (⟨404, .message "vendor not found"⟩, st)
    | some _ =>
      if o.childFindErr then (⟨500, .storeError⟩, st)
      else
        match st.findProduct (req.paramD "product_id") with
        | none => (⟨404, .message "product not found"⟩, st)
        | some product =>
          if truthy product.image ∧ o.removeSyncThrows (assetPath (product.image.getD "")) then
            (⟨500, .storeError⟩, st)
          else
            let st0 :=
              if truthy product.image then
                { st with files := removeSync (assetPath (product.image.getD "")) st.files }
              else st
            match updateStoredProduct o { product with image := none } st0 with
            | none => (⟨500, .storeError⟩, st0)
            | some st1 => (⟨200, .message "product image deleted"⟩, st1)

/-- The loop of `DELETE .../gallery` over `product.gallery` (router.js 1547-1557): the
files are purged in list order and the first `removeSync` that throws ends the loop.  The
result says whether the loop ran to its end, and holds the Asset Store it leaves. -/
def purgeGallery (o : Oracle) : List String → List String → Bool × List String
  | [], files => (true, files)
  | g :: rest, files =>
    if o.removeSyncThrows (assetPath g) then (false, files)
    else purgeGallery o rest (removeSync (assetPath g) files)

/-- The handler of `DELETE /vendor/:vendor_id/products/:product_id/gallery`
(router.js 1503-1578). -/
def clearGallery (o : Oracle) (req : Req) (st : State) : Response × State :=
  if o.validationErrors then (⟨400, .validationErrors⟩, st)
  else if o.vendorFindErr then (⟨500, .storeError⟩, st)
  else
    match st.findVendor (req.paramD "vendor_id") with
    | none => (⟨404, .message "vendor not found"⟩, st)
    | some _ =>
      if o.childFindErr then (⟨500, .storeError⟩, st)
      else
        match st.findProduct (req.paramD "product_id") with
        | none => (⟨404, .message "product not found"⟩, st)
        | some product =>
          let st0 := { st with files := (purgeGallery o product.gallery st.files).2 }
          if !(purgeGallery o product.gallery st.files).1 then (⟨500, .storeError⟩, st0)
          else
            match updateStoredProduct o { product with gallery := [] } st0 with
            | none => (⟨500, .storeError⟩, st0)
            | some st1 => (⟨200, .message "product image gallery deleted"⟩, st1)

/-- The handler of `POST /vendor/:vendor_id/announcements/:announcement_id/image`
(router.js 2057-2148); `file` is the file part of the request. -/
def setAnnouncementImage (o : Oracle) (file : UploadFile) (req : Req) (st : State) :
    Response × State :=
  if o.validationErrors then (⟨400, .validationErrors⟩, st)
  else if o.vendorFindErr then (⟨500, .storeError⟩, st)
  else
    match st.findVendor (req.paramD "vendor_id") with
    | none => (⟨404, .message "vendor not found"⟩, st)
    | some _ =>
      if o.childFindErr then (⟨500, .storeError⟩, st)
      else
        match st.findAnnouncement (req.paramD "announcement_id") with
        | none => (⟨404, .message "announcement not found"⟩, st)
        | some announcement =>
          if truthy announcement.image ∧
              o.removeSyncThrows (assetPath (announcement.image.getD "")) then
            (⟨500, .storeError⟩, st)
          else
            let st0 :=
              if truthy announcement.image then
                { st with files := removeSync (assetPath (announcement.image.getD "")) st.files }
              else st
            match doUpload o announcementImageRoutePath file req st0 with
            | none => (⟨500, .storeError⟩, st0)
            | some (path, st1) =>
              let announcement1 :=
                { announcement with
                  image := some (getRelativePath path config.file_server_root) }
              match updateStoredAnnouncement o announcement1 st1 with
              | none => (⟨500, .storeError⟩, st1)
              | some st2 => (⟨200, .message "announcement image saved"⟩, st2)

/-- The handler of `DELETE /vendor/:vendor_id/announcements/:announcement_id/image`
(router.js 2153-2228). -/
def deleteAnnouncementImage (o : Oracle) (req : Req) (st : State) : Response × State :=
  if o.validationErrors then (⟨400, .validationErrors⟩, st)
  else if o.vendorFindErr then (⟨500, .storeError⟩, st)
  else
    match st.findVendor (req.paramD "vendor_id") with
    | none => (⟨404, .message "vendor not found"⟩, st)
    | some _ =>
      if o.childFindErr then (⟨500, .storeError⟩, st)
      else
        match st.findAnnouncement (req.paramD "announcement_id") with
        | none => (⟨404, .message "announcement not found"⟩, st)
        | some announcement =>
          if truthy announcement.image ∧
              o.removeSyncThrows (assetPath (announcement.image.getD "")) then
            (⟨500, .storeError⟩, st)
          else
            let st0 :=
              if truthy announcement.image then
                { st with files := removeSync (assetPath (announcement.image.getD "")) st.files }
              else st
            match updateStoredAnnouncement o { announcement with image := none } st0 with
            | none => (⟨500, .storeError⟩, st0)
            | some st1 => (⟨200, .message "announcement image deleted"⟩, st1)

/-! ## `PUT /vendor/:vendor_id/account` -/

/-- The keys of `req.body` that the update account route can see; `role = none` is a body
without `role` key. -/
structure AccountUpdate where
  username : Option String := none
  password : String
  role : Option String := none
deriving DecidableEq

/-- The `enum: ['admin', 'user']` validator of `account.role` (vendor.js 14), which runs
when a document is saved. -/
def roleEnumOk (a : Account) : Bool :=
  match a.role with
  | none => true
  | some r => decide (r ∈ ["admin", "user"])

/-- The handler of `PUT /vendor/:vendor_id/account` (router.js 590-640).  A path is marked
modified when the value assigned differs from the one the document holds. -/
def updateAccount (o : Oracle) (body : AccountUpdate) (req : Req) (st : State) :
    Response × State :=
  if o.validationErrors then (⟨400, .validationErrors⟩, st)
  else if o.vendorFindErr then (⟨500, .storeError⟩, st)
  else
    match st.findVendor (req.paramD "vendor_id") with
    | none => (⟨404, .message "vendor not found"⟩, st)
    | some vendor =>
      let account1 : Account := { vendor.account with password := body.password }
      let account2 : Account :=
        if req.decoded.role = "admin" ∧ body.role.isSome then
          { account1 with role := body.role }
        else account1
      let doc : VendorDoc :=
        { doc := { vendor with account := account2 }, isNew := false,
          modified :=
            (if body.password = vendor.account.password then [] else [.accountPassword]) ++
            (if account2.role = vendor.account.role then [] else [.accountRole]) }
      if !roleEnumOk account2 then (⟨500, .storeError⟩, st)
      else
        match saveVendor o doc st with
        | none => (⟨500, .storeError⟩, st)
        | some (_, st1) => (⟨200, .message "account updated"⟩, st1)

/-! ## Routes that only read -/

/-- The handler of `GET /` (router.js 220-228); the time stamp is not modelled. -/
def getIndex (st : State) : Response × State :=
  (⟨200, .version config.version⟩, st)

/-- The handler of `GET /vendor` (router.js 416-450); the filter, sort and page that
query-params-mongo reads from the query string are taken as empty. -/
def getVendors (o : Oracle) (_req : Req) (st : State) : Response × State :=
  if o.queryErr then (⟨500, .storeError⟩, st)
  else if o.vendorFindErr then (⟨500, .storeError⟩, st)
  else (⟨200, .vendors st.vendors⟩, st)

/-- The handler of `GET /vendor/:vendor_id/contact` (router.js 650-682). -/
def getContact (o : Oracle) (req : Req) (st : State) : Response × State :=
  if o.validationErrors then (⟨400, .validationErrors⟩, st)
  else if o.vendorFindErr then (⟨500, .storeError⟩, st)
  else
    match st.findVendor (req.paramD "vendor_id") with
    | none => (⟨404, .message "vendor not found"⟩, st)
    | some vendor => (⟨200, .contact vendor.contact⟩, st)

/-- The handler of `GET /vendor/:vendor_id/products` (router.js 750-813). -/
def getProducts (o : Oracle) (req : Req) (st : State) : Response × State :=
  if o.validationErrors then (⟨400, .validationErrors⟩, st)
  else if o.queryErr then (⟨400, .storeError⟩, st)
  else if o.vendorFindErr then (⟨500, .storeError⟩, st)
  else
    match st.findVendor (req.paramD "vendor_id") with
    | none => (⟨404, .message "vendor not found"⟩, st)
    | some vendor =>
      if o.childFindErr then (⟨500, .storeError⟩, st)
      else (⟨200, .products (st.products.filter (fun q => q.vendor_id = vendor._id))⟩, st)

/-- The handler of `GET /vendor/:vendor_id/products/:product_id` (router.js 1004-1053). -/
def getProduct (o : Oracle) (req : Req) (st : State) : Response × State :=
  if o.validationErrors then (⟨400, .validationErrors⟩, st)
  else if o.vendorFindErr then (⟨500, .storeError⟩, st)
  else
    match st.findVendor (req.paramD "vendor_id") with
    | none => (⟨404, .message "vendor not found"⟩, st)
    | some _ =>
      if o.childFindErr then (⟨500, .storeError⟩, st)
      else
        match st.findProduct (req.paramD "product_id") with
        | none => (⟨404, .message "product not found"⟩, st)
        | some product => (⟨200, .product product⟩, st)

/-- The handler of `GET /vendor/:vendor_id/announcements` (router.js 1588-1651). -/
def getAnnouncements (o : Oracle) (req : Req) (st : State) : Response × State :=
  if o.validationErrors then (⟨400, .validationErrors⟩, st)
  else if o.queryErr then (⟨400, .storeError⟩, st)
  else if o.vendorFindErr then (⟨500, .storeError⟩, st)
  else
    match st.findVendor (req.paramD "vendor_id") with
    | none => (⟨404, .message "vendor not found"⟩, st)
    | some vendor =>
      if o.childFindErr then (⟨500, .storeError⟩, st)
      else
        (⟨200, .announcements (st.announcements.filter (fun q => q.vendor_id = vendor._id))⟩,
          st)

/-- The handler of `GET /vendor/:vendor_id/announcements/:announcement_id`
(router.js 1834-1884). -/
def getAnnouncement (o : Oracle) (req : Req) (st : State) : Response × State :=
  if o.validationErrors then (⟨400, .validationErrors⟩, st)
  else if o.vendorFindErr then (⟨500, .storeError⟩, st)
  else
    match st.findVendor (req.paramD "vendor_id") with
    | none => (⟨404, .message "vendor not found"⟩, st)
    | some _ =>
      if o.childFindErr then (⟨500, .storeError⟩, st)
      else
        match st.findAnnouncement (req.paramD "announcement_id") with
        | none => (⟨404, .message "announcement not found"⟩, st)
        | some announcement => (⟨200, .announcement announcement⟩, st)

/-- The handler of `GET /vendor/:vendor_id/requests` (router.js 2238-2302). -/
def getRequests (o : Oracle) (req : Req) (st : State) : Response × State :=
  if o.validationErrors then (⟨400, .validationErrors⟩, st)
  else if o.queryErr then (⟨400, .storeError⟩, st)
  else if o.vendorFindErr then (⟨500, .storeError⟩, st)
  else
    match st.findVendor (req.paramD "vendor_id") with
    | none => (⟨404, .message "vendor not found"⟩, st)
    | some vendor =>
      if o.childFindErr then (⟨500, .storeError⟩, st)
      else (⟨200, .requests (st.requests.filter (fun q => q.vendor_id = vendor._id))⟩, st)

/-- The handler of `GET /vendor/:vendor_id/requests/:request_id` (router.js 2465-2517);
the populated product fields are not modelled. -/
def getRequest (o : Oracle) (req : Req) (st : State) : Response × State :=
  if o.validationErrors then (⟨400, .validationErrors⟩, st)
  else if o.vendorFindErr then (⟨500, .storeError⟩, st)
  else
    match st.findVendor (req.paramD "vendor_id") with
    | none => (⟨404, .message "vendor not found"⟩, st)
    | some _ =>
      if o.childFindErr then (⟨500, .storeError⟩, st)
      else
        match st.findRequest (req.paramD "request_id") with
        | none => (⟨404, .message "request not found"⟩, st)
        | some request => (⟨200, .request request⟩, st)

/-- The handler of `POST /vendor/:vendor_id/mailbox` (router.js 2670-2740); the mail
itself is not modelled. -/
def mailbox (o : Oracle) (req : Req) (st : State) : Response × State :=
  if o.validationErrors then (⟨400, .validationErrors⟩, st)
  else if o.vendorFindErr then (⟨500, .storeError⟩, st)
  else
    match st.findVendor (req.paramD "vendor_id") with
    | none => (⟨404, .message "vendor not found"⟩, st)
    | some _ =>
      if o.mailErr then (⟨500, .storeError⟩, st)
      else (⟨200, .message "mail delivered to mailbox"⟩, st)

/-! ## Every route of the router -/

/-- A request to one of the routes registered in router.js, with its body. -/
inductive Route where
  | index
  | authenticate (body : Credentials)
  | getVendors
  | getVendor
  | getAccount
  | updateAccount (body : AccountUpdate)
  | getContact
  | getProducts
  | getProduct
  | setProductImage (file : UploadFile)
  | deleteProductImage
  | clearGallery
  | getAnnouncements
  | getAnnouncement
  | setAnnouncementImage (file : UploadFile)
  | deleteAnnouncementImage
  | getRequests
  | getRequest
  | mailbox
  | change (a : Action)

/-- The role list the route is registered with; `none` for the two routes registered
without `requireRole`. -/
def Route.roles : Route → Option (List String)
  | .index => none
  | .authenticate _ => none
  | .getVendors => some ["admin"]
  | .getContact => some ["admin", "user", "guest"]
  | .getProducts => some ["admin", "user", "guest"]
  | .getProduct => some ["admin", "user", "guest"]
  | .getAnnouncements => some ["admin", "user", "guest"]
  | .getAnnouncement => some ["admin", "user", "guest"]
  | .mailbox => some ["admin", "user", "guest"]
  | .change a => some a.roles
  | _ => some ["admin", "user"]

/-- The handler the route is registered with. -/
def Route.handler (o : Oracle) : Route → Req → State → Response × State
  | .index => fun _ st => getIndex st
  | .authenticate body => fun _ st => Ecommerce.authenticate o body st
  | .getVendors => Ecommerce.getVendors o
  | .getVendor => Ecommerce.getVendor o
  | .getAccount => Ecommerce.getAccount o
  | .updateAccount body => Ecommerce.updateAccount o body
  | .getContact => Ecommerce.getContact o
  | .getProducts => Ecommerce.getProducts o
  | .getProduct => Ecommerce.getProduct o
  | .setProductImage file => Ecommerce.setProductImage o file
  | .deleteProductImage => Ecommerce.deleteProductImage o
  | .clearGallery => Ecommerce.clearGallery o
  | .getAnnouncements => Ecommerce.getAnnouncements o
  | .getAnnouncement => Ecommerce.getAnnouncement o
  | .setAnnouncementImage file => Ecommerce.setAnnouncementImage o file
  | .deleteAnnouncementImage => Ecommerce.deleteAnnouncementImage o
  | .getRequests => Ecommerce.getRequests o
  | .getRequest => Ecommerce.getRequest o
  | .mailbox => Ecommerce.mailbox o
  | .change a => a.handler o

/-- One request served by the router: the gate when the route has one, then the handler. -/
def Route.serve (o : Oracle) (r : Route) (req : Req) (st : State) : Response × State :=
  match r.roles with
  | none => r.handler o req st
  | some roles => guarded roles (r.handler o) req st

/-- The answer is not in a rejecting status category (400, 403, 404), or the stores are the
ones the request found. -/
def Rejects (st : State) (r : Response × State) : Prop :=
  (r.1.status = 400 ∨ r.1.status = 403 ∨ r.1.status = 404) → r.2 = st

/-- The AssetRef that a gallery upload with original name `name` on the path `(V, P)`
yields. -/
def galleryRef (V P name : String) : String :=
  getRelativePath (itemDir V "products" P ++ "/" ++ ("gallery-image-" ++ name))
    config.file_server_root

/-! ## Paths as character lists -/

/-- The characters of `/seg` for every segment, in order. -/
def tailChars : List (List Char) → List Char
  | [] => []
  | seg :: rest => '/' :: seg ++ tailChars rest

/-- The characters of the segments joined with `/`. -/
def joinChars : List (List Char) → List Char
  | [] => []
  | seg :: rest => seg ++ tailChars rest

/-- The path `b` is the path `a` or lies beneath the directory `a`. -/
def Extends (a b : List Char) : Prop :=
  ∃ t, b = a ++ t ∧ (t = [] ∨ ∃ r, t = '/' :: r)

/-- The string has no `/`, as every value of a path parameter and every object id. -/
def noSlash (s : String) : Prop := '/' ∉ s.data

instance (s : String) : Decidable (noSlash s) :=
  inferInstanceAs (Decidable ('/' ∉ s.data))

/-- The product that `POST /vendor/:vendor_id/products` builds from the request. -/
def createdProduct (o : Oracle) (body : ProductBody) (req : Req) : Product :=
  { Product.assign { _id := o.newId, vendor_id := "" } body with
    vendor_id := req.paramD "vendor_id" }

/-- The record that `POST /vendor` persists: the account of the body with the password
replaced by its hash. -/
def createdVendor (o : Oracle) (body : Account) : Vendor :=
  { _id := o.newId, account := { body with password := o.bcryptHash body.password } }

/-! ## Sample data used by the closed statements -/

def sampleVendor : Vendor :=
  { _id := "v1", account := { username := "shop1", password := "$2$hash1", role := some "user" } }

def sampleState : State := { vendors := [sampleVendor] }

/-- A request of the owner of `v1` on a path of `v1`. -/
def ownerReq : Req :=
  { decoded := { id := some "v1", role := "user" }, params := [("vendor_id", "v1")] }

/-- A request without token on a path of `v1`. -/
def guestReq : Req :=
  { decoded := { id := none, role := "guest" }, params := [("vendor_id", "v1")] }

/-- Two vendors with one product each, and their upload directories. -/
def shopState : State :=
  { vendors :=
      [ { _id := "v1", account := { username := "shop1", password := "$2$hash1", role := some "user" },
          products := ["p1"] },
        { _id := "v2", account := { username := "shop2", password := "$2$hash2", role := some "user" },
          products := ["p2"] } ]
    products :=
      [ { _id := "p1", vendor_id := "v1", gallery := ["a", "b", "c", "d", "e"] },
        { _id := "p2", vendor_id := "v2" } ]
    files :=
      [ "/usr/local/uploads/v1/products", "/usr/local/uploads/v1/products/p1",
        "/usr/local/uploads/v1/products/p1/x.jpg",
        "/usr/local/uploads/v2/products", "/usr/local/uploads/v2/products/p2" ] }

/-- The first vendor of `shopState`. -/
def shopVendor1 : Vendor :=
  { _id := "v1", account := { username := "shop1", password := "$2$hash1", role := some "user" },
    products := ["p1"] }

/-- The owner of `v1` addressing product `pid` under its own path. -/
def productReq (pid : String) : Req :=
  { decoded := { id := some "v1", role := "user" },
    params := [("vendor_id", "v1"), ("product_id", pid)] }

/-- The admin request that creates the vendor `v1`. -/
def adminReq : Req :=
  { decoded := { id := some "a0", role := "admin" }, params := [] }

/-- Empty stores, then vendor `v1` created by the admin, then product `p1` created by the
owner of `v1`. -/
def afterTwoRequests : State :=
  (serve { newId := "p1" } (.createProduct { name := some "Hammer" }) ownerReq
    (serve { newId := "v1" }
      (.createVendor { username := "shop1", password := "secretpw", role := some "user" })
      adminReq {}).2).2

/-- The stores of `afterTwoRequests` after the owner of `v1` sent delete product on the
path `/vendor/v1/products/P1`. -/
def afterUpperDelete : State :=
  (serve {} .deleteProduct (productReq "P1") afterTwoRequests).2

/-- The admin addressing vendor `v1` on a path that spells the id `V1`. -/
def adminReqUpperV1 : Req :=
  { decoded := { id := some "a0", role := "admin" }, params := [("vendor_id", "V1")] }

/-- A body of `POST /vendor/:vendor_id/requests` that asks for product `pid`. -/
def requestBodyFor (pid : String) : RequestBody :=
  { product := some pid, name := some "Ann", email := some "ann@example.org",
    phone := some "123", notes := some "call me" }

/-- A body of `POST /vendor/:vendor_id/products` that carries six gallery entries. -/
def sixGalleryBody : ProductBody :=
  { category := some "tools", name := some "Hammer", description := some "steel",
    price := some "9.99", gallery := some ["g1", "g2", "g3", "g4", "g5", "g6"] }

/-- Empty stores, then vendor `v1` created by the admin, then the owner of `v1` creates a
product with the body `sixGalleryBody`. -/
def sixGalleryState : State :=
  (serve { newId := "p1" } (.createProduct sixGalleryBody) ownerReq
    (serve { newId := "v1" }
      (.createVendor { username := "shop1", password := "secretpw", role := some "user" })
      adminReq {}).2).2

/-- The admin addressing vendor `v1`. -/
def adminReqV1 : Req :=
  { decoded := { id := some "a0", role := "admin" }, params := [("vendor_id", "v1")] }

/-- A product of vendor `v1` with an image and three gallery entries, and the files. -/
def galleryState : State :=
  { vendors := [shopVendor1]
    products :=
      [ { _id := "p1", vendor_id := "v1", image := some "uploads/v1/products/p1/w.jpg",
          gallery := ["uploads/g0.jpg", "uploads/g1.jpg", "uploads/g2.jpg"] } ]
    announcements :=
      [ { _id := "a1", vendor_id := "v1", announcement_text := "sale",
          image := some "uploads/v1/announcements/a1/n.jpg" } ]
    files :=
      [ "/usr/local/uploads/g0.jpg", "/usr/local/uploads/g1.jpg", "/usr/local/uploads/g2.jpg",
        "/usr/local/uploads/v1/products/p1/w.jpg",
        "/usr/local/uploads/v1/announcements/a1/n.jpg" ] }

/-- The product of `galleryState`. -/
def galleryProduct : Product :=
  { _id := "p1", vendor_id := "v1", image := some "uploads/v1/products/p1/w.jpg",
    gallery := ["uploads/g0.jpg", "uploads/g1.jpg", "uploads/g2.jpg"] }

/-- The announcement of `galleryState`. -/
def galleryAnnouncement : Announcement :=
  { _id := "a1", vendor_id := "v1", announcement_text := "sale",
    image := some "uploads/v1/announcements/a1/n.jpg" }

/-- The owner of `v1` addressing announcement `a1` and product `p1`. -/
def itemReq : Req :=
  { decoded := { id := some "v1", role := "user" },
    params := [("vendor_id", "v1"), ("product_id", "p1"), ("announcement_id", "a1")] }

/-- A file system that refuses to remove paths that contain `g1`. -/
def refusesG1 : Oracle :=
  { removeSyncThrows := fun p => hasSubstr p "g1" }

/-- A file system that refuses every removal. -/
def refusesAll : Oracle :=
  { removeSyncThrows := fun _ => true }

/-- A store whose vendor queries report an error. -/
def countFails : Oracle :=
  { vendorFindErr := true }

/-- A body of `PUT /vendor/:vendor_id/products/:product_id` with the four fields the route
requires, that renames the product. -/
def renameBody : ProductBody :=
  { category := some "tools", name := some "renamed", description := some "steel",
    price := some "9.99" }

/-- The product `p2` of vendor `v2` with the fields of `renameBody`. -/
def renamedP2 : Product :=
  { _id := "p2", vendor_id := "v2", category := some "tools", name := some "renamed",
    description := some "steel", price := "9.99" }

/-- The file part `a.jpg`. -/
def fileA : UploadFile :=
  ⟨"a.jpg", "image/jpeg"⟩

/-- The stores of `afterTwoRequests` after the owner of `v1` uploaded `a.jpg` to the
gallery of `p1`. -/
def onceUploaded : State :=
  (serve {} (.appendGallery fileA) (productReq "p1") afterTwoRequests).2

/-- The stores of `onceUploaded` after the owner uploaded `a.jpg` to the same gallery a
second time. -/
def twiceUploaded : State :=
  (serve {} (.appendGallery fileA) (productReq "p1") onceUploaded).2

/-- The file part `b.jpg`. -/
def fileB : UploadFile :=
  ⟨"b.jpg", "image/jpeg"⟩

/-- The stores of `onceUploaded` after the owner uploaded `b.jpg` and then `a.jpg` again to
the gallery of `p1`. -/
def abaUploaded : State :=
  (serve {} (.appendGallery fileA) (productReq "p1")
    (serve {} (.appendGallery fileB) (productReq "p1") onceUploaded).2).2

/-- A file system that refuses to remove the stored file of `b.jpg`. -/
def refusesB : Oracle :=
  { removeSyncThrows := fun p => hasSubstr p "gallery-image-b" }

/-! # Theorems -/

/-! ## Theorems: the access gate -/

/-- C1: for a decoded role `user`, when the route has no `vendor_id` parameter or the
parameter differs from the token id, `requireRole` answers 403 `forbidden`; the guarded
route then returns that answer with the stores untouched whatever the handler is, i.e. the
handler is never run. -/
theorem C1_user_ownership_gate {σ : Type} (roles : List String) (req : Req)
    (handler : Req → σ → Response × σ) (st : σ)
    (hrole : req.decoded.role = "user")
    (hid : req.param "vendor_id" = none ∨ req.param "vendor_id" ≠ req.decoded.id) :
    requireRole roles req = .respond forbidden ∧
      guarded roles handler req st = (forbidden, st) := by
  have hgate : requireRole roles req = .respond forbidden := by
    unfold requireRole
    by_cases hmem : req.decoded.role ∈ roles
    · rw [if_pos hmem, if_pos hrole]
      have hno : ¬ (req.hasParam "vendor_id" = true ∧
          req.param "vendor_id" = req.decoded.id) := by
        rintro ⟨hhas, heq⟩
        rcases hid with hnone | hne
        · rw [Req.hasParam] at hhas
          rw [Req.param] at hnone
          rw [hnone] at hhas
          exact absurd hhas (by decide)
        · exact hne heq
      rw [if_neg hno]
    · rw [if_neg hmem]
  exact ⟨hgate, by simp [guarded, hgate]⟩

/-- Witness of C1: a `user` token with id `v2` on a path of vendor `v1`, with a handler
that would wipe the state. -/
theorem C1_user_ownership_gate_witness :
    requireRole ["admin", "user"]
        { decoded := { id := some "v2", role := "user" }, params := [("vendor_id", "v1")] }
      = .respond forbidden ∧
    guarded ["admin", "user"] (fun _ (_ : Nat) => (⟨200, .message "done"⟩, 0))
        { decoded := { id := some "v2", role := "user" }, params := [("vendor_id", "v1")] } 7
      = (forbidden, 7) :=
  C1_user_ownership_gate ["admin", "user"]
    { decoded := { id := some "v2", role := "user" }, params := [("vendor_id", "v1")] }
    (fun _ (_ : Nat) => (⟨200, .message "done"⟩, 0)) 7 rfl (Or.inr (by decide))

/-- C2: when the decoded role is not in the route's role list, `requireRole(roles)`
answers 403 `forbidden` and the handler is not run, for every role string. -/
theorem C2_role_not_listed {σ : Type} (roles : List String) (req : Req)
    (handler : Req → σ → Response × σ) (st : σ)
    (hmem : req.decoded.role ∉ roles) :
    requireRole roles req = .respond forbidden ∧
      guarded roles handler req st = (forbidden, st) := by
  have hgate : requireRole roles req = .respond forbidden := by
    unfold requireRole
    rw [if_neg hmem]
  exact ⟨hgate, by simp [guarded, hgate]⟩

/-- Witness of C2: a role outside admin, user and guest. -/
theorem C2_role_not_listed_witness :
    requireRole ["admin", "user"]
        { decoded := { id := some "v1", role := "root" }, params := [("vendor_id", "v1")] }
      = .respond forbidden ∧
    guarded ["admin", "user"] (fun _ (_ : Nat) => (⟨200, .message "done"⟩, 0))
        { decoded := { id := some "v1", role := "root" }, params := [("vendor_id", "v1")] } 7
      = (forbidden, 7) :=
  C2_role_not_listed ["admin", "user"]
    { decoded := { id := some "v1", role := "root" }, params := [("vendor_id", "v1")] }
    (fun _ (_ : Nat) => (⟨200, .message "done"⟩, 0)) 7 (by decide)

/-- C3: a decoded role `admin` or `guest` that is in the route's role list passes the
gate whatever the path parameters and the token id are; the guarded route is the handler. -/
theorem C3_admin_guest_bypass {σ : Type} (roles : List String) (req : Req)
    (handler : Req → σ → Response × σ) (st : σ)
    (hrole : req.decoded.role = "admin" ∨ req.decoded.role = "guest")
    (hmem : req.decoded.role ∈ roles) :
    requireRole roles req = .next ∧ guarded roles handler req st = handler req st := by
  have hnot : req.decoded.role ≠ "user" := by
    rcases hrole with h | h <;> rw [h] <;> decide
  have hgate : requireRole roles req = .next := by
    unfold requireRole
    rw [if_pos hmem, if_neg hnot]
  exact ⟨hgate, by simp [guarded, hgate]⟩

/-- Witness of C3: a guest without token id on a route without `vendor_id`. -/
theorem C3_admin_guest_bypass_witness :
    requireRole ["admin", "user", "guest"]
        { decoded := { id := none, role := "guest" }, params := [] } = .next ∧
    guarded ["admin", "user", "guest"] (fun _ (n : Nat) => (⟨200, .message "done"⟩, n + 1))
        { decoded := { id := none, role := "guest" }, params := [] } 7
      = (fun (_ : Req) (n : Nat) => ((⟨200, .message "done"⟩ : Response), n + 1))
          { decoded := { id := none, role := "guest" }, params := [] } 7 :=
  C3_admin_guest_bypass ["admin", "user", "guest"]
    { decoded := { id := none, role := "guest" }, params := [] }
    (fun _ (n : Nat) => (⟨200, .message "done"⟩, n + 1)) 7 (Or.inr rfl) (by decide)

/-! ## Theorems: redaction -/

/-- C4: `applyPermission` with role `user` yields an account with exactly the keys
`username` and `password`, holding the stored values, and without `role`; and the handlers
of get vendor and get account answer with the record passed through `applyPermission` with
the role of the caller. -/
theorem C4_redaction_user (o : Oracle) (req : Req) (st : State) (v : Vendor)
    (hval : o.validationErrors = false) (herr : o.vendorFindErr = false)
    (hfind : st.findVendor (req.paramD "vendor_id") = some v) :
    ((applyPermission v "user").account.keys = ["username", "password"] ∧
      (applyPermission v "user").account.username = v.account.username ∧
      (applyPermission v "user").account.password = v.account.password ∧
      (applyPermission v "user").account.role = none) ∧
    getVendor o req st = (⟨200, .vendor (applyPermission v req.decoded.role)⟩, st) ∧
    getAccount o req st =
      (⟨200, .account (applyPermission v req.decoded.role).account⟩, st) := by
  refine ⟨⟨?_, ?_, ?_, ?_⟩, ?_, ?_⟩
  · simp [applyPermission, Account.keys]
  · simp [applyPermission]
  · simp [applyPermission]
  · simp [applyPermission]
  · simp [getVendor, hval, herr, hfind]
  · simp [getAccount, hval, herr, hfind]

/-- Witness of C4: the stored account of `v1` has a role, the owner reads it. -/
theorem C4_redaction_user_witness :
    ((applyPermission sampleVendor "user").account.keys = ["username", "password"] ∧
      (applyPermission sampleVendor "user").account.username = sampleVendor.account.username ∧
      (applyPermission sampleVendor "user").account.password = sampleVendor.account.password ∧
      (applyPermission sampleVendor "user").account.role = none) ∧
    getVendor {} ownerReq sampleState =
      (⟨200, .vendor (applyPermission sampleVendor ownerReq.decoded.role)⟩, sampleState) ∧
    getAccount {} ownerReq sampleState =
      (⟨200, .account (applyPermission sampleVendor ownerReq.decoded.role).account⟩,
        sampleState) :=
  C4_redaction_user {} ownerReq sampleState sampleVendor rfl rfl (by decide)

/-- C5, as stated, fails: the owner of `v1` has role `user`, not `admin`, and the bodies of
get vendor and get account both carry the stored password hash. -/
theorem C5_counterexample_user_reads_hash :
    ownerReq.decoded.role ≠ "admin" ∧
    sampleState.findVendor "v1" = some sampleVendor ∧
    (getVendorRoute {} ownerReq sampleState).1.body.passwordField
      = some sampleVendor.account.password ∧
    (getAccountRoute {} ownerReq sampleState).1.body.passwordField
      = some sampleVendor.account.password := by
  decide

/-- C5 amended: a caller that is neither `admin` nor a `user` whose token id is the path
vendor id gets the 403 `forbidden` body, which has no password field, from get vendor and
get account; a `user` whose token id is the path vendor id gets the stored password hash. -/
theorem C5_hash_exposure (o : Oracle) (req : Req) (st : State) :
    (req.decoded.role ≠ "admin" →
      (req.decoded.role ≠ "user" ∨ req.param "vendor_id" = none ∨
        req.param "vendor_id" ≠ req.decoded.id) →
      getVendorRoute o req st = (forbidden, st) ∧
      getAccountRoute o req st = (forbidden, st) ∧
      (getVendorRoute o req st).1.body.passwordField = none ∧
      (getAccountRoute o req st).1.body.passwordField = none) ∧
    (∀ (V : String) (v : Vendor), req.decoded.role = "user" →
      req.param "vendor_id" = some V → req.decoded.id = some V →
      o.validationErrors = false → o.vendorFindErr = false →
      st.findVendor V = some v →
      (getVendorRoute o req st).1.body.passwordField = some v.account.password ∧
      (getAccountRoute o req st).1.body.passwordField = some v.account.password) := by
  constructor
  · intro hadm hcase
    have hgate : requireRole ["admin", "user"] req = .respond forbidden := by
      by_cases hu : req.decoded.role = "user"
      · have hid : req.param "vendor_id" = none ∨ req.param "vendor_id" ≠ req.decoded.id := by
          rcases hcase with h | h | h
          · exact absurd hu h
          · exact Or.inl h
          · exact Or.inr h
        unfold requireRole
        have hmem : req.decoded.role ∈ ["admin", "user"] := by simp [hu]
        have hno : ¬ (req.hasParam "vendor_id" = true ∧
            req.param "vendor_id" = req.decoded.id) := by
          rintro ⟨hhas, heq⟩
          rcases hid with hnone | hne
          · rw [Req.hasParam] at hhas
            rw [Req.param] at hnone
            rw [hnone] at hhas
            exact absurd hhas (by decide)
          · exact hne heq
        rw [if_pos hmem, if_pos hu, if_neg hno]
      · unfold requireRole
        have hmem : req.decoded.role ∉ ["admin", "user"] := by simp [hadm, hu]
        rw [if_neg hmem]
    have h1 : getVendorRoute o req st = (forbidden, st) := by
      simp [getVendorRoute, guarded, hgate]
    have h2 : getAccountRoute o req st = (forbidden, st) := by
      simp [getAccountRoute, guarded, hgate]
    refine ⟨h1, h2, ?_, ?_⟩
    · rw [h1]; rfl
    · rw [h2]; rfl
  · intro V v hu hpar hid hval herr hfind
    have hparam : req.paramD "vendor_id" = V := by
      unfold Req.param at hpar
      simp [Req.paramD, hpar]
    have hgate : requireRole ["admin", "user"] req = .next := by
      unfold requireRole
      have hmem : req.decoded.role ∈ ["admin", "user"] := by simp [hu]
      have hyes : req.hasParam "vendor_id" = true ∧
          req.param "vendor_id" = req.decoded.id := by
        refine ⟨?_, by rw [hpar, hid]⟩
        unfold Req.param at hpar
        simp [Req.hasParam, hpar]
      rw [if_pos hmem, if_pos hu, if_pos hyes]
    constructor
    · simp [getVendorRoute, guarded, hgate, getVendor, hval, herr, hparam, hfind,
        Body.passwordField, applyPermission, hu]
    · simp [getAccountRoute, guarded, hgate, getAccount, hval, herr, hparam, hfind,
        Body.passwordField, applyPermission, hu]

/-- Witness of C5 amended: a guest is refused, the owner of `v1` reads the hash. -/
theorem C5_hash_exposure_witness :
    (getVendorRoute {} guestReq sampleState).1.body.passwordField = none ∧
    (getVendorRoute {} ownerReq sampleState).1.body.passwordField
      = some sampleVendor.account.password :=
  ⟨((C5_hash_exposure {} guestReq sampleState).1 (by decide)
        (Or.inl (by decide))).2.2.1,
   ((C5_hash_exposure {} ownerReq sampleState).2 "v1" sampleVendor rfl rfl rfl rfl rfl
        (by decide)).1⟩

/-! ## Lemmas on the stores -/

theorem findVendor_some {st : State} {V : String} {v : Vendor}
    (h : st.findVendor V = some v) : v ∈ st.vendors ∧ v._id = castId V := by
  unfold State.findVendor at h
  exact ⟨List.mem_of_find?_eq_some h, by simpa using List.find?_some h⟩

theorem findProduct_some {st : State} {P : String} {p : Product}
    (h : st.findProduct P = some p) : p ∈ st.products ∧ p._id = castId P := by
  unfold State.findProduct at h
  exact ⟨List.mem_of_find?_eq_some h, by simpa using List.find?_some h⟩

/-- The hook leaves a loaded document alone when the password was not set. -/
theorem preSave_loaded (o : Oracle) (d : VendorDoc) (hnew : d.isNew = false)
    (hmod : d.isModifiedPassword = false) : preSave o d = some d := by
  simp [preSave, hnew, hmod]

/-- Saving a loaded document whose password was not set writes the document back as it
is. -/
theorem saveVendor_loaded (o : Oracle) (d : VendorDoc) (st : State) (hnew : d.isNew = false)
    (hmod : d.isModifiedPassword = false) (herr : o.vendorSaveErr = false) :
    saveVendor o d st =
      some (d.doc,
        { st with vendors := st.vendors.map (fun w => if w._id = d.doc._id then d.doc else w) }) := by
  simp [saveVendor, preSave_loaded o d hnew hmod, herr, hnew]

/-- Looking up an id after a record was written back. -/
theorem find_map_replace (l : List Vendor) (v : Vendor) (id : String) :
    (l.map (fun w => if w._id = v._id then v else w)).find? (fun w => w._id = id) =
      if id = v._id then (l.find? (fun w => w._id = id)).map (fun _ => v)
      else l.find? (fun w => w._id = id) := by
  induction l with
  | nil => simp
  | cons a l ih =>
    by_cases hid : id = v._id
    · subst hid
      simp only [if_true] at ih
      by_cases ha : a._id = v._id
      · simp [List.find?, ha]
      · simp [List.find?, ha, ih]
    · simp only [if_neg hid] at ih
      by_cases ha : a._id = v._id
      · have : ¬ v._id = id := fun h => hid h.symm
        simp [List.find?, ha, this, ih, hid]
      · by_cases ha2 : a._id = id
        · simp [List.find?, ha, ha2, hid]
        · simp [List.find?, ha, ha2, ih, hid]

/-- The result of `deleteProduct` when no call reports an error and the vendor exists. -/
theorem deleteProduct_ok (o : Oracle) (req : Req) (st : State) (vendor : Vendor)
    (hval : o.validationErrors = false) (hfind : o.vendorFindErr = false)
    (hrem : o.childRemoveErr = false) (hsave : o.vendorSaveErr = false)
    (hfs : o.removeSyncThrows
      (itemDir (req.paramD "vendor_id") "products" (req.paramD "product_id")) = false)
    (hv : st.findVendor (req.paramD "vendor_id") = some vendor) :
    deleteProduct o req st =
      (⟨200, .message "product deleted"⟩,
        { st with
          products := st.products.filter
            (fun q => ¬ (q._id = castId (req.paramD "product_id") ∧ q.vendor_id = vendor._id))
          vendors := st.vendors.map (fun w =>
            if w._id = vendor._id then
              { vendor with
                products := vendor.products.filter (fun p_id => ¬ p_id = req.paramD "product_id") }
            else w)
          files := removeSync
            (itemDir (req.paramD "vendor_id") "products" (req.paramD "product_id")) st.files }) := by
  unfold deleteProduct
  simp only [hval, hfind, hrem, hv]
  rw [saveVendor_loaded o _ _ rfl (by simp [VendorDoc.isModifiedPassword]) hsave]
  simp [hfs]

/-- Nothing beneath `p` is left after `removeSync p`. -/
theorem removeSync_gone (p : String) (files : List String) :
    ∀ q ∈ removeSync p files, isUnder p q = false := by
  intro q hq
  simpa [removeSync] using (List.mem_filter.mp hq).2

/-- The call `removeSync p` changes nothing when nothing exists at or beneath `p`. -/
theorem removeSync_absent (p : String) (files : List String)
    (h : ∀ q ∈ files, isUnder p q = false) : removeSync p files = files := by
  unfold removeSync
  rw [List.filter_eq_self]
  intro q hq
  simp [h q hq]

/-! ## Theorems: deleting a product -/

/-- C6, as stated, fails: in `shopState` vendor `v1` exists, product `p2` belongs to
vendor `v2` and no product `p9` is stored, and delete product on `(v1, p2)` and on
`(v1, p9)` is answered with status 200 `product deleted`, not 404. -/
theorem C6_counterexample_delete_unmatched_is_200 :
    shopState.findVendor "v1" = some shopVendor1 ∧
    (∀ q ∈ shopState.products, ¬ (q._id = "p2" ∧ q.vendor_id = "v1")) ∧
    (∀ q ∈ shopState.products, ¬ q._id = "p9") ∧
    (serve {} .deleteProduct (productReq "p2") shopState).1
      = ⟨200, .message "product deleted"⟩ ∧
    (serve {} .deleteProduct (productReq "p9") shopState).1
      = ⟨200, .message "product deleted"⟩ ∧
    (serve {} .deleteProduct (productReq "p2") shopState).1.status ≠ 404 := by
  decide

/-- C6 amended: for an existing vendor `V` and a product id `P` such that no product with
`_id` `P` and `vendor_id` `V` is stored, delete product on `(V, P)`, when no store call
fails, answers 200 `product deleted` (the same for a missing product and for a product of
another vendor) and leaves the Product, Announcement and Request collections unchanged; the
products list of `V` is the previous list without `P`, hence unchanged when `P` is not in
it; the Asset Store is the previous one without the subtree `upload_root/V/products/P`,
hence unchanged when nothing exists there.  The ids of the condition are the path ids as
the store reads them. -/
theorem C6_delete_unmatched (o : Oracle) (req : Req) (st : State) (vendor : Vendor)
    (hval : o.validationErrors = false) (hfind : o.vendorFindErr = false)
    (hrem : o.childRemoveErr = false) (hsave : o.vendorSaveErr = false)
    (hfs : o.removeSyncThrows
      (itemDir (req.paramD "vendor_id") "products" (req.paramD "product_id")) = false)
    (hv : st.findVendor (req.paramD "vendor_id") = some vendor)
    (hno : ∀ q ∈ st.products,
      ¬ (q._id = castId (req.paramD "product_id") ∧
        q.vendor_id = castId (req.paramD "vendor_id"))) :
    (deleteProduct o req st).1 = ⟨200, .message "product deleted"⟩ ∧
    (deleteProduct o req st).2.products = st.products ∧
    (deleteProduct o req st).2.announcements = st.announcements ∧
    (deleteProduct o req st).2.requests = st.requests ∧
    (deleteProduct o req st).2.findVendor (req.paramD "vendor_id") =
      some { vendor with
        products := vendor.products.filter (fun p_id => ¬ p_id = req.paramD "product_id") } ∧
    (req.paramD "product_id" ∉ vendor.products →
      (deleteProduct o req st).2.findVendor (req.paramD "vendor_id") = some vendor) ∧
    (deleteProduct o req st).2.files =
      removeSync (itemDir (req.paramD "vendor_id") "products" (req.paramD "product_id"))
        st.files ∧
    ((∀ q ∈ st.files,
        isUnder (itemDir (req.paramD "vendor_id") "products" (req.paramD "product_id")) q
          = false) →
      (deleteProduct o req st).2.files = st.files) := by
  have hid : vendor._id = castId (req.paramD "vendor_id") := (findVendor_some hv).2
  rw [deleteProduct_ok o req st vendor hval hfind hrem hsave hfs hv]
  have hvend : (State.findVendor
      { st with
        products := st.products.filter
          (fun q => ¬ (q._id = castId (req.paramD "product_id") ∧ q.vendor_id = vendor._id))
        vendors := st.vendors.map (fun w =>
          if w._id = vendor._id then
            { vendor with
              products := vendor.products.filter (fun p_id => ¬ p_id = req.paramD "product_id") }
          else w)
        files := removeSync
          (itemDir (req.paramD "vendor_id") "products" (req.paramD "product_id")) st.files }
      (req.paramD "vendor_id")) =
      some { vendor with
        products := vendor.products.filter (fun p_id => ¬ p_id = req.paramD "product_id") } := by
    have h := find_map_replace st.vendors
      { vendor with
        products := vendor.products.filter (fun p_id => ¬ p_id = req.paramD "product_id") }
      (castId (req.paramD "vendor_id"))
    unfold State.findVendor at hv ⊢
    simp only [hid, if_true, hv, Option.map_some'] at h
    simpa [hid] using h
  refine ⟨rfl, ?_, rfl, rfl, hvend, ?_, rfl, ?_⟩
  · show st.products.filter _ = st.products
    rw [List.filter_eq_self]
    intro q hq
    have := hno q hq
    rw [← hid] at this
    have h2 := not_and_or.mp this
    simpa using h2
  · intro hnot
    rw [hvend]
    have hfil : vendor.products.filter (fun p_id => ¬ p_id = req.paramD "product_id")
        = vendor.products := by
      rw [List.filter_eq_self]
      intro x hx
      have : x ≠ req.paramD "product_id" := fun h => hnot (h ▸ hx)
      simpa using this
    rw [hfil]
  · intro habs
    exact removeSync_absent _ _ habs

/-- Witness of C6 amended: vendor `v1` of `shopState` and product `p2` of vendor `v2`. -/
theorem C6_delete_unmatched_witness :
    (deleteProduct {} (productReq "p2") shopState).1 = ⟨200, .message "product deleted"⟩ ∧
    (deleteProduct {} (productReq "p2") shopState).2.products = shopState.products :=
  have h := C6_delete_unmatched {} (productReq "p2") shopState shopVendor1 rfl rfl rfl rfl rfl
    (by decide) (by decide)
  ⟨h.1, h.2.1⟩

/-- The cascade of delete product when the path spells the product id as the store prints
it: for a vendor that owns the product, when every step succeeds, no product with that
`_id` is stored any more, the products list is the previous list without every occurrence
of the id, and nothing exists at or beneath the directory of the product. -/
theorem deleteProduct_cascade_same_spelling (o : Oracle) (req : Req) (st : State)
    (vendor : Vendor)
    (hval : o.validationErrors = false) (hfind : o.vendorFindErr = false)
    (hrem : o.childRemoveErr = false) (hsave : o.vendorSaveErr = false)
    (hfs : o.removeSyncThrows
      (itemDir (req.paramD "vendor_id") "products" (req.paramD "product_id")) = false)
    (hv : st.findVendor (req.paramD "vendor_id") = some vendor)
    (hspell : castId (req.paramD "product_id") = req.paramD "product_id")
    (huniq : UniqueProductIds st)
    (hown : ∃ p ∈ st.products,
      p._id = req.paramD "product_id" ∧ p.vendor_id = vendor._id) :
    (deleteProduct o req st).1 = ⟨200, .message "product deleted"⟩ ∧
    (∀ q ∈ (deleteProduct o req st).2.products, q._id ≠ req.paramD "product_id") ∧
    (deleteProduct o req st).2.findProduct (req.paramD "product_id") = none ∧
    (∃ v1, (deleteProduct o req st).2.findVendor (req.paramD "vendor_id") = some v1 ∧
      v1.products = vendor.products.filter (fun p_id => p_id ≠ req.paramD "product_id") ∧
      req.paramD "product_id" ∉ v1.products ∧
      v1.products.Sublist vendor.products ∧
      ∀ x, x ≠ req.paramD "product_id" → v1.products.count x = vendor.products.count x) ∧
    (∀ q ∈ (deleteProduct o req st).2.files,
      isUnder (itemDir (req.paramD "vendor_id") "products" (req.paramD "product_id")) q
        = false) := by
  have hid : vendor._id = castId (req.paramD "vendor_id") := (findVendor_some hv).2
  obtain ⟨p, hp, hpid, hpv⟩ := hown
  have hgone : ∀ q ∈ st.products.filter
      (fun q => ¬ (q._id = castId (req.paramD "product_id") ∧ q.vendor_id = vendor._id)),
      q._id ≠ req.paramD "product_id" := by
    intro q hq hqid
    rw [List.mem_filter] at hq
    have hqp : q = p :=
      List.inj_on_of_nodup_map huniq hq.1 hp (by rw [hqid, hpid])
    have hq2 := hq.2
    rw [hqp] at hq2
    simp [hpid, hpv, hspell] at hq2
  have hvend : (deleteProduct o req st).2.findVendor (req.paramD "vendor_id") =
      some { vendor with
        products := vendor.products.filter (fun p_id => ¬ p_id = req.paramD "product_id") } := by
    rw [deleteProduct_ok o req st vendor hval hfind hrem hsave hfs hv]
    have h := find_map_replace st.vendors
      { vendor with
        products := vendor.products.filter (fun p_id => ¬ p_id = req.paramD "product_id") }
      (castId (req.paramD "vendor_id"))
    unfold State.findVendor at hv ⊢
    simp only [hid, if_true, hv, Option.map_some'] at h
    simpa [hid] using h
  refine ⟨?_, ?_, ?_, ⟨_, hvend, rfl, ?_, ?_, ?_⟩, ?_⟩
  · rw [deleteProduct_ok o req st vendor hval hfind hrem hsave hfs hv]
  · rw [deleteProduct_ok o req st vendor hval hfind hrem hsave hfs hv]
    exact hgone
  · rw [deleteProduct_ok o req st vendor hval hfind hrem hsave hfs hv]
    unfold State.findProduct
    rw [List.find?_eq_none]
    intro q hq
    have hne := hgone q hq
    rw [hspell]
    simpa using hne
  · simp [List.mem_filter]
  · exact List.filter_sublist _
  · intro x hx
    show List.count x (vendor.products.filter _) = _
    rw [List.count_filter]
    simpa using hx
  · rw [deleteProduct_ok o req st vendor hval hfind hrem hsave hfs hv]
    exact removeSync_gone _ _

/-- C7 (the code departs from it): the record is removed with the path id as the store
reads it, but the products list is filtered, and the directory is named, with the path id
as it is written.  For an existing vendor and a path id that is not written as any id of
the products list, when every step of delete product succeeds, the answer is 200
`product deleted`, every product of the vendor whose `_id` is the id the store reads is
removed, the vendor is stored with its products list as it was, so an id of a removed
product stays listed, and the directory that is purged is the one named by the path as
written. -/
theorem C7_delete_product_other_spelling (o : Oracle) (req : Req) (st : State)
    (vendor : Vendor)
    (hval : o.validationErrors = false) (hfind : o.vendorFindErr = false)
    (hrem : o.childRemoveErr = false) (hsave : o.vendorSaveErr = false)
    (hfs : o.removeSyncThrows
      (itemDir (req.paramD "vendor_id") "products" (req.paramD "product_id")) = false)
    (hv : st.findVendor (req.paramD "vendor_id") = some vendor)
    (hraw : req.paramD "product_id" ∉ vendor.products) :
    (deleteProduct o req st).1 = ⟨200, .message "product deleted"⟩ ∧
    (deleteProduct o req st).2.products =
      st.products.filter
        (fun q => ¬ (q._id = castId (req.paramD "product_id") ∧ q.vendor_id = vendor._id)) ∧
    (∀ q ∈ (deleteProduct o req st).2.products,
      ¬ (q._id = castId (req.paramD "product_id") ∧ q.vendor_id = vendor._id)) ∧
    (deleteProduct o req st).2.findVendor (req.paramD "vendor_id") = some vendor ∧
    (castId (req.paramD "product_id") ∈ vendor.products →
      ∃ v1, (deleteProduct o req st).2.findVendor (req.paramD "vendor_id") = some v1 ∧
        castId (req.paramD "product_id") ∈ v1.products) ∧
    (deleteProduct o req st).2.files =
      removeSync (itemDir (req.paramD "vendor_id") "products" (req.paramD "product_id"))
        st.files := by
  have hid : vendor._id = castId (req.paramD "vendor_id") := (findVendor_some hv).2
  have hfil : vendor.products.filter (fun p_id => ¬ p_id = req.paramD "product_id")
      = vendor.products := by
    rw [List.filter_eq_self]
    intro x hx
    have : x ≠ req.paramD "product_id" := fun h => hraw (h ▸ hx)
    simpa using this
  have hvend : (deleteProduct o req st).2.findVendor (req.paramD "vendor_id") =
      some vendor := by
    rw [deleteProduct_ok o req st vendor hval hfind hrem hsave hfs hv]
    have h := find_map_replace st.vendors
      { vendor with
        products := vendor.products.filter (fun p_id => ¬ p_id = req.paramD "product_id") }
      (castId (req.paramD "vendor_id"))
    unfold State.findVendor at hv ⊢
    simp only [hid, if_true, hv, Option.map_some'] at h
    have h2 : (st.vendors.map (fun w =>
        if w._id = vendor._id then
          { vendor with
            products := vendor.products.filter (fun p_id => ¬ p_id = req.paramD "product_id") }
        else w)).find? (fun w => w._id = castId (req.paramD "vendor_id")) =
        some { vendor with
          products := vendor.products.filter (fun p_id => ¬ p_id = req.paramD "product_id") } := by
      simpa [hid] using h
    rw [hfil] at h2 ⊢
    exact h2
  refine ⟨?_, ?_, ?_, hvend, fun hin => ⟨vendor, hvend, hin⟩, ?_⟩
  · rw [deleteProduct_ok o req st vendor hval hfind hrem hsave hfs hv]
  · rw [deleteProduct_ok o req st vendor hval hfind hrem hsave hfs hv]
  · rw [deleteProduct_ok o req st vendor hval hfind hrem hsave hfs hv]
    intro q hq
    exact of_decide_eq_true (List.mem_filter.mp hq).2
  · rw [deleteProduct_ok o req st vendor hval hfind hrem hsave hfs hv]

/-- Witness of C7: the owner of `v1` deletes its product `p1` of `shopState` on the path
`/vendor/v1/products/P1`.  The answer is 200, the record `p1` is gone, the products list of
`v1` still holds `p1`, and the directory of `p1` and the file in it are still there. -/
theorem C7_delete_product_other_spelling_witness :
    (shopState.findProduct "p1").map (fun p => p.vendor_id) = some "v1" ∧
    (serve {} .deleteProduct (productReq "P1") shopState).1
      = ⟨200, .message "product deleted"⟩ ∧
    (deleteProduct {} (productReq "P1") shopState).2.findProduct "p1" = none ∧
    ((deleteProduct {} (productReq "P1") shopState).2.findVendor "v1").map
      (fun v => v.products) = some ["p1"] ∧
    "/usr/local/uploads/v1/products/p1" ∈
      (deleteProduct {} (productReq "P1") shopState).2.files ∧
    "/usr/local/uploads/v1/products/p1/x.jpg" ∈
      (deleteProduct {} (productReq "P1") shopState).2.files :=
  have h := C7_delete_product_other_spelling {} (productReq "P1") shopState shopVendor1
    rfl rfl rfl rfl rfl (by decide) (by decide)
  ⟨by decide, by decide,
    by rw [State.findProduct, h.2.1]; decide,
    congrArg (Option.map (fun v => v.products)) h.2.2.2.1,
    by rw [h.2.2.2.2.2]; decide,
    by rw [h.2.2.2.2.2]; decide⟩

/-! ## Theorems: gallery capacity -/

/-- C8: when the product found by append to gallery holds at least
`max_product_image_gallery_size` (5) gallery entries, the answer is 403
`no room left for gallery images` and the stores are returned as they were, whatever the
uploaded file and the outcome of the upload and save calls would be: the upload step is not
reached, no file is stored, the product is not saved and its gallery is unchanged. -/
theorem C8_gallery_capacity (o : Oracle) (file : UploadFile) (req : Req) (st : State)
    (vendor : Vendor) (product : Product)
    (hval : o.validationErrors = false) (hfind : o.vendorFindErr = false)
    (hcfind : o.childFindErr = false)
    (hv : st.findVendor (req.paramD "vendor_id") = some vendor)
    (hp : st.findProduct (req.paramD "product_id") = some product)
    (hfull : config.max_product_image_gallery_size ≤ product.gallery.length) :
    config.max_product_image_gallery_size = 5 ∧
    appendGallery o file req st = (⟨403, .message "no room left for gallery images"⟩, st) ∧
    (appendGallery o file req st).2.files = st.files ∧
    (appendGallery o file req st).2.findProduct (req.paramD "product_id") = some product := by
  have h : appendGallery o file req st =
      (⟨403, .message "no room left for gallery images"⟩, st) := by
    unfold appendGallery
    simp only [hval, hfind, hcfind, hv, hp]
    simp [hfull]
  refine ⟨rfl, h, ?_, ?_⟩
  · rw [h]
  · rw [h]; exact hp

/-- Witness of C8: product `p1` of `shopState` holds five gallery entries. -/
theorem C8_gallery_capacity_witness :
    config.max_product_image_gallery_size = 5 ∧
    appendGallery {} ⟨"a.jpg", "image/jpeg"⟩ (productReq "p1") shopState
      = (⟨403, .message "no room left for gallery images"⟩, shopState) :=
  have h := C8_gallery_capacity {} ⟨"a.jpg", "image/jpeg"⟩ (productReq "p1") shopState
    shopVendor1 { _id := "p1", vendor_id := "v1", gallery := ["a", "b", "c", "d", "e"] }
    rfl rfl rfl (by decide) (by decide) (by decide)
  ⟨h.1, h.2.1⟩

/-! ## Theorems: the stored password under a contact update -/

/-- C9: for a stored vendor, update contact, when validation passes and the store calls
succeed, answers 200 `contact updated` and writes back the found record with only
`contact` replaced; the account, and so the stored password hash, of every vendor is as it
was before.  The `pre('save')` hook returns a document that is not new and whose
`account.password` is not marked modified as it is, without calling bcrypt. -/
theorem C9_contact_keeps_password (o : Oracle) (body : Contact) (req : Req) (st : State)
    (vendor : Vendor)
    (hval : o.validationErrors = false) (hfind : o.vendorFindErr = false)
    (hsave : o.vendorSaveErr = false)
    (hv : st.findVendor (req.paramD "vendor_id") = some vendor) :
    (updateContact o body req st).1 = ⟨200, .message "contact updated"⟩ ∧
    (updateContact o body req st).2.findVendor (req.paramD "vendor_id") =
      some { vendor with contact := body.lowercased } ∧
    (∀ id, ((updateContact o body req st).2.findVendor id).map (fun w => w.account) =
      (st.findVendor id).map (fun w => w.account)) ∧
    (∀ id, ((updateContact o body req st).2.findVendor id).map (fun w => w.account.password) =
      (st.findVendor id).map (fun w => w.account.password)) ∧
    (∀ d : VendorDoc, d.isNew = false → d.isModifiedPassword = false → preSave o d = some d) := by
  have hid : vendor._id = castId (req.paramD "vendor_id") := (findVendor_some hv).2
  have h : updateContact o body req st =
      (⟨200, .message "contact updated"⟩,
        { st with vendors := st.vendors.map (fun w =>
            if w._id = vendor._id then { vendor with contact := body.lowercased } else w) }) := by
    unfold updateContact
    simp only [hval, hfind, hv]
    rw [saveVendor_loaded o _ _ rfl (by simp [VendorDoc.isModifiedPassword]) hsave]
    simp
  have hfindAll : ∀ id, (updateContact o body req st).2.findVendor id =
      if castId id = vendor._id then
        (st.findVendor id).map (fun _ => { vendor with contact := body.lowercased })
      else st.findVendor id := by
    intro id
    rw [h]
    exact find_map_replace st.vendors { vendor with contact := body.lowercased } (castId id)
  have hacc : ∀ id, ((updateContact o body req st).2.findVendor id).map (fun w => w.account) =
      (st.findVendor id).map (fun w => w.account) := by
    intro id
    rw [hfindAll id]
    by_cases hidv : castId id = vendor._id
    · rw [if_pos hidv]
      have hsame : st.findVendor id = some vendor := by
        unfold State.findVendor at hv ⊢
        rw [hidv, hid]
        exact hv
      rw [hsame]
      rfl
    · rw [if_neg hidv]
  refine ⟨by rw [h], ?_, hacc, ?_, fun d hnew hmod => preSave_loaded o d hnew hmod⟩
  · rw [hfindAll, if_pos hid.symm, hv]
    rfl
  · intro id
    have := congrArg (Option.map (fun a : Account => a.password)) (hacc id)
    simpa [Option.map_map] using this

/-- Witness of C9: the owner of `v1` updates its contact, with a bcrypt that would fail. -/
theorem C9_contact_keeps_password_witness :
    (updateContact { genSaltErr := true } { name := some "Ann" } ownerReq sampleState).1
      = ⟨200, .message "contact updated"⟩ ∧
    ((updateContact { genSaltErr := true } { name := some "Ann" } ownerReq
        sampleState).2.findVendor "v1").map (fun w => w.account.password)
      = (sampleState.findVendor "v1").map (fun w => w.account.password) :=
  have h := C9_contact_keeps_password { genSaltErr := true } { name := some "Ann" } ownerReq
    sampleState sampleVendor rfl rfl rfl (by decide)
  ⟨h.1, h.2.2.2.1 "v1"⟩

/-! ## The parent-child invariant -/

/-- What `saveVendor` does to the stores when it succeeds: the collections other than
`Vendor` and the Asset Store are untouched, the record written keeps `_id` and the id
lists of the document, and every stored vendor is the record written or an earlier record
with another `_id`. -/
theorem saveVendor_some {o : Oracle} {d : VendorDoc} {st st1 : State} {v1 : Vendor}
    (h : saveVendor o d st = some (v1, st1)) :
    st1.products = st.products ∧ st1.announcements = st.announcements ∧
    st1.requests = st.requests ∧ st1.files = st.files ∧
    v1._id = d.doc._id ∧ v1.products = d.doc.products ∧
    (∀ w ∈ st1.vendors, (w ∈ st.vendors ∧ w._id ≠ d.doc._id) ∨ w = v1) := by
  unfold saveVendor at h
  cases hpre : preSave o d with
  | none => simp [hpre] at h
  | some d1 =>
    have hd1 : d1.doc._id = d.doc._id ∧ d1.doc.products = d.doc.products ∧
        d1.isNew = d.isNew := by
      unfold preSave at hpre
      split_ifs at hpre
      · simp at hpre; subst hpre; exact ⟨rfl, rfl, rfl⟩
      · simp at hpre; subst hpre; exact ⟨rfl, rfl, rfl⟩
    simp only [hpre] at h
    split_ifs at h with herr hnew hdup
    · simp only [Option.some.injEq, Prod.mk.injEq] at h
      obtain ⟨hv, hst⟩ := h
      subst hv; subst hst
      refine ⟨rfl, rfl, rfl, rfl, hd1.1, hd1.2.1, ?_⟩
      intro w hw
      simp only [List.mem_append, List.mem_singleton] at hw
      rcases hw with hw | hw
      · left
        refine ⟨hw, ?_⟩
        intro hwid
        apply hdup
        simp only [List.any_eq_true, decide_eq_true_eq]
        exact ⟨w, hw, by rw [hwid, hd1.1]⟩
      · right; exact hw
    · simp only [Option.some.injEq, Prod.mk.injEq] at h
      obtain ⟨hv, hst⟩ := h
      subst hv; subst hst
      refine ⟨rfl, rfl, rfl, rfl, hd1.1, hd1.2.1, ?_⟩
      intro w hw
      simp only [List.mem_map] at hw
      obtain ⟨w0, hw0, hw0eq⟩ := hw
      by_cases hc : w0._id = d1.doc._id
      · right; rw [if_pos hc] at hw0eq; exact hw0eq.symm
      · left; rw [if_neg hc] at hw0eq; subst hw0eq
        exact ⟨hw0, by rw [← hd1.1]; exact hc⟩

/-- The parent-child property after a vendor was saved: it suffices that the vendors with
another `_id` and the document saved only list products they own. -/
theorem listed_after_save {o : Oracle} {d : VendorDoc} {st st1 : State} {v1 : Vendor}
    (h : saveVendor o d st = some (v1, st1))
    (hothers : ∀ w ∈ st.vendors, w._id ≠ d.doc._id → OwnsListed st.products w)
    (hdoc : OwnsListed st.products d.doc) : ProductsListed st1 := by
  obtain ⟨hp, -, -, -, hid, hprod, hv⟩ := saveVendor_some h
  intro w hw
  rw [hp]
  rcases hv w hw with ⟨hmem, hne⟩ | heq
  · exact hothers w hmem hne
  · subst heq
    intro x hx
    rw [hprod] at hx
    obtain ⟨p, hp1, hp2, hp3⟩ := hdoc x hx
    exact ⟨p, hp1, hp2, by rw [hp3, hid]⟩

theorem ProdFrame.refl (st : State) : ProdFrame st st :=
  ⟨rfl, fun w hw => Or.inr ⟨w, hw, rfl, rfl⟩⟩

theorem frame_of_eq {st st1 : State} (hv : st1.vendors = st.vendors)
    (hp : st1.products = st.products) : ProdFrame st st1 :=
  ⟨hp, fun w hw => Or.inr ⟨w, hv ▸ hw, rfl, rfl⟩⟩

theorem frame_of_sub {st st1 : State} (hp : st1.products = st.products)
    (hv : ∀ w ∈ st1.vendors, w ∈ st.vendors) : ProdFrame st st1 :=
  ⟨hp, fun w hw => Or.inr ⟨w, hv w hw, rfl, rfl⟩⟩

theorem Inv.of_frame {st st1 : State} (hinv : Inv st) (hf : ProdFrame st st1) : Inv st1 := by
  obtain ⟨hu, hl⟩ := hinv
  obtain ⟨hp, hv⟩ := hf
  refine ⟨?_, ?_⟩
  · unfold UniqueProductIds at hu ⊢
    rw [hp]; exact hu
  · intro w hw x hx
    rw [hp]
    rcases hv w hw with hnil | ⟨w0, hw0, hid, hprod⟩
    · rw [hnil] at hx; cases hx
    · rw [← hprod] at hx
      obtain ⟨p, hp1, hp2, hp3⟩ := hl w0 hw0 x hx
      exact ⟨p, hp1, hp2, by rw [hp3, hid]⟩

/-- Saving a loaded vendor whose `products` list was not touched. -/
theorem frame_save {o : Oracle} {d : VendorDoc} {st st1 st2 st3 : State} {v1 vendor : Vendor}
    {V : String} (hfind : st.findVendor V = some vendor)
    (h : saveVendor o d st1 = some (v1, st2))
    (hvs : st1.vendors = st.vendors) (hps : st1.products = st.products)
    (hid : d.doc._id = vendor._id) (hp : d.doc.products = vendor.products)
    (hv3 : st3.vendors = st2.vendors) (hp3 : st3.products = st2.products) :
    ProdFrame st st3 := by
  obtain ⟨hp2, -, -, -, hid1, hprod1, hv⟩ := saveVendor_some h
  refine ⟨by rw [hp3, hp2, hps], ?_⟩
  intro w hw
  right
  rw [hv3] at hw
  rcases hv w hw with ⟨hmem, -⟩ | heq
  · exact ⟨w, hvs ▸ hmem, rfl, rfl⟩
  · subst heq
    exact ⟨vendor, (findVendor_some hfind).1, by rw [hid1, hid], by rw [hprod1, hp]⟩

/-- Saving a new vendor, whose `products` list is empty. -/
theorem frame_save_new {o : Oracle} {d : VendorDoc} {st st2 st3 : State} {v1 : Vendor}
    (h : saveVendor o d st = some (v1, st2)) (hp : d.doc.products = [])
    (hv3 : st3.vendors = st2.vendors) (hp3 : st3.products = st2.products) :
    ProdFrame st st3 := by
  obtain ⟨hp2, -, -, -, -, hprod1, hv⟩ := saveVendor_some h
  refine ⟨by rw [hp3, hp2], ?_⟩
  intro w hw
  rw [hv3] at hw
  rcases hv w hw with ⟨hmem, -⟩ | heq
  · exact Or.inr ⟨w, hmem, rfl, rfl⟩
  · subst heq
    exact Or.inl (by rw [hprod1, hp])

theorem insertAnnouncement_some {o : Oracle} {a : Announcement} {st st1 : State}
    (h : insertAnnouncement o a st = some st1) :
    st1.vendors = st.vendors ∧ st1.products = st.products := by
  unfold insertAnnouncement at h
  split_ifs at h
  simp only [Option.some.injEq] at h
  subst h
  exact ⟨rfl, rfl⟩

theorem updateStoredAnnouncement_some {o : Oracle} {a : Announcement} {st st1 : State}
    (h : updateStoredAnnouncement o a st = some st1) :
    st1.vendors = st.vendors ∧ st1.products = st.products := by
  unfold updateStoredAnnouncement at h
  split_ifs at h
  simp only [Option.some.injEq] at h
  subst h
  exact ⟨rfl, rfl⟩

theorem insertRequest_some {o : Oracle} {r : Request} {st st1 : State}
    (h : insertRequest o r st = some st1) :
    st1.vendors = st.vendors ∧ st1.products = st.products := by
  unfold insertRequest at h
  split_ifs at h
  simp only [Option.some.injEq] at h
  subst h
  exact ⟨rfl, rfl⟩

theorem updateStoredRequest_some {o : Oracle} {r : Request} {st st1 : State}
    (h : updateStoredRequest o r st = some st1) :
    st1.vendors = st.vendors ∧ st1.products = st.products := by
  unfold updateStoredRequest at h
  split_ifs at h
  simp only [Option.some.injEq] at h
  subst h
  exact ⟨rfl, rfl⟩

theorem createAnnouncement_frame (o : Oracle) (body : AnnouncementBody) (req : Req)
    (st : State) : ProdFrame st (createAnnouncement o body req st).2 := by
  unfold createAnnouncement
  dsimp only
  repeat' split
  all_goals first
    | exact ProdFrame.refl _
    | exact frame_of_eq (insertAnnouncement_some (by assumption)).1
        (insertAnnouncement_some (by assumption)).2
    | exact frame_save (by assumption) (by assumption)
        (insertAnnouncement_some (by assumption)).1
        (insertAnnouncement_some (by assumption)).2 (by rfl) (by rfl) (by rfl) (by rfl)

theorem deleteAllAnnouncements_frame (o : Oracle) (req : Req) (st : State) :
    ProdFrame st (deleteAllAnnouncements o req st).2 := by
  unfold deleteAllAnnouncements
  dsimp only
  repeat' split
  all_goals first
    | exact ProdFrame.refl _
    | exact frame_save (by assumption) (by assumption) (by rfl) (by rfl) (by rfl) (by rfl)
        (by rfl) (by rfl)

theorem updateAnnouncement_frame (o : Oracle) (body : AnnouncementBody) (req : Req)
    (st : State) : ProdFrame st (updateAnnouncement o body req st).2 := by
  unfold updateAnnouncement
  dsimp only
  repeat' split
  all_goals first
    | exact ProdFrame.refl _
    | exact frame_of_eq (updateStoredAnnouncement_some (by assumption)).1
        (updateStoredAnnouncement_some (by assumption)).2

theorem deleteAnnouncement_frame (o : Oracle) (req : Req) (st : State) :
    ProdFrame st (deleteAnnouncement o req st).2 := by
  unfold deleteAnnouncement
  dsimp only
  repeat' split
  all_goals first
    | exact ProdFrame.refl _
    | exact frame_save (by assumption) (by assumption) (by rfl) (by rfl) (by rfl) (by rfl)
        (by rfl) (by rfl)

theorem createRequest_frame (o : Oracle) (body : RequestBody) (req : Req) (st : State) :
    ProdFrame st (createRequest o body req st).2 := by
  unfold createRequest
  dsimp only
  repeat' split
  all_goals first
    | exact ProdFrame.refl _
    | exact frame_of_eq (insertRequest_some (by assumption)).1
        (insertRequest_some (by assumption)).2
    | exact frame_save (by assumption) (by assumption)
        (insertRequest_some (by assumption)).1
        (insertRequest_some (by assumption)).2 (by rfl) (by rfl) (by rfl) (by rfl)

theorem deleteAllRequests_frame (o : Oracle) (req : Req) (st : State) :
    ProdFrame st (deleteAllRequests o req st).2 := by
  unfold deleteAllRequests
  dsimp only
  repeat' split
  all_goals first
    | exact ProdFrame.refl _
    | exact frame_save (by assumption) (by assumption) (by rfl) (by rfl) (by rfl) (by rfl)
        (by rfl) (by rfl)

theorem updateRequest_frame (o : Oracle) (body : RequestBody) (req : Req) (st : State) :
    ProdFrame st (updateRequest o body req st).2 := by
  unfold updateRequest
  dsimp only
  repeat' split
  all_goals first
    | exact ProdFrame.refl _
    | exact frame_of_eq (updateStoredRequest_some (by assumption)).1
        (updateStoredRequest_some (by assumption)).2

theorem deleteRequest_frame (o : Oracle) (req : Req) (st : State) :
    ProdFrame st (deleteRequest o req st).2 := by
  unfold deleteRequest
  dsimp only
  repeat' split
  all_goals first
    | exact ProdFrame.refl _
    | exact frame_save (by assumption) (by assumption) (by rfl) (by rfl) (by rfl) (by rfl)
        (by rfl) (by rfl)

theorem updateContact_frame (o : Oracle) (body : Contact) (req : Req) (st : State) :
    ProdFrame st (updateContact o body req st).2 := by
  unfold updateContact
  dsimp only
  repeat' split
  all_goals first
    | exact ProdFrame.refl _
    | exact frame_save (by assumption) (by assumption) (by rfl) (by rfl) (by rfl) (by rfl)
        (by rfl) (by rfl)

theorem createVendor_frame (o : Oracle) (body : Account) (req : Req) (st : State) :
    ProdFrame st (createVendor o body req st).2 := by
  unfold createVendor
  dsimp only
  repeat' split
  all_goals first
    | exact ProdFrame.refl _
    | exact frame_save_new (by assumption) (by rfl) (by rfl) (by rfl)

theorem deleteVendor_frame (o : Oracle) (req : Req) (st : State) :
    ProdFrame st (deleteVendor o req st).2 := by
  unfold deleteVendor
  dsimp only
  repeat' split
  all_goals first
    | exact ProdFrame.refl _
    | exact frame_of_sub (by rfl) (fun w hw => (List.mem_filter.mp hw).1)

theorem insertProduct_some {o : Oracle} {p : Product} {st st1 : State}
    (h : insertProduct o p st = some st1) :
    st1.vendors = st.vendors ∧ st1.products = st.products ++ [p] ∧
      ∀ q ∈ st.products, q._id ≠ p._id := by
  unfold insertProduct at h
  split_ifs at h with herr hdup
  simp only [Option.some.injEq] at h
  subst h
  refine ⟨rfl, rfl, ?_⟩
  intro q hq hid
  apply hdup
  simp only [List.any_eq_true, decide_eq_true_eq]
  exact ⟨q, hq, hid⟩

theorem updateStoredProduct_some {o : Oracle} {p : Product} {st st1 : State}
    (h : updateStoredProduct o p st = some st1) :
    st1.vendors = st.vendors ∧
      st1.products = st.products.map (fun q => if q._id = p._id then p else q) := by
  unfold updateStoredProduct at h
  split_ifs at h
  simp only [Option.some.injEq] at h
  subst h
  exact ⟨rfl, rfl⟩

theorem doUpload_some {o : Oracle} {route : String} {file : UploadFile} {req : Req}
    {st st1 : State} {path : String} (h : doUpload o route file req st = some (path, st1)) :
    st1.vendors = st.vendors ∧ st1.products = st.products := by
  unfold doUpload at h
  split_ifs at h
  split at h
  · cases h
  · simp only [Option.some.injEq, Prod.mk.injEq] at h
    obtain ⟨-, hst⟩ := h
    subst hst
    exact ⟨rfl, rfl⟩

/-- The invariant after a product was inserted and its id pushed on the list of its
vendor. -/
theorem inv_create {o : Oracle} {d : VendorDoc} {p : Product} {st st1 st2 st3 : State}
    {v1 vendor : Vendor} {V : String} (hinv : Inv st) (hV : castId V = V)
    (hfind : st.findVendor V = some vendor)
    (hins : insertProduct o p st = some st1)
    (hsave : saveVendor o d st1 = some (v1, st2))
    (hpv : p.vendor_id = V)
    (hid : d.doc._id = vendor._id) (hprod : d.doc.products = vendor.products ++ [p._id])
    (hv3 : st3.vendors = st2.vendors) (hp3 : st3.products = st2.products) : Inv st3 := by
  obtain ⟨hu, hl⟩ := hinv
  obtain ⟨hv1, hp1, hfresh⟩ := insertProduct_some hins
  obtain ⟨hvmem, hvid⟩ := findVendor_some hfind
  have hl2 : ProductsListed st2 := by
    apply listed_after_save hsave
    · intro w hw _ x hx
      rw [hv1] at hw
      obtain ⟨q, hq1, hq2, hq3⟩ := hl w hw x hx
      exact ⟨q, by rw [hp1]; exact List.mem_append_left _ hq1, hq2, hq3⟩
    · intro x hx
      rw [hprod, List.mem_append, List.mem_singleton] at hx
      rcases hx with hx | hx
      · obtain ⟨q, hq1, hq2, hq3⟩ := hl vendor hvmem x hx
        exact ⟨q, by rw [hp1]; exact List.mem_append_left _ hq1, hq2, by rw [hq3, hid]⟩
      · exact ⟨p, by rw [hp1]; simp, hx.symm, by rw [hpv, hid, hvid, hV]⟩
  have hp2 := (saveVendor_some hsave).1
  refine ⟨?_, ?_⟩
  · unfold UniqueProductIds at hu ⊢
    rw [hp3, hp2, hp1, List.map_append, List.nodup_append]
    refine ⟨hu, by simp, ?_⟩
    intro a ha hb
    simp only [List.map_cons, List.map_nil, List.mem_singleton] at hb
    obtain ⟨q, hq, hqa⟩ := List.mem_map.mp ha
    exact hfresh q hq (by rw [hqa, hb])
  · intro w hw
    rw [hv3] at hw
    rw [hp3]
    exact hl2 w hw

/-- The invariant when only a product was inserted. -/
theorem inv_insert {o : Oracle} {p : Product} {st st1 : State} (hinv : Inv st)
    (hins : insertProduct o p st = some st1) : Inv st1 := by
  obtain ⟨hu, hl⟩ := hinv
  obtain ⟨hv1, hp1, hfresh⟩ := insertProduct_some hins
  refine ⟨?_, ?_⟩
  · unfold UniqueProductIds at hu ⊢
    rw [hp1, List.map_append, List.nodup_append]
    refine ⟨hu, by simp, ?_⟩
    intro a ha hb
    simp only [List.map_cons, List.map_nil, List.mem_singleton] at hb
    obtain ⟨q, hq, hqa⟩ := List.mem_map.mp ha
    exact hfresh q hq (by rw [hqa, hb])
  · intro w hw x hx
    rw [hv1] at hw
    obtain ⟨q, hq1, hq2, hq3⟩ := hl w hw x hx
    exact ⟨q, by rw [hp1]; exact List.mem_append_left _ hq1, hq2, hq3⟩

theorem createProduct_inv (o : Oracle) (body : ProductBody) (req : Req) (st : State)
    (hs : castId (req.paramD "vendor_id") = req.paramD "vendor_id")
    (hinv : Inv st) : Inv (createProduct o body req st).2 := by
  unfold createProduct
  dsimp only
  repeat' split
  all_goals first
    | exact hinv
    | exact inv_insert hinv (by assumption)
    | exact inv_create hinv hs (by assumption) (by assumption) (by assumption) (by rfl) (by rfl)
        (by rfl) (by rfl) (by rfl)

/-- The invariant after the products matching a filter were removed and the vendor was
saved with a `products` list that only names products that were kept. -/
theorem inv_remove {o : Oracle} {d : VendorDoc} {keep : Product → Bool}
    {st st1 st2 st3 : State} {v1 vendor : Vendor} {V : String} (hinv : Inv st)
    (hfind : st.findVendor V = some vendor)
    (hsave : saveVendor o d st1 = some (v1, st2))
    (hv1 : st1.vendors = st.vendors) (hp1 : st1.products = st.products.filter keep)
    (hkeep : ∀ q ∈ st.products, q.vendor_id ≠ vendor._id → keep q = true)
    (hid : d.doc._id = vendor._id)
    (hprod : ∀ x ∈ d.doc.products, x ∈ vendor.products ∧
      ∀ q ∈ st.products, q._id = x → keep q = true)
    (hv3 : st3.vendors = st2.vendors) (hp3 : st3.products = st2.products) : Inv st3 := by
  obtain ⟨hu, hl⟩ := hinv
  obtain ⟨hvmem, -⟩ := findVendor_some hfind
  have hl2 : ProductsListed st2 := by
    apply listed_after_save hsave
    · intro w hw hne x hx
      rw [hv1] at hw
      obtain ⟨q, hq1, hq2, hq3⟩ := hl w hw x hx
      refine ⟨q, ?_, hq2, hq3⟩
      rw [hp1, List.mem_filter]
      exact ⟨hq1, hkeep q hq1 (by rw [hq3, ← hid]; exact hne)⟩
    · intro x hx
      obtain ⟨hxv, hxk⟩ := hprod x hx
      obtain ⟨q, hq1, hq2, hq3⟩ := hl vendor hvmem x hxv
      refine ⟨q, ?_, hq2, by rw [hq3, hid]⟩
      rw [hp1, List.mem_filter]
      exact ⟨hq1, hxk q hq1 hq2⟩
  have hp2 := (saveVendor_some hsave).1
  refine ⟨?_, ?_⟩
  · unfold UniqueProductIds at hu ⊢
    rw [hp3, hp2, hp1]
    exact hu.sublist ((List.filter_sublist _).map _)
  · intro w hw
    rw [hv3] at hw
    rw [hp3]
    exact hl2 w hw

theorem deleteProduct_keeps (o : Oracle) (req : Req) (st : State)
    (hs : castId (req.paramD "product_id") = req.paramD "product_id") :
    Keeps st (deleteProduct o req st) := by
  unfold deleteProduct
  dsimp only
  repeat' split
  all_goals first
    | exact fun hinv _ => hinv
    | (intro _ h; simp at h; done)
    | skip
  all_goals intro hinv _
  all_goals
    refine inv_remove hinv (by assumption) (by assumption) (by rfl) (by rfl) ?_
      (by rfl) ?_ (by rfl) (by rfl)
  · intro q _ hne
    simp [hne]
  · intro x hx
    simp only [List.mem_filter, decide_not, Bool.not_eq_true', decide_eq_false_iff_not] at hx
    refine ⟨hx.1, ?_⟩
    intro q _ hq
    simp [hq, hx.2, hs]

theorem deleteAllProducts_keeps (o : Oracle) (req : Req) (st : State) :
    Keeps st (deleteAllProducts o req st) := by
  unfold deleteAllProducts
  dsimp only
  repeat' split
  all_goals first
    | exact fun hinv _ => hinv
    | (intro _ h; simp at h; done)
    | skip
  all_goals intro hinv _
  all_goals
    refine inv_remove hinv (by assumption) (by assumption) (by rfl) (by rfl) ?_
      (by rfl) ?_ (by rfl) (by rfl)
  · intro q _ hne
    simp [hne]
  · intro x hx
    cases hx

/-- The invariant after a loaded product was written back with the same `_id` and
`vendor_id`. -/
theorem inv_update {o : Oracle} {p1 product : Product} {st st0 st1 : State} {P : String}
    (hinv : Inv st) (hfind : st.findProduct P = some product)
    (hv0 : st0.vendors = st.vendors) (hp0 : st0.products = st.products)
    (h : updateStoredProduct o p1 st0 = some st1)
    (hid : p1._id = product._id) (hvid : p1.vendor_id = product.vendor_id) : Inv st1 := by
  obtain ⟨hu, hl⟩ := hinv
  obtain ⟨hv1, hp1⟩ := updateStoredProduct_some h
  obtain ⟨hpmem, -⟩ := findProduct_some hfind
  have hsame : ∀ q ∈ st.products,
      (if q._id = p1._id then p1 else q)._id = q._id ∧
      (if q._id = p1._id then p1 else q).vendor_id = q.vendor_id := by
    intro q hq
    by_cases hc : q._id = p1._id
    · have hqp : q = product :=
        List.inj_on_of_nodup_map hu hq hpmem (by rw [hc, hid])
      rw [if_pos hc, hqp]
      exact ⟨hid, hvid⟩
    · rw [if_neg hc]
      exact ⟨rfl, rfl⟩
  refine ⟨?_, ?_⟩
  · unfold UniqueProductIds at hu ⊢
    rw [hp1, hp0, List.map_map]
    have : st.products.map ((fun p => p._id) ∘ fun q => if q._id = p1._id then p1 else q)
        = st.products.map (fun p => p._id) := by
      apply List.map_congr_left
      intro q hq
      exact (hsame q hq).1
    rw [this]
    exact hu
  · intro w hw x hx
    rw [hv1, hv0] at hw
    obtain ⟨q, hq1, hq2, hq3⟩ := hl w hw x hx
    refine ⟨if q._id = p1._id then p1 else q, ?_, ?_, ?_⟩
    · rw [hp1, hp0]
      exact List.mem_map.mpr ⟨q, hq1, rfl⟩
    · rw [(hsame q hq1).1, hq2]
    · rw [(hsame q hq1).2, hq3]

theorem updateProduct_inv (o : Oracle) (body : ProductBody) (req : Req) (st : State)
    (hinv : Inv st) : Inv (updateProduct o body req st).2 := by
  unfold updateProduct
  dsimp only
  repeat' split
  all_goals first
    | exact hinv
    | exact inv_update hinv (by assumption) (by rfl) (by rfl) (by assumption) (by rfl) (by rfl)

theorem appendGallery_inv (o : Oracle) (file : UploadFile) (req : Req) (st : State)
    (hinv : Inv st) : Inv (appendGallery o file req st).2 := by
  unfold appendGallery
  dsimp only
  repeat' split
  all_goals first
    | exact hinv
    | exact Inv.of_frame hinv (frame_of_eq (doUpload_some (by assumption)).1
        (doUpload_some (by assumption)).2)
    | exact inv_update hinv (by assumption) (doUpload_some (by assumption)).1
        (doUpload_some (by assumption)).2 (by assumption) (by rfl) (by rfl)

/-- Every handler keeps the invariant when it answers 200 to a request whose path spells
its ids as the store prints them. -/
theorem handler_keeps (o : Oracle) (a : Action) (req : Req) (st : State)
    (hs : SameSpelling req) : Keeps st (a.handler o req st) := by
  intro hinv h200
  cases a with
  | createVendor body => exact hinv.of_frame (createVendor_frame o body req st)
  | deleteVendor => exact hinv.of_frame (deleteVendor_frame o req st)
  | updateContact body => exact hinv.of_frame (updateContact_frame o body req st)
  | createProduct body => exact createProduct_inv o body req st hs.1 hinv
  | deleteAllProducts => exact deleteAllProducts_keeps o req st hinv h200
  | updateProduct body => exact updateProduct_inv o body req st hinv
  | deleteProduct => exact deleteProduct_keeps o req st hs.2 hinv h200
  | appendGallery file => exact appendGallery_inv o file req st hinv
  | createAnnouncement body => exact hinv.of_frame (createAnnouncement_frame o body req st)
  | deleteAllAnnouncements => exact hinv.of_frame (deleteAllAnnouncements_frame o req st)
  | updateAnnouncement body => exact hinv.of_frame (updateAnnouncement_frame o body req st)
  | deleteAnnouncement => exact hinv.of_frame (deleteAnnouncement_frame o req st)
  | createRequest body => exact hinv.of_frame (createRequest_frame o body req st)
  | deleteAllRequests => exact hinv.of_frame (deleteAllRequests_frame o req st)
  | updateRequest body => exact hinv.of_frame (updateRequest_frame o body req st)
  | deleteRequest => exact hinv.of_frame (deleteRequest_frame o req st)

/-- A served request whose path spells its ids as the store prints them keeps the invariant
when it is answered with 200. -/
theorem serve_keeps (o : Oracle) (a : Action) (req : Req) (st : State)
    (hs : SameSpelling req) : Keeps st (serve o a req st) := by
  unfold serve guarded
  split
  · exact handler_keeps o a req st hs
  · exact fun hinv _ => hinv

/-- The parent-child invariant holds in every state reached by requests answered with 200
whose paths spell the vendor id and the product id as the store prints them. -/
theorem reachable_inv {st : State} (h : ReachableSameSpelling st) : Inv st := by
  induction h with
  | empty =>
    refine ⟨?_, ?_⟩
    · unfold UniqueProductIds; exact List.nodup_nil
    · intro v hv; cases hv
  | step o a req st hs _ h200 ih => exact serve_keeps o a req st hs ih h200

/-! ## Theorems: the products lists -/

/-- C10 (the code departs from it): from empty stores, the admin creates vendor `v1`, the
owner of `v1` creates product `p1`, then sends delete product on the path
`/vendor/v1/products/P1`; the three requests are answered with 200.  In the state reached
the Product collection is empty and the products list of `v1` still holds `p1`: an id in a
products list that is the `_id` of no stored product. -/
theorem C10_listed_id_without_product :
    Reachable afterUpperDelete ∧
    (serve {} .deleteProduct (productReq "P1") afterTwoRequests).1
      = ⟨200, .message "product deleted"⟩ ∧
    afterTwoRequests.products.map (fun p => (p._id, p.vendor_id)) = [("p1", "v1")] ∧
    afterUpperDelete.products = [] ∧
    afterUpperDelete.vendors.map (fun v => (v._id, v.products)) = [("v1", ["p1"])] ∧
    ¬ ProductsListed afterUpperDelete ∧
    ¬ (∀ v ∈ afterUpperDelete.vendors, ∀ x ∈ v.products,
      ∃ p ∈ afterUpperDelete.products, p._id = x ∧ p.vendor_id = v._id) := by
  refine ⟨?_, by decide, by decide, by decide, by decide, by decide, by decide⟩
  exact Reachable.step _ _ _ _ (Reachable.step _ _ _ _
    (Reachable.step _ _ _ _ Reachable.empty (by decide)) (by decide)) (by decide)

/-! ## Theorems: tokens and authentication -/

/-- C18: a request that carries no token (no value, or the empty string) in the body, the
query string and the `x-access-token` header is not rejected by the token middleware:
whatever `jwt.verify` would do, `req.decoded` becomes `role: 'guest'` without id and `next`
is called. -/
theorem C18_no_token_is_guest (o : Oracle) (t : TokenSources)
    (hb : truthy t.body = false) (hq : truthy t.query = false)
    (hh : truthy t.header = false) :
    verifyToken o t = .next { id := none, role := "guest" } := by
  have hp : truthy (pickToken t) = false := by
    unfold pickToken jsOr
    rw [hb]
    simp only [Bool.false_eq_true, if_false]
    rw [hq]
    simp only [Bool.false_eq_true, if_false]
    exact hh
  unfold verifyToken
  rw [hp]
  rfl

/-- Witness of C18: no token at all, with a `jwt.verify` that accepts every string. -/
theorem C18_no_token_is_guest_witness :
    verifyToken { jwtVerify := fun _ => some { id := some "v1", role := "admin" } } {}
      = .next { id := none, role := "guest" } :=
  C18_no_token_is_guest { jwtVerify := fun _ => some { id := some "v1", role := "admin" } } {}
    rfl rfl rfl

/-- C19: the token handed to `jwt.verify` is the first one present in the order body,
query, header, where present means a value that `||` takes as true, i.e. a non-empty
string: a body token is verified whatever the query and the header hold, a query token is
verified when the body has none, and the header token when neither has one. -/
theorem C19_token_precedence (o : Oracle) (t : TokenSources) :
    (∀ b, t.body = some b → b ≠ "" →
      pickToken t = some b ∧
      verifyToken o t = (match o.jwtVerify b with
        | none => .respond ⟨403, .message "bad token"⟩
        | some decoded => .next decoded)) ∧
    (∀ q, truthy t.body = false → t.query = some q → q ≠ "" →
      pickToken t = some q ∧
      verifyToken o t = (match o.jwtVerify q with
        | none => .respond ⟨403, .message "bad token"⟩
        | some decoded => .next decoded)) ∧
    (∀ h, truthy t.body = false → truthy t.query = false → t.header = some h → h ≠ "" →
      pickToken t = some h ∧
      verifyToken o t = (match o.jwtVerify h with
        | none => .respond ⟨403, .message "bad token"⟩
        | some decoded => .next decoded)) := by
  have htr : ∀ x : String, x ≠ "" → truthy (some x) = true := by
    intro x hx
    simp [truthy, hx]
  have hver : ∀ x : String, x ≠ "" → pickToken t = some x →
      verifyToken o t = (match o.jwtVerify x with
        | none => .respond ⟨403, .message "bad token"⟩
        | some decoded => .next decoded) := by
    intro x hx hp
    unfold verifyToken
    rw [hp, if_pos (htr x hx)]
    rfl
  refine ⟨?_, ?_, ?_⟩
  · intro b hb hne
    have hp : pickToken t = some b := by
      unfold pickToken jsOr
      rw [hb, if_pos (htr b hne), if_pos (htr b hne)]
    exact ⟨hp, hver b hne hp⟩
  · intro q hbody hq hne
    have hp : pickToken t = some q := by
      unfold pickToken jsOr
      rw [hbody, hq]
      simp only [Bool.false_eq_true, if_false]
      rw [if_pos (htr q hne)]
    exact ⟨hp, hver q hne hp⟩
  · intro h hbody hquery hh hne
    have hp : pickToken t = some h := by
      unfold pickToken jsOr
      rw [hbody]
      simp only [Bool.false_eq_true, if_false]
      rw [hquery]
      simp only [Bool.false_eq_true, if_false]
      exact hh
    exact ⟨hp, hver h hne hp⟩

/-- Witness of C19: three different tokens, `jwt.verify` decodes the token as the id. -/
theorem C19_token_precedence_witness :
    pickToken { body := some "tb", query := some "tq", header := some "th" } = some "tb" ∧
    pickToken { body := none, query := some "tq", header := some "th" } = some "tq" ∧
    verifyToken { jwtVerify := fun s => some { id := some s, role := "user" } }
        { body := some "tb", query := some "tq", header := some "th" }
      = .next { id := some "tb", role := "user" } :=
  ⟨((C19_token_precedence {} { body := some "tb", query := some "tq", header := some "th" }).1
      "tb" rfl (by decide)).1,
   ((C19_token_precedence {} { body := none, query := some "tq", header := some "th" }).2.1
      "tq" rfl rfl (by decide)).1,
   ((C19_token_precedence { jwtVerify := fun s => some { id := some s, role := "user" } }
      { body := some "tb", query := some "tq", header := some "th" }).1
      "tb" rfl (by decide)).2⟩

/-- C20: for a request that passes validation, the answer of authenticate when no vendor
has the username and the answer when the vendor exists and `bcrypt.compare` reports no
match are the same response: status 403 with the message `wrong username or password`;
the stores are not changed in either case. -/
theorem C20_same_answer_unknown_user_wrong_password (o1 o2 : Oracle) (body : Credentials)
    (st1 st2 : State) (vendor : Vendor)
    (hval1 : o1.validationErrors = false) (hfind1 : o1.vendorFindErr = false)
    (hval2 : o2.validationErrors = false) (hfind2 : o2.vendorFindErr = false)
    (hnone : st1.vendors.find? (fun v => v.account.username = body.username) = none)
    (hsome : st2.vendors.find? (fun v => v.account.username = body.username) = some vendor)
    (hcmp : o2.bcryptCompare body.password vendor.account.password = some false) :
    authenticate o1 body st1 = (⟨403, .message "wrong username or password"⟩, st1) ∧
    authenticate o2 body st2 = (⟨403, .message "wrong username or password"⟩, st2) ∧
    (authenticate o1 body st1).1 = (authenticate o2 body st2).1 := by
  have h1 : authenticate o1 body st1 = (⟨403, .message "wrong username or password"⟩, st1) := by
    simp [authenticate, hval1, hfind1, hnone, wrongCredentials]
  have h2 : authenticate o2 body st2 = (⟨403, .message "wrong username or password"⟩, st2) := by
    simp [authenticate, hval2, hfind2, hsome, hcmp, wrongCredentials]
  exact ⟨h1, h2, by rw [h1, h2]⟩

/-- Witness of C20: nobody is called `ghost` in `sampleState`, and `shop1` exists but
`nopass` is not its password. -/
theorem C20_same_answer_unknown_user_wrong_password_witness :
    (authenticate {} ⟨"shop1", "nopass"⟩ {}).1 = (authenticate {} ⟨"shop1", "nopass"⟩ sampleState).1 :=
  (C20_same_answer_unknown_user_wrong_password {} {} ⟨"shop1", "nopass"⟩ {} sampleState
    sampleVendor rfl rfl rfl rfl (by decide) (by decide) (by decide)).2.2

/-! ## Lemmas on paths -/

theorem intercalate_go_data (acc : String) (l : List String) :
    (String.intercalate.go acc "/" l).data = acc.data ++ tailChars (l.map (fun s => s.data)) := by
  induction l generalizing acc with
  | nil => simp [String.intercalate.go, tailChars]
  | cons a l ih =>
    simp only [String.intercalate.go, ih, String.data_append, List.map_cons, tailChars]
    simp

theorem joinPath_data (segs : List String) :
    (joinPath segs).data = joinChars (segs.map (fun s => s.data)) := by
  cases segs with
  | nil => rfl
  | cons a l =>
    simp only [joinPath, String.intercalate, intercalate_go_data, List.map_cons, joinChars]

theorem splitOnSlash_ne_nil (cs : List Char) : splitOnSlash cs ≠ [] := by
  cases cs with
  | nil => simp [splitOnSlash]
  | cons c cs =>
    unfold splitOnSlash
    split
    · simp
    · split <;> simp

theorem joinChars_splitOnSlash (cs : List Char) : joinChars (splitOnSlash cs) = cs := by
  induction cs with
  | nil => simp [splitOnSlash, joinChars, tailChars]
  | cons c cs ih =>
    unfold splitOnSlash
    split
    · rename_i h
      exact absurd h (splitOnSlash_ne_nil cs)
    · rename_i seg rest h
      rw [h] at ih
      split
      · rename_i hc
        simp only [joinChars, tailChars, List.nil_append] at ih ⊢
        simp [hc, ih]
      · simp only [joinChars, List.cons_append] at ih ⊢
        rw [ih]

theorem splitPath_data (p : String) :
    (splitPath p).map (fun s => s.data) = splitOnSlash p.data := by
  simp [splitPath, List.map_map, Function.comp_def]

/-- Joining the segments of a path gives the path back. -/
theorem joinPath_splitPath (p : String) : joinPath (splitPath p) = p := by
  apply String.ext
  rw [joinPath_data, splitPath_data, joinChars_splitOnSlash]

theorem tailChars_shape (l : List (List Char)) :
    tailChars l = [] ∨ ∃ r, tailChars l = '/' :: r := by
  cases l with
  | nil => exact Or.inl rfl
  | cons a l => exact Or.inr ⟨_, rfl⟩

theorem joinChars_append (l1 l2 : List (List Char)) (h : l1 ≠ []) :
    joinChars (l1 ++ l2) = joinChars l1 ++ tailChars l2 := by
  cases l1 with
  | nil => exact absurd rfl h
  | cons a l1 =>
    simp only [List.cons_append, joinChars, List.append_assoc]
    congr 1
    induction l1 with
    | nil => rfl
    | cons b l1 ih => simp [tailChars, ih]

/-- Every directory that `mkdirsSync p` may create is `p` or a directory above `p`. -/
theorem ancestors_extends {p q : String} (h : q ∈ ancestors p) : Extends q.data p.data := by
  unfold ancestors at h
  rw [List.mem_filter, List.mem_map] at h
  obtain ⟨⟨l1, hl1, hq⟩, hne⟩ := h
  rw [List.mem_inits] at hl1
  obtain ⟨l2, hl⟩ := hl1
  have hl1ne : l1 ≠ [] := by
    intro h0
    subst h0
    rw [← hq] at hne
    simp [joinPath, String.intercalate] at hne
  have hp : p.data = joinChars ((l1 ++ l2).map (fun s => s.data)) := by
    rw [hl, splitPath_data, joinChars_splitOnSlash]
  rw [List.map_append, joinChars_append _ _ (by simpa using hl1ne), ← joinPath_data, hq] at hp
  exact ⟨_, hp, tailChars_shape _⟩

/-- The path itself is among the directories that `mkdirsSync p` ensures. -/
theorem self_mem_ancestors {p : String} (h : p ≠ "") : p ∈ ancestors p := by
  unfold ancestors
  rw [List.mem_filter, List.mem_map]
  refine ⟨⟨splitPath p, ?_, joinPath_splitPath p⟩, by simpa using h⟩
  rw [List.mem_inits]

/-- The directory exists after `mkdirsSync`. -/
theorem mem_mkdirsSync {p : String} (files : List String) (h : p ≠ "") :
    p ∈ mkdirsSync p files := by
  unfold mkdirsSync
  rw [List.mem_append, List.mem_filter]
  by_cases hp : p ∈ files
  · exact Or.inl hp
  · exact Or.inr ⟨self_mem_ancestors h, by simpa using hp⟩

/-- What was there before `mkdirsSync` is still there. -/
theorem mem_mkdirsSync_of_mem {p q : String} {files : List String} (h : q ∈ files) :
    q ∈ mkdirsSync p files := by
  unfold mkdirsSync
  exact List.mem_append_left _ h

theorem Extends.antisymm {a b : List Char} (h1 : Extends a b) (h2 : Extends b a) : a = b := by
  obtain ⟨t1, ht1, -⟩ := h1
  obtain ⟨t2, ht2, -⟩ := h2
  have hlen := congrArg List.length ht2
  rw [ht1] at hlen
  simp only [List.length_append] at hlen
  have : t1 = [] := List.eq_nil_of_length_eq_zero (by omega)
  rw [ht1, this, List.append_nil]

theorem noSlash_prefix_eq {a b t r : List Char} (ha : '/' ∉ a) (hb : '/' ∉ b)
    (h : a ++ t = b ++ '/' :: r) (ht : t = [] ∨ ∃ r1, t = '/' :: r1) : a = b := by
  induction a generalizing b with
  | nil =>
    cases b with
    | nil => rfl
    | cons y b =>
      rcases ht with h0 | ⟨r1, h1⟩
      · rw [h0] at h; simp at h
      · rw [h1] at h
        simp only [List.nil_append, List.cons_append, List.cons.injEq] at h
        exact absurd (h.1 ▸ List.mem_cons_self _ _) hb
  | cons x a ih =>
    cases b with
    | nil =>
      simp only [List.cons_append, List.nil_append, List.cons.injEq] at h
      exact absurd (h.1 ▸ List.mem_cons_self _ _) ha
    | cons y b =>
      simp only [List.cons_append, List.cons.injEq] at h
      rw [h.1, ih (fun hm => ha (List.mem_cons_of_mem _ hm))
        (fun hm => hb (List.mem_cons_of_mem _ hm)) h.2]

theorem vendorDir_data (W : String) :
    (vendorDir W).data = config.upload_root_dir.data ++ '/' :: W.data := by
  simp [vendorDir, String.data_append]

theorem kindDir_data (V kind : String) :
    (kindDir V kind).data = config.upload_root_dir.data ++ '/' :: (V.data ++ '/' :: kind.data) := by
  simp [kindDir, String.data_append]

theorem kindDir_ne_empty (V kind : String) : kindDir V kind ≠ "" := by
  intro h
  have := congrArg String.data h
  rw [kindDir_data] at this
  simp at this

theorem itemDir_ne_empty (V kind item : String) : itemDir V kind item ≠ "" := by
  intro h
  have := congrArg String.data h
  simp [itemDir, String.data_append, kindDir_data] at this

/-! ## Theorems: create request, gallery size, delete vendor -/

/-- C11 (the code departs from it): in `shopState` vendor `v1` exists, product `p9` is not
stored and product `p2` belongs to vendor `v2`; create request on `v1` for `p9` and for
`p2` is answered with 200 and the new id, the request is stored and its id is pushed on the
requests list of `v1`.  The test `!vendor_product` is made on the array `Product.find`
returns, so no request is ever answered with 404 `product not found`. -/
theorem C11_create_request_ignores_product_check :
    shopState.findVendor "v1" = some shopVendor1 ∧
    (∀ q ∈ shopState.products, ¬ (q._id = "p9" ∧ q.vendor_id = "v1")) ∧
    (∀ q ∈ shopState.products, ¬ (q._id = "p2" ∧ q.vendor_id = "v1")) ∧
    (serve { newId := "r1" } (.createRequest (requestBodyFor "p9")) guestReq shopState).1
      = ⟨200, .ident "r1"⟩ ∧
    (serve { newId := "r1" } (.createRequest (requestBodyFor "p9")) guestReq
        shopState).2.requests.map (fun r => (r._id, r.vendor_id, r.product))
      = [("r1", "v1", "p9")] ∧
    ((serve { newId := "r1" } (.createRequest (requestBodyFor "p9")) guestReq
        shopState).2.findVendor "v1").map (fun v => v.requests) = some ["r1"] ∧
    (serve { newId := "r1" } (.createRequest (requestBodyFor "p2")) guestReq shopState).1
      = ⟨200, .ident "r1"⟩ ∧
    (∀ (o : Oracle) (body : RequestBody) (req : Req) (st : State),
      (createRequest o body req st).1 ≠ ⟨404, .message "product not found"⟩) := by
  refine ⟨by decide, by decide, by decide, by decide, by decide, by decide, by decide, ?_⟩
  intro o body req st
  unfold createRequest
  dsimp only
  repeat' split
  all_goals first
    | (intro h; simp at h; done)
    | (intro h; simp [notArray] at *)

/-- C13 (the code departs from it): the state `sixGalleryState` is reached from empty
stores by two requests answered with 200, create vendor and create product, and its
product `p1` holds six gallery entries, more than `max_product_image_gallery_size`. -/
theorem C13_created_product_exceeds_gallery_max :
    Reachable sixGalleryState ∧
    sixGalleryState.products.map (fun p => (p._id, p.gallery.length)) = [("p1", 6)] ∧
    config.max_product_image_gallery_size = 5 := by
  refine ⟨?_, by decide, rfl⟩
  exact Reachable.step _ _ _ _ (Reachable.step _ _ _ _ Reachable.empty (by decide)) (by decide)

/-- The result of `deleteVendor` when no call reports an error and the vendor exists. -/
theorem deleteVendor_ok (o : Oracle) (req : Req) (st : State) (vendor : Vendor)
    (hval : o.validationErrors = false) (hrem : o.vendorRemoveErr = false)
    (hfs : o.removeSyncThrows (vendorDir vendor._id) = false)
    (hv : st.findVendor (req.paramD "vendor_id") = some vendor) :
    deleteVendor o req st =
      (⟨200, .message "vendor deleted"⟩,
        { st with
          vendors := st.vendors.filter (fun w => w._id ≠ vendor._id)
          files := removeSync (vendorDir vendor._id) st.files }) := by
  unfold deleteVendor
  simp only [hval, hrem, hv]
  simp [hfs]

/-- C14, as stated, fails: in `shopState` the admin deletes vendor `v1` with answer 200
`vendor deleted`, and product `p1`, whose `vendor_id` is `v1`, is still stored. -/
theorem C14_counterexample_children_survive :
    (serve {} .deleteVendor adminReqV1 shopState).1 = ⟨200, .message "vendor deleted"⟩ ∧
    (serve {} .deleteVendor adminReqV1 shopState).2.findVendor "v1" = none ∧
    ((serve {} .deleteVendor adminReqV1 shopState).2.findProduct "p1").map
      (fun p => p.vendor_id) = some "v1" := by
  decide

/-- C14 amended: after a successful delete vendor `V` no Vendor with `_id` `V` is stored
and nothing exists at or beneath `upload_root/V`; the Product, Announcement and Request
collections are as they were, so the children of `V` stay stored.  `V` is the `_id` of the
vendor found, which is the vendor id of the path as the store reads it. -/
theorem C14_delete_vendor (o : Oracle) (req : Req) (st : State) (vendor : Vendor)
    (hval : o.validationErrors = false) (hrem : o.vendorRemoveErr = false)
    (hfs : o.removeSyncThrows (vendorDir vendor._id) = false)
    (hv : st.findVendor (req.paramD "vendor_id") = some vendor) :
    (deleteVendor o req st).1 = ⟨200, .message "vendor deleted"⟩ ∧
    (deleteVendor o req st).2.findVendor (req.paramD "vendor_id") = none ∧
    (∀ w ∈ (deleteVendor o req st).2.vendors, w._id ≠ vendor._id) ∧
    (∀ q ∈ (deleteVendor o req st).2.files, isUnder (vendorDir vendor._id) q = false) ∧
    (deleteVendor o req st).2.products = st.products ∧
    (deleteVendor o req st).2.announcements = st.announcements ∧
    (deleteVendor o req st).2.requests = st.requests := by
  have hid : vendor._id = castId (req.paramD "vendor_id") := (findVendor_some hv).2
  rw [deleteVendor_ok o req st vendor hval hrem hfs hv]
  have hgone : ∀ w ∈ st.vendors.filter (fun w => w._id ≠ vendor._id),
      w._id ≠ vendor._id := by
    intro w hw
    simpa using (List.mem_filter.mp hw).2
  refine ⟨rfl, ?_, hgone, removeSync_gone _ _, rfl, rfl, rfl⟩
  unfold State.findVendor
  rw [List.find?_eq_none]
  intro w hw
  have := hgone w hw
  rw [hid] at this
  simpa using this

/-- Witness of C14 amended: the admin deletes vendor `v1` of `shopState`. -/
theorem C14_delete_vendor_witness :
    (deleteVendor {} adminReqV1 shopState).2.findVendor "v1" = none ∧
    (deleteVendor {} adminReqV1 shopState).2.products = shopState.products :=
  have h := C14_delete_vendor {} adminReqV1 shopState shopVendor1 rfl rfl rfl (by decide)
  ⟨h.2.1, h.2.2.2.2.1⟩

/-! ## Theorems: creating and updating a product -/

theorem products_after_create {o : Oracle} {d : VendorDoc} {p : Product}
    {st st1 st2 st3 : State} {v1 : Vendor} (hins : insertProduct o p st = some st1)
    (hsave : saveVendor o d st1 = some (v1, st2)) (hp3 : st3.products = st2.products) :
    st3.products = st.products ++ [p] := by
  rw [hp3, (saveVendor_some hsave).1, (insertProduct_some hins).2.1]

/-- The Product collection after `createProduct`, whatever the outcome: as before, or with
the product built from the request appended. -/
theorem createProduct_products (o : Oracle) (body : ProductBody) (req : Req) (st : State) :
    (createProduct o body req st).2.products = st.products ∨
    (createProduct o body req st).2.products = st.products ++ [createdProduct o body req] := by
  unfold createProduct createdProduct
  dsimp only
  repeat' split
  all_goals first
    | exact Or.inl rfl
    | exact Or.inr (insertProduct_some (by assumption)).2.1
    | exact Or.inr (products_after_create (by assumption) (by assumption) (by rfl))

/-- An answer 200 of `createProduct` names the product built from the request, and that
product was appended to the collection. -/
theorem createProduct_200 (o : Oracle) (body : ProductBody) (req : Req) (st : State) :
    (createProduct o body req st).1.status = 200 →
      (createProduct o body req st).1.body = .ident (createdProduct o body req)._id ∧
      (createProduct o body req st).2.products = st.products ++ [createdProduct o body req] := by
  unfold createProduct createdProduct
  dsimp only
  repeat' split
  all_goals first
    | (intro h; simp at h; done)
    | exact fun _ => ⟨rfl, products_after_create (by assumption) (by assumption) (by rfl)⟩

/-- Writing back a loaded product with the same `_id` and `vendor_id` leaves the `_id` and
`vendor_id` of every stored product as they were. -/
theorem update_pairs {o : Oracle} {p1 product : Product} {st st1 : State} {P : String}
    (hu : UniqueProductIds st) (hfind : st.findProduct P = some product)
    (h : updateStoredProduct o p1 st = some st1)
    (hid : p1._id = product._id) (hvid : p1.vendor_id = product.vendor_id) :
    st1.products.map (fun p => (p._id, p.vendor_id)) =
      st.products.map (fun p => (p._id, p.vendor_id)) := by
  obtain ⟨-, hp1⟩ := updateStoredProduct_some h
  obtain ⟨hpmem, -⟩ := findProduct_some hfind
  rw [hp1, List.map_map]
  apply List.map_congr_left
  intro q hq
  show ((if q._id = p1._id then p1 else q)._id, (if q._id = p1._id then p1 else q).vendor_id) = _
  by_cases hc : q._id = p1._id
  · have hqp : q = product := List.inj_on_of_nodup_map hu hq hpmem (by rw [hc, hid])
    rw [if_pos hc, hqp, hid, hvid]
  · rw [if_neg hc]

theorem updateProduct_pairs (o : Oracle) (body : ProductBody) (req : Req) (st : State)
    (hu : UniqueProductIds st) :
    (updateProduct o body req st).2.products.map (fun p => (p._id, p.vendor_id)) =
      st.products.map (fun p => (p._id, p.vendor_id)) := by
  unfold updateProduct
  dsimp only
  repeat' split
  all_goals first
    | rfl
    | exact update_pairs hu (by assumption) (by assumption) (by rfl) (by rfl)

/-- C12: whatever the body holds, also a `vendor_id` or `_id` key: every product that
create product adds to the collection has the path `vendor_id`, and an answer 200 names
such a product; update product, whatever its outcome, leaves the `_id` and the `vendor_id`
of every stored product as they were. -/
theorem C12_vendor_id_from_path (o : Oracle) (body : ProductBody) (req : Req) (st : State)
    (hu : UniqueProductIds st) :
    (createdProduct o body req).vendor_id = req.paramD "vendor_id" ∧
    (∀ p ∈ (createProduct o body req st).2.products,
      p ∈ st.products ∨ p.vendor_id = req.paramD "vendor_id") ∧
    ((createProduct o body req st).1.status = 200 →
      ∃ p ∈ (createProduct o body req st).2.products,
        (createProduct o body req st).1.body = .ident p._id ∧
        p.vendor_id = req.paramD "vendor_id") ∧
    (updateProduct o body req st).2.products.map (fun p => (p._id, p.vendor_id)) =
      st.products.map (fun p => (p._id, p.vendor_id)) := by
  refine ⟨rfl, ?_, ?_, updateProduct_pairs o body req st hu⟩
  · intro p hp
    rcases createProduct_products o body req st with h | h
    · rw [h] at hp; exact Or.inl hp
    · rw [h, List.mem_append, List.mem_singleton] at hp
      rcases hp with hp | hp
      · exact Or.inl hp
      · right; rw [hp]; rfl
  · intro h200
    obtain ⟨hb, hp⟩ := createProduct_200 o body req st h200
    exact ⟨createdProduct o body req, by rw [hp]; simp, hb, rfl⟩

/-- Witness of C12: bodies that carry `vendor_id: 'v2'`, on paths of vendor `v1`. -/
theorem C12_vendor_id_from_path_witness :
    (createProduct { newId := "p3" } { name := some "Saw", vendor_id := some "v2" }
        (productReq "p1") shopState).2.products.map (fun p => (p._id, p.vendor_id))
      = [("p1", "v1"), ("p2", "v2"), ("p3", "v1")] ∧
    (updateProduct {} { name := some "Saw", vendor_id := some "v2", _id := some "p7" }
        (productReq "p1") shopState).2.products.map (fun p => (p._id, p.vendor_id))
      = shopState.products.map (fun p => (p._id, p.vendor_id)) :=
  ⟨by decide,
    (C12_vendor_id_from_path {} { name := some "Saw", vendor_id := some "v2", _id := some "p7" }
      (productReq "p1") shopState (by decide)).2.2.2⟩

/-- Looking up the vendor that was just written back. -/
theorem findVendor_after_replace {vendors : List Vendor} {vendor v1 : Vendor} {V : String}
    (hv : vendors.find? (fun w => w._id = V) = some vendor) (hid : vendor._id = V)
    (hid1 : v1._id = V) :
    (vendors.map (fun w => if w._id = vendor._id then v1 else w)).find? (fun w => w._id = V)
      = some v1 := by
  have h := find_map_replace vendors v1 V
  rw [hid1] at h
  simp only [if_true, hv, Option.map_some'] at h
  rw [hid]
  exact h

/-- Looking up another vendor after a vendor was written back. -/
theorem findVendor_other_after_replace (vendors : List Vendor) (v1 : Vendor) {V W : String}
    (hid1 : v1._id = V) (hne : W ≠ V) :
    (vendors.map (fun w => if w._id = V then v1 else w)).find? (fun w => w._id = W)
      = vendors.find? (fun w => w._id = W) := by
  have h := find_map_replace vendors v1 W
  rw [hid1, if_neg hne] at h
  exact h

/-- The result of `createProduct` when no call reports an error, the vendor exists and the
`_id` of the new product is not taken. -/
theorem createProduct_ok (o : Oracle) (body : ProductBody) (req : Req) (st : State)
    (vendor : Vendor)
    (hval : o.validationErrors = false) (hfind : o.vendorFindErr = false)
    (hcsave : o.childSaveErr = false) (hvsave : o.vendorSaveErr = false)
    (hmk : o.mkdirsSyncThrows
      (itemDir (req.paramD "vendor_id") "products" (createdProduct o body req)._id) = false)
    (hv : st.findVendor (req.paramD "vendor_id") = some vendor)
    (hfresh : ∀ q ∈ st.products, q._id ≠ (createdProduct o body req)._id) :
    createProduct o body req st =
      (⟨200, .ident (createdProduct o body req)._id⟩,
        { st with
          products := st.products ++ [createdProduct o body req]
          vendors := st.vendors.map (fun w =>
            if w._id = vendor._id then
              { vendor with products := vendor.products ++ [(createdProduct o body req)._id] }
            else w)
          files := mkdirsSync
            (itemDir (req.paramD "vendor_id") "products" (createdProduct o body req)._id)
            st.files }) := by
  have hins : insertProduct o (createdProduct o body req) st =
      some { st with products := st.products ++ [createdProduct o body req] } := by
    unfold insertProduct
    have hany : st.products.any (fun q => decide (q._id = (createdProduct o body req)._id))
        = false := by
      rw [List.any_eq_false]
      intro q hq
      simpa using hfresh q hq
    simp [hcsave, hany]
  unfold createProduct
  simp only [hval, hfind, hv]
  change (match insertProduct o (createdProduct o body req) st with
    | none => _
    | some st1 => _) = _
  rw [hins]
  dsimp only
  rw [saveVendor_loaded o _ _ rfl (by simp [VendorDoc.isModifiedPassword]) hvsave]
  simp only [createdProduct] at hmk ⊢
  simp [hmk]

/-! ## Theorems: create product -/

/-- C15: for an existing vendor `V`, when every step of create product succeeds, the
answer is 200 with body `_id: <new id>`, a product with that `_id` and `vendor_id` `V` is
stored at the end of the collection, the products list of `V` is the previous list with the
new id appended at its end, and the directory `upload_root/V/products/<new id>` exists. -/
theorem C15_create_product_success (o : Oracle) (body : ProductBody) (req : Req) (st : State)
    (vendor : Vendor)
    (hval : o.validationErrors = false) (hfind : o.vendorFindErr = false)
    (hcsave : o.childSaveErr = false) (hvsave : o.vendorSaveErr = false)
    (hmk : o.mkdirsSyncThrows
      (itemDir (req.paramD "vendor_id") "products" (createdProduct o body req)._id) = false)
    (hv : st.findVendor (req.paramD "vendor_id") = some vendor)
    (hfresh : ∀ q ∈ st.products, q._id ≠ (createdProduct o body req)._id) :
    (createProduct o body req st).1 = ⟨200, .ident (createdProduct o body req)._id⟩ ∧
    (createdProduct o body req).vendor_id = req.paramD "vendor_id" ∧
    (createdProduct o body req)._id = body._id.getD o.newId ∧
    (createProduct o body req st).2.products = st.products ++ [createdProduct o body req] ∧
    (createProduct o body req st).2.findVendor (req.paramD "vendor_id") =
      some { vendor with products := vendor.products ++ [(createdProduct o body req)._id] } ∧
    itemDir (req.paramD "vendor_id") "products" (createdProduct o body req)._id ∈
      (createProduct o body req st).2.files := by
  have hid : vendor._id = castId (req.paramD "vendor_id") := (findVendor_some hv).2
  rw [createProduct_ok o body req st vendor hval hfind hcsave hvsave hmk hv hfresh]
  refine ⟨rfl, rfl, rfl, rfl, ?_, mem_mkdirsSync _ (itemDir_ne_empty _ _ _)⟩
  exact findVendor_after_replace hv hid hid

/-- Witness of C15: the owner of `v1` creates a product in `shopState`. -/
theorem C15_create_product_success_witness :
    (createProduct { newId := "p3" } sixGalleryBody (productReq "p1") shopState).1
      = ⟨200, .ident "p3"⟩ ∧
    ((createProduct { newId := "p3" } sixGalleryBody (productReq "p1")
        shopState).2.findVendor "v1").map (fun v => v.products) = some ["p1", "p3"] ∧
    "/usr/local/uploads/v1/products/p3" ∈
      (createProduct { newId := "p3" } sixGalleryBody (productReq "p1") shopState).2.files :=
  have h := C15_create_product_success { newId := "p3" } sixGalleryBody (productReq "p1")
    shopState shopVendor1 rfl rfl rfl rfl rfl (by decide) (by decide)
  ⟨h.1, congrArg (Option.map (fun v => v.products)) h.2.2.2.2.1, h.2.2.2.2.2⟩

/-! ## Theorems: create vendor -/

/-- Saving a new vendor when bcrypt and the store succeed and the `_id` is not taken: the
record with the hashed password is appended to the collection. -/
theorem saveVendor_new (o : Oracle) (body : Account) (st : State)
    (hsalt : o.genSaltErr = false) (hhash : o.hashErr = false)
    (hsave : o.vendorSaveErr = false)
    (hfresh : ∀ w ∈ st.vendors, w._id ≠ o.newId) :
    saveVendor o
        (VendorDoc.mk { _id := o.newId, account := body } true [VendorPath.account]) st =
      some (createdVendor o body, { st with vendors := st.vendors ++ [createdVendor o body] }) := by
  have hany : st.vendors.any (fun w => decide (w._id = o.newId)) = false := by
    rw [List.any_eq_false]
    intro w hw
    simpa using hfresh w hw
  simp [saveVendor, preSave, hsalt, hhash, hsave, hany, createdVendor,
    VendorDoc.isModifiedPassword]

/-- C17: for a create vendor request of an admin that passes validation, with an unused
username, when the record is saved: the Vendor record, with the hashed password, is stored
in every case; when `mkdirsSync` throws for `upload_root/<id>/products` the answer is 500
and no directory was made; when it throws for `upload_root/<id>/announcements` the answer
is 500 and only the first directory was made; otherwise the answer is 200 with the new id
and both directories exist. -/
theorem C17_create_vendor_then_subtrees (o : Oracle) (body : Account) (req : Req) (st : State)
    (hadmin : req.decoded.role = "admin")
    (hval : o.validationErrors = false) (hfind : o.vendorFindErr = false)
    (hname : ∀ w ∈ st.vendors, w.account.username ≠ body.username)
    (hsalt : o.genSaltErr = false) (hhash : o.hashErr = false)
    (hsave : o.vendorSaveErr = false)
    (hfresh : ∀ w ∈ st.vendors, w._id ≠ o.newId) :
    serve o (.createVendor body) req st = createVendor o body req st ∧
    (createVendor o body req st).2.vendors = st.vendors ++ [createdVendor o body] ∧
    (o.mkdirsSyncThrows (kindDir o.newId "products") = true →
      (createVendor o body req st).1 = ⟨500, .storeError⟩ ∧
      (createVendor o body req st).2.files = st.files) ∧
    (o.mkdirsSyncThrows (kindDir o.newId "products") = false →
      o.mkdirsSyncThrows (kindDir o.newId "announcements") = true →
      (createVendor o body req st).1 = ⟨500, .storeError⟩ ∧
      (createVendor o body req st).2.files = mkdirsSync (kindDir o.newId "products") st.files) ∧
    (o.mkdirsSyncThrows (kindDir o.newId "products") = false →
      o.mkdirsSyncThrows (kindDir o.newId "announcements") = false →
      (createVendor o body req st).1 = ⟨200, .ident o.newId⟩ ∧
      kindDir o.newId "products" ∈ (createVendor o body req st).2.files ∧
      kindDir o.newId "announcements" ∈ (createVendor o body req st).2.files) := by
  have hcount : (st.vendors.filter (fun w => decide (w.account.username = body.username))).length
      = 0 := by
    rw [List.length_eq_zero, List.filter_eq_nil_iff]
    intro w hw
    simpa using hname w hw
  have hserve : serve o (.createVendor body) req st = createVendor o body req st := by
    have hgate : requireRole ["admin"] req = .next := by
      unfold requireRole
      rw [if_pos (by rw [hadmin]; decide), if_neg (by rw [hadmin]; decide)]
    simp [serve, guarded, Action.roles, Action.handler, hgate]
  have hid : (createdVendor o body)._id = o.newId := rfl
  have hmain : createVendor o body req st =
      if o.mkdirsSyncThrows (kindDir o.newId "products") then
        (⟨500, .storeError⟩, { st with vendors := st.vendors ++ [createdVendor o body] })
      else if o.mkdirsSyncThrows (kindDir o.newId "announcements") then
        (⟨500, .storeError⟩,
          { st with
            vendors := st.vendors ++ [createdVendor o body]
            files := mkdirsSync (kindDir o.newId "products") st.files })
      else
        (⟨200, .ident o.newId⟩,
          { st with
            vendors := st.vendors ++ [createdVendor o body]
            files := mkdirsSync (kindDir o.newId "announcements")
              (mkdirsSync (kindDir o.newId "products") st.files) }) := by
    unfold createVendor
    simp only [hval, hfind, hcount]
    simp only [gt_iff_lt, lt_self_iff_false, if_false, Bool.false_eq_true]
    rw [saveVendor_new o body st hsalt hhash hsave hfresh]
    simp only [hid]
    rfl
  refine ⟨hserve, ?_, ?_, ?_, ?_⟩
  · rw [hmain]
    split_ifs <;> rfl
  · intro h1
    rw [hmain, if_pos h1]
    exact ⟨rfl, rfl⟩
  · intro h1 h2
    rw [hmain, h1, if_pos h2]
    exact ⟨rfl, rfl⟩
  · intro h1 h2
    rw [hmain, h1, h2]
    refine ⟨rfl, ?_, ?_⟩
    · exact mem_mkdirsSync_of_mem (mem_mkdirsSync _ (kindDir_ne_empty _ _))
    · exact mem_mkdirsSync _ (kindDir_ne_empty _ _)

/-- Witness of C17: the admin creates `shop3` in `shopState` while the file system refuses
the second directory. -/
theorem C17_create_vendor_then_subtrees_witness :
    (createVendor { newId := "v3", mkdirsSyncThrows := fun p => hasSubstr p "announcements" }
        { username := "shop3", password := "pw3", role := some "user" } adminReq shopState).1
      = ⟨500, .storeError⟩ ∧
    (createVendor { newId := "v3", mkdirsSyncThrows := fun p => hasSubstr p "announcements" }
        { username := "shop3", password := "pw3", role := some "user" } adminReq
        shopState).2.vendors.map (fun v => (v._id, v.account.password))
      = [("v1", "$2$hash1"), ("v2", "$2$hash2"), ("v3", "$2$pw3")] :=
  have h := C17_create_vendor_then_subtrees
    { newId := "v3", mkdirsSyncThrows := fun p => hasSubstr p "announcements" }
    { username := "shop3", password := "pw3", role := some "user" } adminReq shopState
    rfl rfl rfl (by decide) rfl rfl rfl (by decide)
  ⟨(h.2.2.2.1 (by decide) (by decide)).1,
    congrArg (List.map (fun v => (v._id, v.account.password))) h.2.1⟩

/-! ## Theorems: bulk clear -/

/-- The result of `deleteAllProducts` when no call reports an error and the vendor
exists. -/
theorem deleteAllProducts_ok (o : Oracle) (req : Req) (st : State) (vendor : Vendor)
    (hval : o.validationErrors = false) (hfind : o.vendorFindErr = false)
    (hrem : o.childRemoveErr = false) (hsave : o.vendorSaveErr = false)
    (hfs : o.removeSyncThrows (kindDir (req.paramD "vendor_id") "products") = false)
    (hmk : o.mkdirsSyncThrows (kindDir (req.paramD "vendor_id") "products") = false)
    (hv : st.findVendor (req.paramD "vendor_id") = some vendor) :
    deleteAllProducts o req st =
      (⟨200, .message "products empty"⟩,
        { st with
          products := st.products.filter (fun q => q.vendor_id ≠ vendor._id)
          vendors := st.vendors.map (fun w =>
            if w._id = vendor._id then { vendor with products := [] } else w)
          files := mkdirsSync (kindDir (req.paramD "vendor_id") "products")
            (removeSync (kindDir (req.paramD "vendor_id") "products") st.files) }) := by
  unfold deleteAllProducts
  simp only [hval, hfind, hrem, hv]
  rw [saveVendor_loaded o _ _ rfl (by simp [VendorDoc.isModifiedPassword]) hsave]
  simp [hfs, hmk]

/-- The result of `deleteAllAnnouncements` when no call reports an error and the vendor
exists. -/
theorem deleteAllAnnouncements_ok (o : Oracle) (req : Req) (st : State) (vendor : Vendor)
    (hval : o.validationErrors = false) (hfind : o.vendorFindErr = false)
    (hrem : o.childRemoveErr = false) (hsave : o.vendorSaveErr = false)
    (hfs : o.removeSyncThrows (kindDir (req.paramD "vendor_id") "announcements") = false)
    (hmk : o.mkdirsSyncThrows (kindDir (req.paramD "vendor_id") "announcements") = false)
    (hv : st.findVendor (req.paramD "vendor_id") = some vendor) :
    deleteAllAnnouncements o req st =
      (⟨200, .message "announcements empty"⟩,
        { st with
          announcements := st.announcements.filter (fun q => q.vendor_id ≠ vendor._id)
          vendors := st.vendors.map (fun w =>
            if w._id = vendor._id then { vendor with announcements := [] } else w)
          files := mkdirsSync (kindDir (req.paramD "vendor_id") "announcements")
            (removeSync (kindDir (req.paramD "vendor_id") "announcements") st.files) }) := by
  unfold deleteAllAnnouncements
  simp only [hval, hfind, hrem, hv]
  rw [saveVendor_loaded o _ _ rfl (by simp [VendorDoc.isModifiedPassword]) hsave]
  simp [hfs, hmk]

/-- C16 (the code departs from it): the bulk clear finds the vendor with the path id as
the store reads it, but purges and re-creates the directory named by the path id as it is
written.  For an existing vendor, when every step of delete all products succeeds, the
answer is 200, no product with the `_id` of the vendor as `vendor_id` is stored, the
products list of the vendor is empty, and the Asset Store is the one found with
`upload_root/<path id as written>/products` purged and created again; the same holds for
delete all announcements. -/
theorem C16_bulk_clear_purges_path_as_written (o : Oracle) (req : Req) (st : State)
    (vendor : Vendor)
    (hval : o.validationErrors = false) (hfind : o.vendorFindErr = false)
    (hrem : o.childRemoveErr = false) (hsave : o.vendorSaveErr = false)
    (hfs : ∀ kind, o.removeSyncThrows (kindDir (req.paramD "vendor_id") kind) = false)
    (hmk : ∀ kind, o.mkdirsSyncThrows (kindDir (req.paramD "vendor_id") kind) = false)
    (hv : st.findVendor (req.paramD "vendor_id") = some vendor) :
    ((deleteAllProducts o req st).1 = ⟨200, .message "products empty"⟩ ∧
      (∀ p ∈ (deleteAllProducts o req st).2.products, p.vendor_id ≠ vendor._id) ∧
      (deleteAllProducts o req st).2.findVendor (req.paramD "vendor_id") =
        some { vendor with products := [] } ∧
      (deleteAllProducts o req st).2.files =
        mkdirsSync (kindDir (req.paramD "vendor_id") "products")
          (removeSync (kindDir (req.paramD "vendor_id") "products") st.files)) ∧
    ((deleteAllAnnouncements o req st).1 = ⟨200, .message "announcements empty"⟩ ∧
      (∀ a ∈ (deleteAllAnnouncements o req st).2.announcements, a.vendor_id ≠ vendor._id) ∧
      (deleteAllAnnouncements o req st).2.findVendor (req.paramD "vendor_id") =
        some { vendor with announcements := [] } ∧
      (deleteAllAnnouncements o req st).2.files =
        mkdirsSync (kindDir (req.paramD "vendor_id") "announcements")
          (removeSync (kindDir (req.paramD "vendor_id") "announcements") st.files)) := by
  have hid : vendor._id = castId (req.paramD "vendor_id") := (findVendor_some hv).2
  constructor
  · rw [deleteAllProducts_ok o req st vendor hval hfind hrem hsave (hfs _) (hmk _) hv]
    refine ⟨rfl, ?_, ?_, rfl⟩
    · intro p hp
      simpa using (List.mem_filter.mp hp).2
    · exact findVendor_after_replace hv hid hid
  · rw [deleteAllAnnouncements_ok o req st vendor hval hfind hrem hsave (hfs _) (hmk _) hv]
    refine ⟨rfl, ?_, ?_, rfl⟩
    · intro a ha
      simpa using (List.mem_filter.mp ha).2
    · exact findVendor_after_replace hv hid hid

/-- Witness of C16: the admin clears the products of vendor `v1` of `shopState` on the path
`/vendor/V1/products`.  The answer is 200, the product of `v1` is removed and its list is
empty, but the directory `upload_root/v1/products` still holds the directory of `p1` and
the file in it, and the directory `upload_root/V1/products` was created. -/
theorem C16_bulk_clear_purges_path_as_written_witness :
    (Route.serve {} (.change .deleteAllProducts) adminReqUpperV1 shopState).1
      = ⟨200, .message "products empty"⟩ ∧
    (deleteAllProducts {} adminReqUpperV1 shopState).2.products.map (fun p => p._id) = ["p2"] ∧
    ((deleteAllProducts {} adminReqUpperV1 shopState).2.findVendor "v1").map
      (fun v => v.products) = some [] ∧
    "/usr/local/uploads/v1/products/p1" ∈
      (deleteAllProducts {} adminReqUpperV1 shopState).2.files ∧
    "/usr/local/uploads/v1/products/p1/x.jpg" ∈
      (deleteAllProducts {} adminReqUpperV1 shopState).2.files ∧
    "/usr/local/uploads/V1/products" ∈
      (deleteAllProducts {} adminReqUpperV1 shopState).2.files :=
  have h := (C16_bulk_clear_purges_path_as_written {} adminReqUpperV1 shopState shopVendor1
    rfl rfl rfl rfl (fun _ => rfl) (fun _ => rfl) (by decide)).1
  ⟨by decide, by decide,
    congrArg (Option.map (fun v => v.products)) h.2.2.1,
    by rw [h.2.2.2]; decide,
    by rw [h.2.2.2]; decide,
    by rw [h.2.2.2]; decide⟩

/-! ## Theorems: gallery and image uploads -/

/-- Looking up an id after a product was written back. -/
theorem find_map_replace_product (l : List Product) (p : Product) (id : String) :
    (l.map (fun q => if q._id = p._id then p else q)).find? (fun q => q._id = id) =
      if id = p._id then (l.find? (fun q => q._id = id)).map (fun _ => p)
      else l.find? (fun q => q._id = id) := by
  induction l with
  | nil => simp
  | cons a l ih =>
    by_cases hid : id = p._id
    · subst hid
      simp only [if_true] at ih
      by_cases ha : a._id = p._id
      · simp [List.find?, ha]
      · simp [List.find?, ha, ih]
    · simp only [if_neg hid] at ih
      by_cases ha : a._id = p._id
      · have : ¬ p._id = id := fun h => hid h.symm
        simp [List.find?, ha, this, ih, hid]
      · by_cases ha2 : a._id = id
        · simp [List.find?, ha, ha2, hid]
        · simp [List.find?, ha, ha2, ih, hid]

/-- Looking up the product that was just written back. -/
theorem findProduct_after_replace {products : List Product} {product p1 : Product} {P : String}
    (hp : products.find? (fun q => q._id = P) = some product) (hid : p1._id = P) :
    (products.map (fun q => if q._id = p1._id then p1 else q)).find? (fun q => q._id = P)
      = some p1 := by
  have h := find_map_replace_product products p1 P
  rw [hid] at h
  simp only [if_true, hp, Option.map_some'] at h
  rw [hid]
  exact h

/-- The result of `appendGallery` when the gallery has room, the file passes the filter and
no call reports an error. -/
theorem appendGallery_ok (o : Oracle) (file : UploadFile) (req : Req) (st : State)
    (vendor : Vendor) (product : Product)
    (hval : o.validationErrors = false) (hfind : o.vendorFindErr = false)
    (hcfind : o.childFindErr = false) (hup : o.uploadErr = false)
    (hsave : o.childSaveErr = false) (hfilter : fileFilter file = true)
    (hv : st.findVendor (req.paramD "vendor_id") = some vendor)
    (hp : st.findProduct (req.paramD "product_id") = some product)
    (hroom : product.gallery.length < config.max_product_image_gallery_size) :
    appendGallery o file req st =
      (⟨200, .message "product gallery image saved"⟩,
        { st with
          products := st.products.map (fun q =>
            if q._id = product._id then
              { product with
                gallery := product.gallery ++
                  [galleryRef (req.paramD "vendor_id") (req.paramD "product_id")
                    file.originalname] }
            else q)
          files :=
            if itemDir (req.paramD "vendor_id") "products" (req.paramD "product_id") ++ "/" ++
                ("gallery-image-" ++ file.originalname) ∈ st.files then st.files
            else st.files ++
              [itemDir (req.paramD "vendor_id") "products" (req.paramD "product_id") ++ "/" ++
                ("gallery-image-" ++ file.originalname)] }) := by
  have hdest : storageDestination galleryRoutePath req =
      some (itemDir (req.paramD "vendor_id") "products" (req.paramD "product_id")) := by
    unfold storageDestination
    rw [if_pos (by decide)]
  have hname : storageFilename galleryRoutePath file = "gallery-image-" ++ file.originalname := by
    unfold storageFilename
    rw [if_pos (by decide)]
  have hnot : ¬ (product.gallery.length ≥ config.max_product_image_gallery_size) := by omega
  unfold appendGallery
  simp only [hval, hfind, hcfind, hv, hp, hnot]
  simp only [doUpload, hfilter, hup, hdest, hname, updateStoredProduct, hsave, galleryRef]
  simp

/-- C21: for a product whose gallery holds fewer than the maximum number of entries, a
successful append to gallery stores the product with the previous gallery followed by the
new AssetRef: the entries there before keep their values and positions, the new AssetRef
is the last element and the length grows by one. -/
theorem C21_append_gallery_order (o : Oracle) (file : UploadFile) (req : Req) (st : State)
    (vendor : Vendor) (product : Product)
    (hval : o.validationErrors = false) (hfind : o.vendorFindErr = false)
    (hcfind : o.childFindErr = false) (hup : o.uploadErr = false)
    (hsave : o.childSaveErr = false) (hfilter : fileFilter file = true)
    (hv : st.findVendor (req.paramD "vendor_id") = some vendor)
    (hp : st.findProduct (req.paramD "product_id") = some product)
    (hroom : product.gallery.length < config.max_product_image_gallery_size) :
    (appendGallery o file req st).1 = ⟨200, .message "product gallery image saved"⟩ ∧
    ∃ p1, (appendGallery o file req st).2.findProduct (req.paramD "product_id") = some p1 ∧
      p1.gallery = product.gallery ++
        [galleryRef (req.paramD "vendor_id") (req.paramD "product_id") file.originalname] ∧
      p1.gallery.length = product.gallery.length + 1 ∧
      p1.gallery.take product.gallery.length = product.gallery ∧
      (∀ i, i < product.gallery.length → p1.gallery[i]? = product.gallery[i]?) ∧
      p1.gallery.getLast? =
        some (galleryRef (req.paramD "vendor_id") (req.paramD "product_id")
          file.originalname) := by
  have hid : product._id = castId (req.paramD "product_id") := (findProduct_some hp).2
  rw [appendGallery_ok o file req st vendor product hval hfind hcfind hup hsave hfilter hv hp
    hroom]
  have hfound := @findProduct_after_replace st.products product
    { product with
      gallery := product.gallery ++
        [galleryRef (req.paramD "vendor_id") (req.paramD "product_id") file.originalname] }
    (castId (req.paramD "product_id")) hp hid
  refine ⟨rfl, _, hfound, rfl, ?_, ?_, ?_, ?_⟩
  · simp
  · simp
  · intro i hi
    exact List.getElem?_append_left hi
  · simp

/-- Witness of C21: the owner of `v2` appends `a.jpg` to the empty gallery of `p2`. -/
theorem C21_append_gallery_order_witness :
    (appendGallery {} ⟨"a.jpg", "image/jpeg"⟩
        { decoded := { id := some "v2", role := "user" },
          params := [("vendor_id", "v2"), ("product_id", "p2")] } shopState).1
      = ⟨200, .message "product gallery image saved"⟩ :=
  (C21_append_gallery_order {} ⟨"a.jpg", "image/jpeg"⟩
    { decoded := { id := some "v2", role := "user" },
      params := [("vendor_id", "v2"), ("product_id", "p2")] } shopState
    { _id := "v2", account := { username := "shop2", password := "$2$hash2", role := some "user" },
      products := ["p2"] }
    { _id := "p2", vendor_id := "v2" } rfl rfl rfl rfl rfl (by decide) (by decide) (by decide)
    (by decide)).1

/-- The Asset Store after the files of `gs` were purged in order. -/
theorem mem_foldl_removeSync (gs : List String) (files : List String) (q : String) :
    q ∈ gs.foldl (fun f g => removeSync (assetPath g) f) files ↔
      q ∈ files ∧ ∀ g ∈ gs, isUnder (assetPath g) q = false := by
  induction gs generalizing files with
  | nil => simp
  | cons g gs ih =>
    rw [List.foldl_cons, ih]
    unfold removeSync
    rw [List.mem_filter]
    simp only [List.mem_cons, forall_eq_or_imp, Bool.not_eq_true', and_assoc]

/-- The purge loop runs to its end when no `removeSync` throws. -/
theorem purgeGallery_ok (o : Oracle) (gs : List String) (files : List String)
    (h : ∀ g ∈ gs, o.removeSyncThrows (assetPath g) = false) :
    purgeGallery o gs files = (true, gs.foldl (fun f g => removeSync (assetPath g) f) files) := by
  induction gs generalizing files with
  | nil => rfl
  | cons g gs ih =>
    unfold purgeGallery
    rw [h g (List.mem_cons_self _ _)]
    simp only [Bool.false_eq_true, if_false, List.foldl_cons]
    exact ih _ (fun x hx => h x (List.mem_cons_of_mem _ hx))

/-- The purge loop stops at the first `removeSync` that throws. -/
theorem purgeGallery_fail (o : Oracle) (pre post : List String) (gi : String)
    (files : List String) (h : ∀ g ∈ pre, o.removeSyncThrows (assetPath g) = false)
    (hi : o.removeSyncThrows (assetPath gi) = true) :
    purgeGallery o (pre ++ gi :: post) files =
      (false, pre.foldl (fun f g => removeSync (assetPath g) f) files) := by
  induction pre generalizing files with
  | nil =>
    simp only [List.nil_append, List.foldl_nil]
    unfold purgeGallery
    rw [hi]
    rfl
  | cons g pre ih =>
    simp only [List.cons_append, List.foldl_cons]
    unfold purgeGallery
    rw [h g (List.mem_cons_self _ _)]
    simp only [Bool.false_eq_true, if_false]
    exact ih _ (fun x hx => h x (List.mem_cons_of_mem _ hx))

/-- What `removeSync` is handed need not be written as the stored paths are: a trailing
`/`, a doubled `/` and a step through `..` name the same place. -/
theorem removeSync_resolves :
    removeSync "/usr/local/uploads/" shopState.files = [] ∧
    removeSync "/usr/local/uploads//v2" shopState.files = removeSync "/usr/local/uploads/v2"
      shopState.files ∧
    removeSync "/usr/local/uploads/v1/../v2" shopState.files =
      ["/usr/local/uploads/v1/products", "/usr/local/uploads/v1/products/p1",
        "/usr/local/uploads/v1/products/p1/x.jpg"] := by
  decide

/-- C22, as stated, fails: from empty stores, vendor `v1` and its product `p1` are created
and the owner uploads `a.jpg`, `b.jpg` and `a.jpg` to the gallery; every request is
answered with 200 and the gallery holds the AssetRef of `a.jpg` in slots 0 and 2.  Clear
gallery with a file system that refuses to remove the file of slot 1 answers 500, and the
file of slot 2, an entry after the one that failed, is gone. -/
theorem C22_counterexample_later_entry_purged :
    Reachable abaUploaded ∧
    (abaUploaded.findProduct "p1").map (fun p => p.gallery) =
      some ["uploads/v1/products/p1/gallery-image-a.jpg",
        "uploads/v1/products/p1/gallery-image-b.jpg",
        "uploads/v1/products/p1/gallery-image-a.jpg"] ∧
    "/usr/local/uploads/v1/products/p1/gallery-image-a.jpg" ∈ abaUploaded.files ∧
    (Route.serve refusesB .clearGallery (productReq "p1") abaUploaded).1
      = ⟨500, .storeError⟩ ∧
    "/usr/local/uploads/v1/products/p1/gallery-image-a.jpg" ∉
      (Route.serve refusesB .clearGallery (productReq "p1") abaUploaded).2.files ∧
    "/usr/local/uploads/v1/products/p1/gallery-image-b.jpg" ∈
      (Route.serve refusesB .clearGallery (productReq "p1") abaUploaded).2.files := by
  refine ⟨?_, by decide, by decide, by decide, by decide, by decide⟩
  refine Reachable.step _ _ _ _ (Reachable.step _ _ _ _ (Reachable.step _ _ _ _
    (Reachable.step _ _ _ _ (Reachable.step _ _ _ _ Reachable.empty ?_) ?_) ?_) ?_) ?_
  all_goals decide

/-- C22 amended: clear gallery purges the files of the gallery in list order.  When the
purge of `gi` is the first that fails, the answer is 500, no purge is run for `gi..gn-1`,
and the Asset Store is the one left by the purges of `g0..gi-1`: a path is still there
exactly when it was there and lies at or beneath none of `g0..gi-1`.  So what lies at or
beneath one of `gi..gn-1` is untouched exactly when it lies at or beneath none of
`g0..gi-1`; the file of an AssetRef that stands in an earlier slot too is gone.  The stored
product, with its gallery, is unchanged.  When no purge fails and the save succeeds, the
answer is 200 and the stored gallery is empty.  The entries that are purged have no `..`
step, so that the place each of them names does not depend on the directories that
exist. -/
theorem C22_clear_gallery (o : Oracle) (req : Req) (st : State) (vendor : Vendor)
    (product : Product)
    (hval : o.validationErrors = false) (hfind : o.vendorFindErr = false)
    (hcfind : o.childFindErr = false)
    (hv : st.findVendor (req.paramD "vendor_id") = some vendor)
    (hp : st.findProduct (req.paramD "product_id") = some product) :
    (∀ (pre post : List String) (gi : String), product.gallery = pre ++ gi :: post →
      (∀ g ∈ pre, ".." ∉ splitPath g) →
      (∀ g ∈ pre, o.removeSyncThrows (assetPath g) = false) →
      o.removeSyncThrows (assetPath gi) = true →
      (clearGallery o req st).1 = ⟨500, .storeError⟩ ∧
      (clearGallery o req st).2.files =
        pre.foldl (fun f g => removeSync (assetPath g) f) st.files ∧
      (∀ q, q ∈ (clearGallery o req st).2.files ↔
        q ∈ st.files ∧ ∀ g ∈ pre, isUnder (assetPath g) q = false) ∧
      (∀ g ∈ gi :: post, ∀ q ∈ st.files, isUnder (assetPath g) q = true →
        (q ∈ (clearGallery o req st).2.files ↔ ∀ h ∈ pre, isUnder (assetPath h) q = false)) ∧
      (clearGallery o req st).2.products = st.products ∧
      (clearGallery o req st).2.findProduct (req.paramD "product_id") = some product) ∧
    ((∀ g ∈ product.gallery, ".." ∉ splitPath g) →
      (∀ g ∈ product.gallery, o.removeSyncThrows (assetPath g) = false) →
      o.childSaveErr = false →
      (clearGallery o req st).1 = ⟨200, .message "product image gallery deleted"⟩ ∧
      (clearGallery o req st).2.findProduct (req.paramD "product_id") =
        some { product with gallery := [] } ∧
      (∀ q, q ∈ (clearGallery o req st).2.files ↔
        q ∈ st.files ∧ ∀ g ∈ product.gallery, isUnder (assetPath g) q = false)) := by
  have hid : product._id = castId (req.paramD "product_id") := (findProduct_some hp).2
  constructor
  · intro pre post gi hgal _ hpre hgi
    have hpurge := purgeGallery_fail o pre post gi st.files hpre hgi
    have hres : clearGallery o req st =
        (⟨500, .storeError⟩,
          { st with files := pre.foldl (fun f g => removeSync (assetPath g) f) st.files }) := by
      unfold clearGallery
      simp only [hval, hfind, hcfind, hv, hp, hgal, hpurge]
      simp
    rw [hres]
    refine ⟨rfl, rfl, fun q => mem_foldl_removeSync pre st.files q, ?_, rfl, hp⟩
    intro g _ q hq _
    exact (mem_foldl_removeSync pre st.files q).trans ⟨fun h => h.2, fun h => ⟨hq, h⟩⟩
  · intro _ hall hsave
    have hpurge := purgeGallery_ok o product.gallery st.files hall
    have hres : clearGallery o req st =
        (⟨200, .message "product image gallery deleted"⟩,
          { st with
            files := product.gallery.foldl (fun f g => removeSync (assetPath g) f) st.files
            products := st.products.map (fun q =>
              if q._id = product._id then { product with gallery := [] } else q) }) := by
      unfold clearGallery
      simp only [hval, hfind, hcfind, hv, hp, hpurge, updateStoredProduct, hsave]
      simp
    rw [hres]
    refine ⟨rfl, ?_, fun q => mem_foldl_removeSync product.gallery st.files q⟩
    exact @findProduct_after_replace st.products product { product with gallery := [] }
      (castId (req.paramD "product_id")) hp hid

/-- Witness of C22 amended: the purge of the second of three gallery files fails. -/
theorem C22_clear_gallery_witness :
    (clearGallery refusesG1 itemReq galleryState).1 = ⟨500, .storeError⟩ ∧
    (clearGallery refusesG1 itemReq galleryState).2.files =
      ["/usr/local/uploads/g1.jpg", "/usr/local/uploads/g2.jpg",
        "/usr/local/uploads/v1/products/p1/w.jpg",
        "/usr/local/uploads/v1/announcements/a1/n.jpg"] ∧
    (clearGallery refusesG1 itemReq galleryState).2.products = galleryState.products :=
  have h := (C22_clear_gallery refusesG1 itemReq galleryState shopVendor1 galleryProduct
    rfl rfl rfl (by decide) (by decide)).1 ["uploads/g0.jpg"] ["uploads/g2.jpg"]
    "uploads/g1.jpg" rfl (by decide) (by decide) (by decide)
  ⟨h.1, h.2.1.trans (by decide), h.2.2.2.2.1⟩

/-- C23: when the image field of the product (of the announcement) found by set image
holds an AssetRef and the purge of the old file fails, the answer is 500 and the stores are
returned as they were, whatever the uploaded file and the outcome of the upload and save
calls would be: the upload step is not reached, no file is stored and the image field of
the stored record is unchanged. -/
theorem C23_set_image_purge_fails (o : Oracle) (file : UploadFile) (req : Req) (st : State)
    (vendor : Vendor)
    (hval : o.validationErrors = false) (hfind : o.vendorFindErr = false)
    (hcfind : o.childFindErr = false)
    (hv : st.findVendor (req.paramD "vendor_id") = some vendor) :
    (∀ (product : Product) (ref : String),
      st.findProduct (req.paramD "product_id") = some product →
      product.image = some ref → ref ≠ "" →
      o.removeSyncThrows (assetPath ref) = true →
      setProductImage o file req st = (⟨500, .storeError⟩, st) ∧
      (setProductImage o file req st).2.files = st.files ∧
      ((setProductImage o file req st).2.findProduct (req.paramD "product_id")).map
        (fun p => p.image) = some (some ref)) ∧
    (∀ (announcement : Announcement) (ref : String),
      st.findAnnouncement (req.paramD "announcement_id") = some announcement →
      announcement.image = some ref → ref ≠ "" →
      o.removeSyncThrows (assetPath ref) = true →
      setAnnouncementImage o file req st = (⟨500, .storeError⟩, st) ∧
      (setAnnouncementImage o file req st).2.files = st.files ∧
      ((setAnnouncementImage o file req st).2.findAnnouncement
        (req.paramD "announcement_id")).map (fun a => a.image) = some (some ref)) := by
  constructor
  · intro product ref hp himg hne hthrow
    have htr : truthy product.image = true := by
      rw [himg]
      simp [truthy, hne]
    have hres : setProductImage o file req st = (⟨500, .storeError⟩, st) := by
      unfold setProductImage
      simp only [hval, hfind, hcfind, hv, hp, htr]
      simp [himg, hthrow]
    rw [hres]
    refine ⟨rfl, rfl, ?_⟩
    show (st.findProduct (req.paramD "product_id")).map (fun p => p.image) = _
    rw [hp]
    simp [himg]
  · intro announcement ref hp himg hne hthrow
    have htr : truthy announcement.image = true := by
      rw [himg]
      simp [truthy, hne]
    have hres : setAnnouncementImage o file req st = (⟨500, .storeError⟩, st) := by
      unfold setAnnouncementImage
      simp only [hval, hfind, hcfind, hv, hp, htr]
      simp [himg, hthrow]
    rw [hres]
    refine ⟨rfl, rfl, ?_⟩
    show (st.findAnnouncement (req.paramD "announcement_id")).map (fun a => a.image) = _
    rw [hp]
    simp [himg]

/-- Witness of C23: the file system refuses to remove the old images of `galleryState`. -/
theorem C23_set_image_purge_fails_witness :
    setProductImage refusesAll ⟨"new.jpg", "image/jpeg"⟩ itemReq galleryState
      = (⟨500, .storeError⟩, galleryState) ∧
    setAnnouncementImage refusesAll ⟨"new.jpg", "image/jpeg"⟩ itemReq galleryState
      = (⟨500, .storeError⟩, galleryState) :=
  have h := C23_set_image_purge_fails refusesAll ⟨"new.jpg", "image/jpeg"⟩ itemReq galleryState
    shopVendor1 rfl rfl rfl (by decide)
  ⟨(h.1 galleryProduct "uploads/v1/products/p1/w.jpg" (by decide) rfl (by decide) rfl).1,
    (h.2 galleryAnnouncement "uploads/v1/announcements/a1/n.jpg" (by decide) rfl (by decide)
      rfl).1⟩

/-! ## Theorems: the file filter and the relative path -/

/-- C24 (the code departs from it): the filter accepts the file `photo.jpgx` with MIME
type `image/jpeg`, whose lower-cased extension `.jpgx` is neither `.jpeg` nor `.jpg`, and
the file `x.ajpeg`; the upload then stores it.  The pattern `/jpeg|jpg/` is tested anywhere
in the extension. -/
theorem C24_filter_accepts_other_extensions :
    fileFilter ⟨"photo.jpgx", "image/jpeg"⟩ = true ∧
    toLowerCase (extname "photo.jpgx") = ".jpgx" ∧
    toLowerCase (extname "photo.jpgx") ≠ ".jpg" ∧
    toLowerCase (extname "photo.jpgx") ≠ ".jpeg" ∧
    fileFilter ⟨"x.ajpeg", "image/jpeg"⟩ = true ∧
    fileFilter ⟨"photo.png", "image/png"⟩ = false ∧
    (doUpload {} productImageRoutePath ⟨"photo.jpgx", "image/jpeg"⟩ itemReq {}).map
      (fun r => r.1) = some "/usr/local/uploads/v1/products/p1/photo.jpgx" := by
  decide

/-- C28, as stated, fails: with `pathToStrip = '/usr/local'` and
`rest = 'uploads/usr/x.jpg'` the result is `uploads/x.jpg`, not `rest`: `_.difference`
drops every segment of the full path that is a segment of `pathToStrip`, also inside
`rest`; so `pathToStrip + '/' + result` is not the full path. -/
theorem C28_counterexample_drops_segments :
    getRelativePath ("/usr/local" ++ "/" ++ "uploads/usr/x.jpg") "/usr/local" = "uploads/x.jpg" ∧
    getRelativePath ("/usr/local" ++ "/" ++ "uploads/usr/x.jpg") "/usr/local"
      ≠ "uploads/usr/x.jpg" ∧
    "/usr/local" ++ "/" ++
        getRelativePath ("/usr/local" ++ "/" ++ "uploads/usr/x.jpg") "/usr/local"
      ≠ "/usr/local" ++ "/" ++ "uploads/usr/x.jpg" ∧
    getRelativePath ("/usr/local" ++ "/" ++ "a//b") "/usr/local" = "a/b" ∧
    getRelativePath ("a" ++ "/" ++ "a") "a" = "" := by
  decide

/-! ## Theorems: rejected requests change nothing -/

theorem getVendor_rejects (o : Oracle) (req : Req) (st : State) :
    Rejects st (getVendor o req st) := by
  unfold getVendor Rejects
  try dsimp only
  repeat' split
  all_goals exact fun _ => rfl

theorem getAccount_rejects (o : Oracle) (req : Req) (st : State) :
    Rejects st (getAccount o req st) := by
  unfold getAccount Rejects
  try dsimp only
  repeat' split
  all_goals exact fun _ => rfl

theorem getVendors_rejects (o : Oracle) (req : Req) (st : State) :
    Rejects st (getVendors o req st) := by
  unfold getVendors Rejects
  try dsimp only
  repeat' split
  all_goals exact fun _ => rfl

theorem getContact_rejects (o : Oracle) (req : Req) (st : State) :
    Rejects st (getContact o req st) := by
  unfold getContact Rejects
  try dsimp only
  repeat' split
  all_goals exact fun _ => rfl

theorem getProducts_rejects (o : Oracle) (req : Req) (st : State) :
    Rejects st (getProducts o req st) := by
  unfold getProducts Rejects
  try dsimp only
  repeat' split
  all_goals exact fun _ => rfl

theorem getProduct_rejects (o : Oracle) (req : Req) (st : State) :
    Rejects st (getProduct o req st) := by
  unfold getProduct Rejects
  try dsimp only
  repeat' split
  all_goals exact fun _ => rfl

theorem getAnnouncements_rejects (o : Oracle) (req : Req) (st : State) :
    Rejects st (getAnnouncements o req st) := by
  unfold getAnnouncements Rejects
  try dsimp only
  repeat' split
  all_goals exact fun _ => rfl

theorem getAnnouncement_rejects (o : Oracle) (req : Req) (st : State) :
    Rejects st (getAnnouncement o req st) := by
  unfold getAnnouncement Rejects
  try dsimp only
  repeat' split
  all_goals exact fun _ => rfl

theorem getRequests_rejects (o : Oracle) (req : Req) (st : State) :
    Rejects st (getRequests o req st) := by
  unfold getRequests Rejects
  try dsimp only
  repeat' split
  all_goals exact fun _ => rfl

theorem getRequest_rejects (o : Oracle) (req : Req) (st : State) :
    Rejects st (getRequest o req st) := by
  unfold getRequest Rejects
  try dsimp only
  repeat' split
  all_goals exact fun _ => rfl

theorem mailbox_rejects (o : Oracle) (req : Req) (st : State) :
    Rejects st (mailbox o req st) := by
  unfold mailbox Rejects
  try dsimp only
  repeat' split
  all_goals exact fun _ => rfl

theorem updateAccount_rejects (o : Oracle) (body : AccountUpdate) (req : Req) (st : State) :
    Rejects st (updateAccount o body req st) := by
  unfold updateAccount Rejects
  try dsimp only
  repeat' split
  all_goals first
    | exact fun _ => rfl
    | (intro h; simp at h)

theorem setProductImage_rejects (o : Oracle) (file : UploadFile) (req : Req) (st : State) :
    Rejects st (setProductImage o file req st) := by
  unfold setProductImage Rejects
  try dsimp only
  repeat' split
  all_goals first
    | exact fun _ => rfl
    | (intro h; simp at h)

theorem deleteProductImage_rejects (o : Oracle) (req : Req) (st : State) :
    Rejects st (deleteProductImage o req st) := by
  unfold deleteProductImage Rejects
  try dsimp only
  repeat' split
  all_goals first
    | exact fun _ => rfl
    | (intro h; simp at h)

theorem clearGallery_rejects (o : Oracle) (req : Req) (st : State) :
    Rejects st (clearGallery o req st) := by
  unfold clearGallery Rejects
  try dsimp only
  repeat' split
  all_goals first
    | exact fun _ => rfl
    | (intro h; simp at h)

theorem setAnnouncementImage_rejects (o : Oracle) (file : UploadFile) (req : Req) (st : State) :
    Rejects st (setAnnouncementImage o file req st) := by
  unfold setAnnouncementImage Rejects
  try dsimp only
  repeat' split
  all_goals first
    | exact fun _ => rfl
    | (intro h; simp at h)

theorem deleteAnnouncementImage_rejects (o : Oracle) (req : Req) (st : State) :
    Rejects st (deleteAnnouncementImage o req st) := by
  unfold deleteAnnouncementImage Rejects
  try dsimp only
  repeat' split
  all_goals first
    | exact fun _ => rfl
    | (intro h; simp at h)

theorem createVendor_rejects (o : Oracle) (body : Account) (req : Req) (st : State) :
    Rejects st (createVendor o body req st) := by
  unfold createVendor Rejects
  try dsimp only
  repeat' split
  all_goals first
    | exact fun _ => rfl
    | (intro h; simp at h)

theorem deleteVendor_rejects (o : Oracle) (req : Req) (st : State) :
    Rejects st (deleteVendor o req st) := by
  unfold deleteVendor Rejects
  try dsimp only
  repeat' split
  all_goals first
    | exact fun _ => rfl
    | (intro h; simp at h)

theorem updateContact_rejects (o : Oracle) (body : Contact) (req : Req) (st : State) :
    Rejects st (updateContact o body req st) := by
  unfold updateContact Rejects
  try dsimp only
  repeat' split
  all_goals first
    | exact fun _ => rfl
    | (intro h; simp at h)

theorem createProduct_rejects (o : Oracle) (body : ProductBody) (req : Req) (st : State) :
    Rejects st (createProduct o body req st) := by
  unfold createProduct Rejects
  try dsimp only
  repeat' split
  all_goals first
    | exact fun _ => rfl
    | (intro h; simp at h)

theorem deleteAllProducts_rejects (o : Oracle) (req : Req) (st : State) :
    Rejects st (deleteAllProducts o req st) := by
  unfold deleteAllProducts Rejects
  try dsimp only
  repeat' split
  all_goals first
    | exact fun _ => rfl
    | (intro h; simp at h)

theorem updateProduct_rejects (o : Oracle) (body : ProductBody) (req : Req) (st : State) :
    Rejects st (updateProduct o body req st) := by
  unfold updateProduct Rejects
  try dsimp only
  repeat' split
  all_goals first
    | exact fun _ => rfl
    | (intro h; simp at h)

theorem deleteProduct_rejects (o : Oracle) (req : Req) (st : State) :
    Rejects st (deleteProduct o req st) := by
  unfold deleteProduct Rejects
  try dsimp only
  repeat' split
  all_goals first
    | exact fun _ => rfl
    | (intro h; simp at h)

theorem appendGallery_rejects (o : Oracle) (file : UploadFile) (req : Req) (st : State) :
    Rejects st (appendGallery o file req st) := by
  unfold appendGallery Rejects
  try dsimp only
  repeat' split
  all_goals first
    | exact fun _ => rfl
    | (intro h; simp at h)

theorem createAnnouncement_rejects (o : Oracle) (body : AnnouncementBody) (req : Req) (st : State) :
    Rejects st (createAnnouncement o body req st) := by
  unfold createAnnouncement Rejects
  try dsimp only
  repeat' split
  all_goals first
    | exact fun _ => rfl
    | (intro h; simp at h)

theorem deleteAllAnnouncements_rejects (o : Oracle) (req : Req) (st : State) :
    Rejects st (deleteAllAnnouncements o req st) := by
  unfold deleteAllAnnouncements Rejects
  try dsimp only
  repeat' split
  all_goals first
    | exact fun _ => rfl
    | (intro h; simp at h)

theorem updateAnnouncement_rejects (o : Oracle) (body : AnnouncementBody) (req : Req) (st : State) :
    Rejects st (updateAnnouncement o body req st) := by
  unfold updateAnnouncement Rejects
  try dsimp only
  repeat' split
  all_goals first
    | exact fun _ => rfl
    | (intro h; simp at h)

theorem deleteAnnouncement_rejects (o : Oracle) (req : Req) (st : State) :
    Rejects st (deleteAnnouncement o req st) := by
  unfold deleteAnnouncement Rejects
  try dsimp only
  repeat' split
  all_goals first
    | exact fun _ => rfl
    | (intro h; simp at h)

theorem createRequest_rejects (o : Oracle) (body : RequestBody) (req : Req) (st : State) :
    Rejects st (createRequest o body req st) := by
  unfold createRequest Rejects
  try dsimp only
  repeat' split
  all_goals first
    | exact fun _ => rfl
    | (intro h; simp at h)

theorem deleteAllRequests_rejects (o : Oracle) (req : Req) (st : State) :
    Rejects st (deleteAllRequests o req st) := by
  unfold deleteAllRequests Rejects
  try dsimp only
  repeat' split
  all_goals first
    | exact fun _ => rfl
    | (intro h; simp at h)

theorem updateRequest_rejects (o : Oracle) (body : RequestBody) (req : Req) (st : State) :
    Rejects st (updateRequest o body req st) := by
  unfold updateRequest Rejects
  try dsimp only
  repeat' split
  all_goals first
    | exact fun _ => rfl
    | (intro h; simp at h)

theorem deleteRequest_rejects (o : Oracle) (req : Req) (st : State) :
    Rejects st (deleteRequest o req st) := by
  unfold deleteRequest Rejects
  try dsimp only
  repeat' split
  all_goals first
    | exact fun _ => rfl
    | (intro h; simp at h)

theorem authenticate_rejects (o : Oracle) (body : Credentials) (st : State) :
    Rejects st (authenticate o body st) := by
  unfold authenticate Rejects
  try dsimp only
  repeat' split
  all_goals exact fun _ => rfl

/-- Every handler of an `Action` returns the stores it found when it rejects. -/
theorem action_rejects (o : Oracle) (a : Action) (req : Req) (st : State) :
    Rejects st (a.handler o req st) := by
  cases a with
  | createVendor body => exact createVendor_rejects o body req st
  | deleteVendor => exact deleteVendor_rejects o req st
  | updateContact body => exact updateContact_rejects o body req st
  | createProduct body => exact createProduct_rejects o body req st
  | deleteAllProducts => exact deleteAllProducts_rejects o req st
  | updateProduct body => exact updateProduct_rejects o body req st
  | deleteProduct => exact deleteProduct_rejects o req st
  | appendGallery file => exact appendGallery_rejects o file req st
  | createAnnouncement body => exact createAnnouncement_rejects o body req st
  | deleteAllAnnouncements => exact deleteAllAnnouncements_rejects o req st
  | updateAnnouncement body => exact updateAnnouncement_rejects o body req st
  | deleteAnnouncement => exact deleteAnnouncement_rejects o req st
  | createRequest body => exact createRequest_rejects o body req st
  | deleteAllRequests => exact deleteAllRequests_rejects o req st
  | updateRequest body => exact updateRequest_rejects o body req st
  | deleteRequest => exact deleteRequest_rejects o req st

/-- Every handler of the router returns the stores it found when it rejects. -/
theorem handler_rejects (o : Oracle) (r : Route) (req : Req) (st : State) :
    Rejects st (r.handler o req st) := by
  cases r with
  | index => exact fun _ => rfl
  | authenticate body => exact authenticate_rejects o body st
  | getVendors => exact getVendors_rejects o req st
  | getVendor => exact getVendor_rejects o req st
  | getAccount => exact getAccount_rejects o req st
  | updateAccount body => exact updateAccount_rejects o body req st
  | getContact => exact getContact_rejects o req st
  | getProducts => exact getProducts_rejects o req st
  | getProduct => exact getProduct_rejects o req st
  | setProductImage file => exact setProductImage_rejects o file req st
  | deleteProductImage => exact deleteProductImage_rejects o req st
  | clearGallery => exact clearGallery_rejects o req st
  | getAnnouncements => exact getAnnouncements_rejects o req st
  | getAnnouncement => exact getAnnouncement_rejects o req st
  | setAnnouncementImage file => exact setAnnouncementImage_rejects o file req st
  | deleteAnnouncementImage => exact deleteAnnouncementImage_rejects o req st
  | getRequests => exact getRequests_rejects o req st
  | getRequest => exact getRequest_rejects o req st
  | mailbox => exact mailbox_rejects o req st
  | change a => exact action_rejects o a req st

/-- C25: for every route of the router and every request, with or without the role gate,
an answer with status 400, 403 or 404 comes with the Resource Store and the Asset Store
exactly as they were before the request; in particular delete vendor on a vendor that is
not stored answers 404 `vendor not found` and returns the stores, the Asset Store
included, untouched. -/
theorem C25_rejected_requests_change_nothing (o : Oracle) (r : Route) (req : Req)
    (st : State) :
    ((r.serve o req st).1.status = 400 ∨ (r.serve o req st).1.status = 403 ∨
        (r.serve o req st).1.status = 404 → (r.serve o req st).2 = st) ∧
    ((r.handler o req st).1.status = 400 ∨ (r.handler o req st).1.status = 403 ∨
        (r.handler o req st).1.status = 404 → (r.handler o req st).2 = st) ∧
    (o.validationErrors = false → o.vendorRemoveErr = false →
      st.findVendor (req.paramD "vendor_id") = none →
      deleteVendor o req st = (⟨404, .message "vendor not found"⟩, st)) := by
  refine ⟨?_, handler_rejects o r req st, ?_⟩
  · unfold Route.serve guarded
    split
    · exact handler_rejects o r req st
    · split
      · exact handler_rejects o r req st
      · exact fun _ => rfl
  · intro hval hrem hnone
    simp [deleteVendor, hval, hrem, hnone]

/-- Witness of C25: delete vendor on `v9`, which `shopState` does not hold, while the file
system would refuse every removal. -/
theorem C25_rejected_requests_change_nothing_witness :
    (Route.serve refusesAll (.change .deleteVendor)
        { decoded := { id := some "a0", role := "admin" }, params := [("vendor_id", "v9")] }
        shopState).1.status = 404 ∧
    (Route.serve refusesAll (.change .deleteVendor)
        { decoded := { id := some "a0", role := "admin" }, params := [("vendor_id", "v9")] }
        shopState).2 = shopState :=
  ⟨by decide,
    (C25_rejected_requests_change_nothing refusesAll (.change .deleteVendor)
      { decoded := { id := some "a0", role := "admin" }, params := [("vendor_id", "v9")] }
      shopState).1 (Or.inr (Or.inr (by decide)))⟩


/-! ## Theorems: update account -/

/-- What a successful save of a loaded vendor writes: the document, possibly with the
password hashed, in place of the records with its `_id`. -/
theorem saveVendor_loaded_some {o : Oracle} {d : VendorDoc} {st st1 : State} {v1 : Vendor}
    (hnew : d.isNew = false) (h : saveVendor o d st = some (v1, st1)) :
    v1._id = d.doc._id ∧ v1.account.username = d.doc.account.username ∧
    v1.account.role = d.doc.account.role ∧
    st1.vendors = st.vendors.map (fun w => if w._id = v1._id then v1 else w) := by
  unfold saveVendor at h
  cases hpre : preSave o d with
  | none => simp [hpre] at h
  | some d1 =>
    have hd1 : d1.doc._id = d.doc._id ∧ d1.doc.account.username = d.doc.account.username ∧
        d1.doc.account.role = d.doc.account.role ∧ d1.isNew = false := by
      unfold preSave at hpre
      split_ifs at hpre
      · simp at hpre; subst hpre; exact ⟨rfl, rfl, rfl, hnew⟩
      · simp at hpre; subst hpre; exact ⟨rfl, rfl, rfl, hnew⟩
    simp only [hpre] at h
    split_ifs at h with herr hnew1 hdup
    · rw [hd1.2.2.2] at hnew1
      cases hnew1
    · simp only [Option.some.injEq, Prod.mk.injEq] at h
      obtain ⟨hv, hst⟩ := h
      subst hv; subst hst
      exact ⟨hd1.1, hd1.2.1, hd1.2.2.1, rfl⟩

/-- The write-back step of `updateAccount` for a found vendor and an assigned account. -/
theorem updateAccount_save (o : Oracle) (vendor : Vendor) (account2 : Account)
    (m : List VendorPath) (st : State) (r : Response × State)
    (hr : r = (if !roleEnumOk account2 then ((⟨500, .storeError⟩ : Response), st)
      else
        match saveVendor o (VendorDoc.mk { vendor with account := account2 } false m) st with
        | none => (⟨500, .storeError⟩, st)
        | some (_, st1) => (⟨200, .message "account updated"⟩, st1))) :
    (r.2 = st ∧ r.1.status ≠ 200) ∨
    ∃ v1 : Vendor, v1._id = vendor._id ∧ v1.account.username = account2.username ∧
      v1.account.role = account2.role ∧
      r.2.vendors = st.vendors.map (fun w => if w._id = v1._id then v1 else w) := by
  subst hr
  split
  · left; exact ⟨rfl, by simp⟩
  · split
    · left; exact ⟨rfl, by simp⟩
    · rename_i v1 st1 hsave
      right
      obtain ⟨h1, h2, h3, h4⟩ := saveVendor_loaded_some rfl hsave
      exact ⟨v1, h1, h2, h3, h4⟩

/-- The two outcomes of `updateAccount`: the stores are returned as found with an answer
other than 200, or the found vendor was written back with its `_id` and username and with
the role the handler assigned. -/
theorem updateAccount_cases (o : Oracle) (body : AccountUpdate) (req : Req) (st : State) :
    ((updateAccount o body req st).2 = st ∧ (updateAccount o body req st).1.status ≠ 200) ∨
    ∃ vendor v1, st.findVendor (req.paramD "vendor_id") = some vendor ∧
      v1._id = vendor._id ∧ v1.account.username = vendor.account.username ∧
      v1.account.role =
        (if req.decoded.role = "admin" ∧ body.role.isSome then body.role
          else vendor.account.role) ∧
      (updateAccount o body req st).2.vendors =
        st.vendors.map (fun w => if w._id = v1._id then v1 else w) := by
  unfold updateAccount
  by_cases hval : o.validationErrors = true
  · left; simp [hval]
  by_cases hfind : o.vendorFindErr = true
  · left; simp [hval, hfind]
  cases hv : st.findVendor (req.paramD "vendor_id") with
  | none => left; simp [hval, hfind]
  | some vendor =>
    simp only [hval, hfind, Bool.false_eq_true, if_false]
    rcases updateAccount_save o vendor _ _ st _ rfl with h | ⟨v1, h1, h2, h3, h4⟩
    · left; exact h
    · right
      refine ⟨vendor, v1, rfl, h1, ?_, ?_, h4⟩
      · rw [h2]; split_ifs <;> rfl
      · rw [h3]; split_ifs <;> rfl

/-- Looking up an id after a vendor was written back. -/
theorem find_map_replace_vendor (l : List Vendor) (p : Vendor) (id : String) :
    (l.map (fun q => if q._id = p._id then p else q)).find? (fun q => q._id = id) =
      if id = p._id then (l.find? (fun q => q._id = id)).map (fun _ => p)
      else l.find? (fun q => q._id = id) := by
  induction l with
  | nil => simp
  | cons a l ih =>
    by_cases hid : id = p._id
    · subst hid
      simp only [if_true] at ih
      by_cases ha : a._id = p._id
      · simp [List.find?, ha]
      · simp [List.find?, ha, ih]
    · simp only [if_neg hid] at ih
      by_cases ha : a._id = p._id
      · have : ¬ p._id = id := fun h => hid h.symm
        simp [List.find?, ha, this, ih, hid]
      · by_cases ha2 : a._id = id
        · simp [List.find?, ha, ha2, hid]
        · simp [List.find?, ha, ha2, ih, hid]

/-- A field that the written-back vendor shares with the vendor that was loaded reads the
same under every id after the write. -/
theorem findVendor_field_after_replace {α : Type} (f : Vendor → α) {vs : List Vendor}
    {vendor v1 : Vendor} {pid : String} (id : String)
    (hv : vs.find? (fun q => q._id = pid) = some vendor) (hid : v1._id = vendor._id)
    (hf : f v1 = f vendor) :
    ((vs.map (fun q => if q._id = v1._id then v1 else q)).find? (fun q => q._id = id)).map f =
      (vs.find? (fun q => q._id = id)).map f := by
  rw [find_map_replace_vendor]
  split_ifs with h
  · have hpid : vendor._id = pid := by simpa using List.find?_some hv
    have : id = pid := by rw [h, hid, hpid]
    subst this
    rw [hv]
    simp [hf]
  · rfl

/-- The outcomes of update account behind its gate: the stores are returned as found with
an answer other than 200, or the found vendor was written back with its `_id` and username
and with the role the handler assigned. -/
theorem serve_updateAccount_cases (o : Oracle) (body : AccountUpdate) (req : Req)
    (st : State) :
    ((Route.serve o (.updateAccount body) req st).2 = st ∧
      (Route.serve o (.updateAccount body) req st).1.status ≠ 200) ∨
    ∃ vendor v1, st.findVendor (req.paramD "vendor_id") = some vendor ∧
      v1._id = vendor._id ∧ v1.account.username = vendor.account.username ∧
      v1.account.role =
        (if req.decoded.role = "admin" ∧ body.role.isSome then body.role
          else vendor.account.role) ∧
      (Route.serve o (.updateAccount body) req st).2.vendors =
        st.vendors.map (fun w => if w._id = v1._id then v1 else w) := by
  unfold Route.serve
  simp only [Route.roles, Route.handler]
  unfold guarded
  split
  · exact updateAccount_cases o body req st
  · rename_i r hr
    left
    refine ⟨rfl, ?_⟩
    unfold requireRole at hr
    split_ifs at hr <;> cases hr <;> simp [forbidden]

/-- C30: update account, behind its role gate, leaves the username stored under every
vendor id as it was, whoever calls and whatever the body holds; the role stored under
every id is as it was unless the decoded role is admin and the body has a role key, so in
particular for every caller with decoded role user; and when an admin whose body has a role
key is answered 200, the role stored under the path's vendor id is the role of the body. -/
theorem C30_update_account_role_and_username (o : Oracle) (body : AccountUpdate) (req : Req)
    (st : State) (id : String) :
    (((Route.serve o (.updateAccount body) req st).2.findVendor id).map
        (fun v => v.account.username) = (st.findVendor id).map (fun v => v.account.username)) ∧
    (¬ (req.decoded.role = "admin" ∧ body.role.isSome = true) →
      ((Route.serve o (.updateAccount body) req st).2.findVendor id).map
        (fun v => v.account.role) = (st.findVendor id).map (fun v => v.account.role)) ∧
    (req.decoded.role = "user" →
      ((Route.serve o (.updateAccount body) req st).2.findVendor id).map
        (fun v => v.account.role) = (st.findVendor id).map (fun v => v.account.role)) ∧
    (req.decoded.role = "admin" → body.role.isSome = true →
      (Route.serve o (.updateAccount body) req st).1.status = 200 →
      ((Route.serve o (.updateAccount body) req st).2.findVendor (req.paramD "vendor_id")).map
        (fun v => v.account.role) = some body.role) := by
  have hkeep : ¬ (req.decoded.role = "admin" ∧ body.role.isSome = true) →
      ((Route.serve o (.updateAccount body) req st).2.findVendor id).map
        (fun v => v.account.role) = (st.findVendor id).map (fun v => v.account.role) := by
    intro hno
    rcases serve_updateAccount_cases o body req st with ⟨h, _⟩ | ⟨vendor, v1, hv, h1, _, h3, h4⟩
    · rw [h]
    · rw [if_neg hno] at h3
      unfold State.findVendor at hv ⊢
      rw [h4]
      exact findVendor_field_after_replace (fun v => v.account.role) (castId id) hv h1 h3
  refine ⟨?_, hkeep, ?_, ?_⟩
  · rcases serve_updateAccount_cases o body req st with ⟨h, _⟩ | ⟨vendor, v1, hv, h1, h2, _, h4⟩
    · rw [h]
    · unfold State.findVendor at hv ⊢
      rw [h4]
      exact findVendor_field_after_replace (fun v => v.account.username) (castId id) hv h1 h2
  · intro huser
    apply hkeep
    rintro ⟨hadm, _⟩
    rw [huser] at hadm
    exact absurd hadm (by decide)
  · intro hadm hrole h200
    rcases serve_updateAccount_cases o body req st with ⟨_, h⟩ | ⟨vendor, v1, hv, h1, _, h3, h4⟩
    · exact absurd h200 h
    · rw [if_pos ⟨hadm, hrole⟩] at h3
      unfold State.findVendor at hv ⊢
      rw [h4, find_map_replace_vendor]
      have hpid : vendor._id = castId (req.paramD "vendor_id") := by
        simpa using List.find?_some hv
      rw [if_pos (by rw [h1, hpid]), hv]
      simp [h3]

/-- Witness of C30: the owner of `v1`, decoded role user, sends a body with the role key
`admin`; the request is answered 200 and the role stored under `v1` is still `user`. -/
theorem C30_update_account_role_and_username_witness :
    (Route.serve {} (.updateAccount { password := "secret2", role := some "admin" })
        ownerReq shopState).1.status = 200 ∧
    ((Route.serve {} (.updateAccount { password := "secret2", role := some "admin" })
        ownerReq shopState).2.findVendor "v1").map (fun v => v.account.role)
      = some (some "user") :=
  ⟨by decide,
    ((C30_update_account_role_and_username {}
      { password := "secret2", role := some "admin" } ownerReq shopState "v1").2.2.1
      (by decide)).trans (by decide)⟩

/-! ## Theorems: store errors -/

/-- C26: when the count of the vendors with the username of the body reports an error,
create vendor, called by an admin with a valid body, answers with status 200 and the
error as body, and leaves the stores as they were. -/
theorem C26_count_error_answers_200 (o : Oracle) (body : Account) (req : Req) (st : State)
    (hadmin : req.decoded.role = "admin") (hval : o.validationErrors = false)
    (herr : o.vendorFindErr = true) :
    serve o (.createVendor body) req st = (⟨200, .storeError⟩, st) := by
  unfold serve guarded requireRole
  simp [Action.roles, Action.handler, hadmin, createVendor, hval, herr]

/-- Witness of C26: the admin creates a vendor on empty stores while the count fails. -/
theorem C26_count_error_answers_200_witness :
    (serve countFails
      (.createVendor { username := "shop1", password := "secretpw", role := some "user" })
      adminReq {}).1.status = 200 :=
  congrArg (fun r => r.1.status)
    (C26_count_error_answers_200 countFails
      { username := "shop1", password := "secretpw", role := some "user" } adminReq {}
      rfl rfl rfl)

/-! ## Theorems: products of other vendors -/

/-- C29: update product looks the product up by the `product_id` of the path alone.  For
every request that passes the gate, with the vendor of the path and a product with the id
of the path stored and no call reporting an error, the answer is 200 and the record under
that id is overwritten with the fields of the body, whatever the `vendor_id` of the
product is. -/
theorem C29_update_product_ignores_owner (o : Oracle) (body : ProductBody) (req : Req)
    (st : State) (vendor : Vendor) (product : Product)
    (hgate : requireRole ["admin", "user"] req = .next)
    (hval : o.validationErrors = false) (hfind : o.vendorFindErr = false)
    (hcfind : o.childFindErr = false) (hsave : o.childSaveErr = false)
    (hv : st.findVendor (req.paramD "vendor_id") = some vendor)
    (hp : st.findProduct (req.paramD "product_id") = some product) :
    serve o (.updateProduct body) req st =
      (⟨200, .message "product updated"⟩,
        { st with
          products := st.products.map (fun q =>
            if q._id = product._id then product.assign body.omitted else q) }) := by
  unfold serve guarded
  simp only [Action.roles, Action.handler, hgate]
  unfold updateProduct
  simp only [hval, hfind, hcfind, hv, hp, updateStoredProduct, hsave]
  rfl

/-- Witness of C29: the caller with role user and token id `v1` sends the update on the
path `/vendor/v1/products/p2`; the product `p2` belongs to vendor `v2` and is stored
renamed. -/
theorem C29_update_product_ignores_owner_witness :
    (productReq "p2").decoded = ⟨some "v1", "user"⟩ ∧
    (shopState.findProduct "p2") = some { _id := "p2", vendor_id := "v2" } ∧
    (serve {} (.updateProduct renameBody) (productReq "p2") shopState).1.status = 200 ∧
    (serve {} (.updateProduct renameBody) (productReq "p2") shopState).2.findProduct "p2" =
      some renamedP2 :=
  ⟨by decide, by decide,
    congrArg (fun r => r.1.status)
      (C29_update_product_ignores_owner {} renameBody (productReq "p2") shopState
        { _id := "v1",
          account := { username := "shop1", password := "$2$hash1", role := some "user" },
          products := ["p1"] }
        { _id := "p2", vendor_id := "v2" } (by decide) rfl rfl rfl rfl (by decide) (by decide)),
    by decide⟩

/-! ## Theorems: AssetRefs -/

/-- Counterexample of C27: vendor `v1` is created, its owner creates product `p1` and
uploads `a.jpg` to the gallery twice; each request is answered 200, and the gallery of `p1`
holds the same AssetRef in both slots. -/
theorem C27_counterexample_same_ref_twice :
    Reachable twiceUploaded ∧
    (twiceUploaded.findProduct "p1").map (fun p => p.gallery) =
      some ["uploads/v1/products/p1/gallery-image-a.jpg",
        "uploads/v1/products/p1/gallery-image-a.jpg"] := by
  refine ⟨?_, by decide⟩
  refine Reachable.step _ _ _ _ (Reachable.step _ _ _ _
    (Reachable.step _ _ _ _ (Reachable.step _ _ _ _ Reachable.empty ?_) ?_) ?_) ?_
  all_goals decide

/-- One step of `splitOnSlash` when the split of the rest is known. -/
theorem splitOnSlash_cons (c : Char) (cs seg : List Char) (rest : List (List Char))
    (h : splitOnSlash cs = seg :: rest) :
    splitOnSlash (c :: cs) = if c = '/' then [] :: seg :: rest else (c :: seg) :: rest := by
  simp only [splitOnSlash, h]

/-- Splitting at a `/` splits the two sides. -/
theorem splitOnSlash_append_slash (a b : List Char) :
    splitOnSlash (a ++ '/' :: b) = splitOnSlash a ++ splitOnSlash b := by
  induction a with
  | nil =>
    obtain ⟨seg, rest, h⟩ := List.exists_cons_of_ne_nil (splitOnSlash_ne_nil b)
    rw [List.nil_append, splitOnSlash_cons _ _ _ _ h, h]
    rfl
  | cons c a ih =>
    obtain ⟨seg, rest, h⟩ := List.exists_cons_of_ne_nil (splitOnSlash_ne_nil a)
    rw [List.cons_append,
      splitOnSlash_cons c _ seg (rest ++ splitOnSlash b) (by rw [ih, h]; rfl),
      splitOnSlash_cons c a seg rest h]
    split_ifs <;> rfl

/-- A character list without `/` is one segment. -/
theorem splitOnSlash_noSlash (b : List Char) (h : '/' ∉ b) : splitOnSlash b = [b] := by
  induction b with
  | nil => rfl
  | cons c b ih =>
    have hc : c ≠ '/' := fun e => h (by simp [e])
    have hb : '/' ∉ b := fun e => h (List.mem_cons_of_mem _ e)
    rw [splitOnSlash_cons c b b [] (ih hb), if_neg hc]

/-- The segments of `dir/name` for a file name without `/`. -/
theorem splitPath_file (dir name : String) (hn : noSlash name) :
    splitPath (dir ++ "/" ++ name) = splitPath dir ++ [name] := by
  have hd : (dir ++ "/" ++ name).data = dir.data ++ '/' :: name.data := by
    simp [String.data_append]
  unfold splitPath
  rw [hd, splitOnSlash_append_slash, splitOnSlash_noSlash _ hn]
  simp

/-- The AssetRef of `dir/name` when `name` has no `/` and is not a segment of the root:
the segments of `dir` that `_.difference` keeps, then `name`. -/
theorem getRelativePath_file (dir name root : String) (hn : noSlash name)
    (hkeep : name ∉ splitPath root) :
    getRelativePath (dir ++ "/" ++ name) root =
      joinPath ((splitPath dir).filter (fun seg => seg ∉ splitPath root) ++ [name]) := by
  unfold getRelativePath
  rw [splitPath_file dir name hn, List.filter_append]
  simp [hkeep]

/-- Joined paths with the same leading segments are equal only for equal last segments. -/
theorem joinPath_last_inj (xs : List String) (a b : String)
    (h : joinPath (xs ++ [a]) = joinPath (xs ++ [b])) : a = b := by
  have hd := congrArg String.data h
  rw [joinPath_data, joinPath_data, List.map_append, List.map_append] at hd
  apply String.ext
  cases xs with
  | nil => simpa [joinChars, tailChars] using hd
  | cons x xs =>
    rw [joinChars_append _ _ (by simp), joinChars_append _ _ (by simp)] at hd
    simpa [tailChars] using hd

/-- The stored name of a gallery upload has no `/` when the original name has none, and is
not a segment of the file server root. -/
theorem galleryName_kept (name : String) (hn : noSlash name) :
    noSlash ("gallery-image-" ++ name) ∧
      "gallery-image-" ++ name ∉ splitPath config.file_server_root := by
  constructor
  · unfold noSlash at hn ⊢
    rw [String.data_append, List.mem_append]
    rintro (h | h)
    · exact absurd h (by decide)
    · exact hn h
  · have hroot : splitPath config.file_server_root = ["", "usr", "local"] := by decide
    rw [hroot]
    intro h
    simp only [List.mem_cons, List.mem_singleton, List.not_mem_nil, or_false] at h
    rcases h with h | h | h <;>
    · have := congrArg String.data h
      rw [String.data_append] at this
      have hh := congrArg List.head? this
      have hg : "gallery-image-".data = 'g' :: "allery-image-".data := by decide
      rw [hg, List.cons_append, List.head?_cons] at hh
      revert hh
      decide

/-- C27, amended: the AssetRef of a gallery upload is computed from the vendor id and the
product id of the path and the original name of the file alone, so for original names
without `/` two gallery uploads on the same path yield the same AssetRef exactly when the
original names are equal, and the value is the one `appendGallery` stores. -/
theorem C27_gallery_refs_equal_iff_names_equal (V P : String) (f1 f2 : UploadFile)
    (h1 : noSlash f1.originalname) (h2 : noSlash f2.originalname) :
    (getRelativePath (itemDir V "products" P ++ "/" ++ storageFilename galleryRoutePath f1)
        config.file_server_root =
      getRelativePath (itemDir V "products" P ++ "/" ++ storageFilename galleryRoutePath f2)
        config.file_server_root ↔ f1.originalname = f2.originalname) ∧
    getRelativePath (itemDir V "products" P ++ "/" ++ storageFilename galleryRoutePath f1)
        config.file_server_root = galleryRef V P f1.originalname := by
  have hname : ∀ f : UploadFile,
      storageFilename galleryRoutePath f = "gallery-image-" ++ f.originalname := by
    intro f
    unfold storageFilename
    rw [if_pos (by decide)]
  refine ⟨⟨?_, ?_⟩, ?_⟩
  · intro h
    rw [hname, hname,
      getRelativePath_file _ _ _ (galleryName_kept _ h1).1 (galleryName_kept _ h1).2,
      getRelativePath_file _ _ _ (galleryName_kept _ h2).1 (galleryName_kept _ h2).2] at h
    have hlast := congrArg String.data (joinPath_last_inj _ _ _ h)
    rw [String.data_append, String.data_append] at hlast
    exact String.ext (List.append_cancel_left hlast)
  · intro h
    rw [hname, hname, h]
  · rw [hname]
    rfl

/-- Witness of C27: on the path of vendor `v1` and product `p1`, the uploads `a.jpg` and
`b.jpg` yield different AssetRefs. -/
theorem C27_gallery_refs_equal_iff_names_equal_witness :
    getRelativePath (itemDir "v1" "products" "p1" ++ "/" ++
        storageFilename galleryRoutePath ⟨"a.jpg", "image/jpeg"⟩) config.file_server_root ≠
      getRelativePath (itemDir "v1" "products" "p1" ++ "/" ++
        storageFilename galleryRoutePath ⟨"b.jpg", "image/jpeg"⟩) config.file_server_root :=
  fun h =>
    absurd ((C27_gallery_refs_equal_iff_names_equal "v1" "p1" ⟨"a.jpg", "image/jpeg"⟩
      ⟨"b.jpg", "image/jpeg"⟩ (by decide) (by decide)).1.1 h) (by decide)

/-! ## Theorems: the relative path of an upload -/

/-- The segments of `a/b`. -/
theorem splitPath_append_slash (a b : String) :
    splitPath (a ++ "/" ++ b) = splitPath a ++ splitPath b := by
  have hd : (a ++ "/" ++ b).data = a.data ++ '/' :: b.data := by
    simp [String.data_append]
  unfold splitPath
  rw [hd, splitOnSlash_append_slash, List.map_append]

/-- The round trip of `getRelativePath` when no segment of `rest` is a segment of the path
to strip. -/
theorem getRelativePath_round_trip (root rest : String)
    (h : ∀ seg ∈ splitPath rest, seg ∉ splitPath root) :
    getRelativePath (root ++ "/" ++ rest) root = rest := by
  unfold getRelativePath
  rw [splitPath_append_slash, List.filter_append]
  have h1 : (splitPath root).filter (fun seg => decide (seg ∉ splitPath root)) = [] := by
    rw [List.filter_eq_nil_iff]
    intro seg hseg
    simp [hseg]
  have h2 : (splitPath rest).filter (fun seg => decide (seg ∉ splitPath root))
      = splitPath rest := by
    rw [List.filter_eq_self]
    intro seg hseg
    simpa using h seg hseg
  rw [h1, h2, List.nil_append, joinPath_splitPath]

/-- The path of an uploaded file, `upload_root/<vendor id>/<kind>/<item id>/<name>`, is the
file server root followed by `uploads/<vendor id>/<kind>/<item id>/<name>`. -/
theorem uploadPath_under_root (V kind I name : String) :
    itemDir V kind I ++ "/" ++ name =
      config.file_server_root ++ "/" ++
        ("uploads" ++ "/" ++ V ++ "/" ++ kind ++ "/" ++ I ++ "/" ++ name) := by
  apply String.ext
  have hroot : config.upload_root_dir.data =
      config.file_server_root.data ++ '/' :: "uploads".data := by decide
  simp only [itemDir, kindDir, String.data_append, hroot, List.append_assoc]
  rfl

/-- The segments of `uploads/<vendor id>/<kind>/<item id>/<name>` when the four names have
no `/`. -/
theorem uploadPath_segments (V kind I name : String) (hV : noSlash V) (hk : noSlash kind)
    (hI : noSlash I) (hn : noSlash name) :
    splitPath ("uploads" ++ "/" ++ V ++ "/" ++ kind ++ "/" ++ I ++ "/" ++ name) =
      ["uploads", V, kind, I, name] := by
  rw [splitPath_file _ name hn, splitPath_file _ I hI, splitPath_file _ kind hk,
    splitPath_file _ V hV]
  have : splitPath "uploads" = ["uploads"] := by decide
  rw [this]
  rfl

/-- C28 amended: when no segment of `rest` is a segment of `pathToStrip`,
`getRelativePath(pathToStrip + '/' + rest, pathToStrip)` is `rest`, and `pathToStrip`, `/`
and the result give the full path back.  The paths the upload routes hand over are of this
kind: for a vendor id, a kind, an item id and a file name that have no `/` and are none of
the segments of the file server root, the empty one included, the AssetRef of
`upload_root/<vendor id>/<kind>/<item id>/<name>` is `uploads/<vendor id>/<kind>/<item
id>/<name>`, and `assetPath` of it is the path of the file. -/
theorem C28_round_trip_for_other_segments (root rest : String)
    (h : ∀ seg ∈ splitPath rest, seg ∉ splitPath root) :
    getRelativePath (root ++ "/" ++ rest) root = rest ∧
    root ++ "/" ++ getRelativePath (root ++ "/" ++ rest) root = root ++ "/" ++ rest ∧
    (∀ V kind I name : String, noSlash V → noSlash kind → noSlash I → noSlash name →
      V ∉ splitPath config.file_server_root → kind ∉ splitPath config.file_server_root →
      I ∉ splitPath config.file_server_root → name ∉ splitPath config.file_server_root →
      getRelativePath (itemDir V kind I ++ "/" ++ name) config.file_server_root =
        "uploads" ++ "/" ++ V ++ "/" ++ kind ++ "/" ++ I ++ "/" ++ name ∧
      assetPath (getRelativePath (itemDir V kind I ++ "/" ++ name) config.file_server_root) =
        itemDir V kind I ++ "/" ++ name) := by
  have hrt := getRelativePath_round_trip root rest h
  refine ⟨hrt, by rw [hrt], ?_⟩
  intro V kind I name hV hk hI hn hV2 hk2 hI2 hn2
  have hsegs : ∀ seg ∈ splitPath
      ("uploads" ++ "/" ++ V ++ "/" ++ kind ++ "/" ++ I ++ "/" ++ name),
      seg ∉ splitPath config.file_server_root := by
    rw [uploadPath_segments V kind I name hV hk hI hn]
    intro seg hseg
    simp only [List.mem_cons, List.mem_singleton, List.not_mem_nil, or_false] at hseg
    rcases hseg with rfl | rfl | rfl | rfl | rfl
    · decide
    · exact hV2
    · exact hk2
    · exact hI2
    · exact hn2
  have hcall := getRelativePath_round_trip config.file_server_root _ hsegs
  rw [uploadPath_under_root, hcall]
  exact ⟨rfl, rfl⟩

/-- Witness of C28 amended: the path of the file `a.jpg` uploaded for product `p1` of
vendor `v1`. -/
theorem C28_round_trip_for_other_segments_witness :
    getRelativePath ("/usr/local" ++ "/" ++ "uploads/v1/products/p1/a.jpg") "/usr/local"
      = "uploads/v1/products/p1/a.jpg" ∧
    getRelativePath (itemDir "v1" "products" "p1" ++ "/" ++ "a.jpg") config.file_server_root
      = "uploads/v1/products/p1/a.jpg" :=
  have h := C28_round_trip_for_other_segments "/usr/local" "uploads/v1/products/p1/a.jpg"
    (by decide)
  ⟨h.1,
    ((h.2.2 "v1" "products" "p1" "a.jpg" (by decide) (by decide) (by decide) (by decide)
      (by decide) (by decide) (by decide) (by decide)).1).trans (by decide)⟩

end Ecommerce
